import Mathlib

/-!
TcrConnection: usage gate, frame reader, chunked reply reader, health and handshake

A shallow embedding of `cppcache/src/TcrConnection.cpp`.  Member functions
become pure functions over the part of the object state they touch; an
exception becomes the `Except.error` branch of the result.
-/

namespace TcrConnection

/-! ## Usage gate (`m_isUsed`, `setAndGetBeingUsed`) -/

/-- Sequential semantics of `std::atomic<uint32_t>::compare_exchange_strong`:
the result is `(success, new value of the atomic, new value of expected)`. -/
def compare_exchange_strong (obj expected desired : Nat) : Bool × Nat × Nat :=
  if obj = expected then (true, desired, expected) else (false, obj, obj)

/-- Embeds `TcrConnection::setAndGetBeingUsed`: the argument `m_isUsed` is the value
of the atomic before the call, the result is `(returned bool, m_isUsed after)`. -/
def setAndGetBeingUsed (m_isUsed : Nat) (isBeingUsed forTransaction : Bool) :
    Bool × Nat :=
  let currentValue : Nat := 0
  if !forTransaction then
    if isBeingUsed then
      if m_isUsed = 1 ∨ m_isUsed = 2 then (false, m_isUsed)
      else
        let r := compare_exchange_strong m_isUsed currentValue 1
        if r.1 then (true, r.2.1) else (false, r.2.1)
    else
      (true, 0)
  else
    if isBeingUsed then
      if m_isUsed = 1 then (false, m_isUsed)
      else if m_isUsed = 2 then (true, m_isUsed)
      else
        let r := compare_exchange_strong m_isUsed currentValue 2
        if r.1 then (true, r.2.1) else (false, r.2.1)
    else
      (true, m_isUsed)

/-! ## Transport and error codes -/

deriving instance DecidableEq for Except

/-- A byte on the wire. -/
abbrev Byte := Fin 256

/-- Enumerators of `ConnErrType`.  They are pairwise distinct: all five are
case labels of the single `switch` in `TcrConnection::send`. -/
inductive ConnErrType
  | CONN_NOERR
  | CONN_NODATA
  | CONN_TIMEOUT
  | CONN_IOERR
  | CONN_OTHERERR
  deriving DecidableEq, Repr

/-- Declarations the file uses but that are made in headers outside it
(`TcrConnection.hpp`, `TcrMessage.hpp`) and the tick length of
`std::chrono::system_clock`; they are parameters of the embedding. -/
structure Decls where
  /-- numeric value of each `ConnErrType` enumerator (used by `error & CONN_TIMEOUT`) -/
  errValue : ConnErrType → Nat
  /-- the constant `DEFAULT_READ_TIMEOUT`, in microseconds -/
  DEFAULT_READ_TIMEOUT : Int
  /-- the constant `DEFAULT_TIMEOUT_RETRIES` -/
  DEFAULT_TIMEOUT_RETRIES : Int
  /-- the message type `TcrMessage::GET_CLIENT_PR_METADATA` -/
  GET_CLIENT_PR_METADATA : Int
  /-- default argument of the parameter `request` of `readMessage` -/
  defaultRequest : Int
  /-- ticks of `std::chrono::system_clock` per microsecond -/
  clockTicksPerMicro : Int

/-- One concrete instance of the declarations, used to evaluate the definitions
on examples. -/
def geodeDecls : Decls where
  errValue
    | .CONN_NOERR => 0
    | .CONN_NODATA => 1
    | .CONN_TIMEOUT => 3
    | .CONN_IOERR => 4
    | .CONN_OTHERERR => 8
  DEFAULT_READ_TIMEOUT := 15000000
  DEFAULT_TIMEOUT_RETRIES := 12
  GET_CLIENT_PR_METADATA := 91
  defaultRequest := -1
  clockTicksPerMicro := 1000

/-- The test `error & CONN_TIMEOUT`, converted to `bool`. -/
def Decls.andTimeout (d : Decls) (error : ConnErrType) : Bool :=
  (d.errValue error &&& d.errValue .CONN_TIMEOUT) != 0

/-- The `boost::system::system_error` codes that `receiveData` and `sendData`
tell apart; `other` is every code that reaches `default:`. -/
inductive AsioError
  | eof
  | operation_aborted
  | other
  deriving DecidableEq, Repr

/-- Modelled from the spec: the transport adapter (`Connector`, not in this
file), "synchronous send/receive over a byte stream with a millisecond
timeout; reports timeout vs disconnect vs I/O error".  `input` holds the bytes
the peer delivers, in wire order; a receive of more bytes than are left fails
with `fault`; a send fails with `sendFault` when that is set.  Every call
is recorded with the timeout it was given. -/
structure Connector where
  input : List Byte
  fault : AsioError
  sendFault : Option AsioError
  /-- the `(length, timeout in ms)` of every `receive` call, oldest first -/
  reads : List (Nat × Int)
  /-- the `(bytes, timeout in ms)` of every `send` call, oldest first -/
  sent : List (List Byte × Int)
  deriving DecidableEq, Repr

/-- Modelled from the spec: `Connector::receive(buffer, length, timeout)`, which
fills the whole buffer or throws. -/
def Connector.receive (c : Connector) (length : Nat) (timeoutMs : Int) :
    Except AsioError (List Byte) × Connector :=
  if length ≤ c.input.length then
    (.ok (c.input.take length),
      { c with input := c.input.drop length, reads := c.reads ++ [(length, timeoutMs)] })
  else
    (.error c.fault, { c with input := [], reads := c.reads ++ [(length, timeoutMs)] })

/-- Modelled from the spec: `Connector::send(buffer, length, timeout)`. -/
def Connector.send (c : Connector) (buffer : List Byte) (timeoutMs : Int) :
    Except AsioError Unit × Connector :=
  match c.sendFault with
  | none => (.ok (), { c with sent := c.sent ++ [(buffer, timeoutMs)] })
  | some e => (.error e, { c with sent := c.sent ++ [(buffer, timeoutMs)] })

/-- The cast `std::chrono::duration_cast<std::chrono::milliseconds>` of microseconds. -/
def toMilliseconds (us : Int) : Int := Int.tdiv us 1000

/-- Embeds `TcrConnection::receiveData`: `(error, buffer contents, m_conn after)`.
The statistics counter is not modelled. -/
def receiveData (m_conn : Connector) (length : Nat) (timeout : Int) :
    ConnErrType × List Byte × Connector :=
  match m_conn.receive length (toMilliseconds timeout) with
  | (.ok readBytes, c) => (.CONN_NOERR, readBytes, c)
  | (.error .eof, c) => (.CONN_NODATA, [], c)
  | (.error .operation_aborted, c) => (.CONN_TIMEOUT, [], c)
  | (.error .other, c) => (.CONN_IOERR, [], c)

/-- Embeds `TcrConnection::sendData`. -/
def sendData (m_conn : Connector) (buffer : List Byte) (timeout : Int) :
    ConnErrType × Connector :=
  match m_conn.send buffer (toMilliseconds timeout) with
  | (.ok _, c) => (.CONN_NOERR, c)
  | (.error .operation_aborted, c) => (.CONN_TIMEOUT, c)
  | (.error _, c) => (.CONN_IOERR, c)

/-- What a member function throws.  `invalidSize` stands for a negative length
reaching an allocation (`std::length_error`, `std::bad_alloc` or undefined
behaviour); it is not a geode `Exception`. -/
inductive Raised
  | TimeoutException (message : String)
  | GeodeIOException (message : String)
  | invalidSize
  deriving DecidableEq, Repr

/-- Whether `catch (const Exception&)` catches the thrown object. -/
def Raised.isException : Raised → Bool
  | .TimeoutException _ => true
  | .GeodeIOException _ => true
  | .invalidSize => false

def HEADER_LENGTH : Nat := 17
def CHUNK_HEADER_LENGTH : Nat := 5
def LAST_CHUNK_MASK : Nat := 1

/-- Modelled from the spec: `DataInput::readInt32` (serialization layer, not in
this file), a fixed-width integer decode: four bytes, most significant first,
two's complement.  Returns the value and the unread rest of the buffer. -/
def DataInput.readInt32 (buf : List Byte) : Int × List Byte :=
  let u : Nat := (buf.getD 0 0).val * 16777216 + (buf.getD 1 0).val * 65536 +
    (buf.getD 2 0).val * 256 + (buf.getD 3 0).val
  (if u < 2147483648 then (u : Int) else (u : Int) - 4294967296, buf.drop 4)

/-- Modelled from the spec: `DataInput::read`, one byte. -/
def DataInput.read (buf : List Byte) : Byte × List Byte :=
  (buf.getD 0 0, buf.drop 1)

/-- Embeds `TcrConnection::send`: throws on every outcome of `sendData` but `CONN_NOERR`. -/
def send (m_conn : Connector) (buffer : List Byte) (sendTimeoutSec : Int) :
    Except Raised Unit × Connector :=
  match sendData m_conn buffer sendTimeoutSec with
  | (.CONN_NOERR, c) => (.ok (), c)
  | (.CONN_TIMEOUT, c) =>
    (.error (.TimeoutException "TcrConnection::send: connection timed out"), c)
  | (_, c) =>
    (.error (.GeodeIOException "TcrConnection::send: connection failure"), c)

/-! ## Frame reader (simple request/response) -/

/-- Everything `readMessage` leaves behind: the returned pointer (`none` is
`nullptr`) or the exception thrown, the out-parameters `*recvLen` and `*opErr`,
and the connector. -/
structure ReadMessageResult where
  result : Except Raised (Option (List Byte))
  recvLen : Int
  opErr : ConnErrType
  m_conn : Connector
  deriving DecidableEq, Repr

/-- Embeds `TcrConnection::readMessage`.  `recvLen` and `opErr` are the values
the out-parameters hold on entry.  A negative `msgLen` (an allocation of
`HEADER_LENGTH + msgLen` bytes followed by a copy of `HEADER_LENGTH` bytes)
is reported as `invalidSize`. -/
def readMessage (d : Decls) (m_conn : Connector) (recvLen : Int) (opErr : ConnErrType)
    (receiveTimeoutSec : Int) (doHeaderTimeoutRetries : Bool)
    (isNotificationMessage : Bool) (request : Int) : ReadMessageResult :=
  let headerTimeout : Int :=
    if doHeaderTimeoutRetries ∧ receiveTimeoutSec = d.DEFAULT_READ_TIMEOUT then
      d.DEFAULT_READ_TIMEOUT * d.DEFAULT_TIMEOUT_RETRIES
    else receiveTimeoutSec
  match receiveData m_conn HEADER_LENGTH headerTimeout with
  | (error, msg_header, conn1) =>
    if error ≠ .CONN_NOERR then
      if error = .CONN_NODATA ∨ (error = .CONN_TIMEOUT ∧ !isNotificationMessage) then
        if isNotificationMessage then
          ⟨.ok none, recvLen, opErr, conn1⟩
        else
          ⟨.error (.TimeoutException
            "TcrConnection::readMessage: connection timed out while receiving message header"),
            recvLen, opErr, conn1⟩
      else
        if isNotificationMessage then
          ⟨.ok none, recvLen, .CONN_IOERR, conn1⟩
        else
          ⟨.error (.GeodeIOException
            "TcrConnection::readMessage: connection failure while receiving message header"),
            recvLen, opErr, conn1⟩
    else
      -- ignore msgType
      let input := (DataInput.readInt32 msg_header).2
      let msgLen : Int := (DataInput.readInt32 input).1
      if msgLen < 0 then
        ⟨.error .invalidSize, recvLen, opErr, conn1⟩
      else if ¬ (msgLen > 0) ∧ request = d.GET_CLIENT_PR_METADATA then
        ⟨.ok (some msg_header), HEADER_LENGTH + msgLen, opErr, conn1⟩
      else
        let mesgBodyTimeout : Int :=
          if isNotificationMessage then receiveTimeoutSec * d.DEFAULT_TIMEOUT_RETRIES
          else receiveTimeoutSec
        match receiveData conn1 msgLen.toNat mesgBodyTimeout with
        | (error2, body, conn2) =>
          if error2 ≠ .CONN_NOERR then
            if d.andTimeout error2 ∧ !isNotificationMessage then
              ⟨.error (.TimeoutException
                "TcrConnection::readMessage: connection timed out while receiving message body"),
                HEADER_LENGTH + msgLen, opErr, conn2⟩
            else
              if isNotificationMessage then
                ⟨.ok none, HEADER_LENGTH + msgLen, .CONN_IOERR, conn2⟩
              else
                ⟨.error (.GeodeIOException
                  "TcrConnection::readMessage: connection failure while receiving message body"),
                  HEADER_LENGTH + msgLen, opErr, conn2⟩
          else
            ⟨.ok (some (msg_header ++ body)), HEADER_LENGTH + msgLen, opErr, conn2⟩

/-- Embeds `TcrConnection::receive`. -/
def receive (d : Decls) (m_conn : Connector) (recvLen : Int) (opErr : ConnErrType)
    (receiveTimeoutSec : Int) : ReadMessageResult :=
  readMessage d m_conn recvLen opErr receiveTimeoutSec false true d.defaultRequest

/-- Embeds `TcrConnection::sendRequest`.  `start` and `finish` are the two readings
of `std::chrono::system_clock::now()`, before and after the send, in clock
ticks; the local `opErr` starts as `CONN_NOERR`. -/
def sendRequest (d : Decls) (m_conn : Connector) (buffer : List Byte) (recvLen : Int)
    (sendTimeoutSec receiveTimeoutSec : Int) (request : Int) (start finish : Int) :
    ReadMessageResult :=
  match send m_conn buffer sendTimeoutSec with
  | (.error e, conn1) => ⟨.error e, recvLen, .CONN_NOERR, conn1⟩
  | (.ok _, conn1) =>
    let timeSpent : Int := start - finish
    if timeSpent ≥ receiveTimeoutSec * d.clockTicksPerMicro then
      ⟨.error (.TimeoutException "TcrConnection::send: connection timed out"),
        recvLen, .CONN_NOERR, conn1⟩
    else
      let receiveTimeoutSec1 := receiveTimeoutSec - Int.tdiv timeSpent d.clockTicksPerMicro
      readMessage d conn1 recvLen .CONN_NOERR receiveTimeoutSec1 true false request

/-! ## Chunked reply reader -/

/-- The struct `chunkHeader`: chunk length and the flags byte. -/
structure chunkHeader where
  chunkLength : Int
  flags : Byte
  deriving DecidableEq, Repr

/-- The struct `chunkedResponseHeader`. -/
structure chunkedResponseHeader where
  messageType : Int
  numberOfParts : Int
  transactionId : Int
  header : chunkHeader
  deriving DecidableEq, Repr

/-- One call of `processChunk` on the reply object, with its arguments as
written at the call site; `flags` is `none` when the fourth argument is
omitted, as in the call made by `~FinalizeProcessChunk`. -/
structure ChunkCall where
  chunk : List Byte
  len : Int
  endpointmemId : Nat
  flags : Option Byte
  deriving DecidableEq, Repr

/-- Modelled from the spec: the reply object with its chunk consumer
(`TcrMessageReply`, not in this file).  It keeps the message type and
transaction id set on it, the number of `startProcessChunk` calls, the
`processChunk` calls in order, and its chunked-result handler: `none` when
`getChunkedResultHandler()` is null, otherwise the exception the handler has
recorded, if any. -/
structure TcrMessageReply where
  messageType : Int
  transId : Int
  started : Nat
  chunks : List ChunkCall
  handler : Option (Option String)
  deriving DecidableEq, Repr

/-- Modelled from the spec: `TcrMessage::processChunk`, which hands one chunk
to the consumer. -/
def TcrMessageReply.processChunk (reply : TcrMessageReply) (chunk : List Byte)
    (len : Int) (endpointmemId : Nat) (flags : Option Byte) : TcrMessageReply :=
  { reply with chunks := reply.chunks ++ [⟨chunk, len, endpointmemId, flags⟩] }

/-- The destructor `~FinalizeProcessChunk`: enqueue an empty chunk of length 0. -/
def FinalizeProcessChunk.destroy (m_reply : TcrMessageReply) (m_endpointMemId : Nat) :
    TcrMessageReply :=
  m_reply.processChunk [] 0 m_endpointMemId none

/-- The end-of-stream call that `~FinalizeProcessChunk` makes. -/
def endOfStream (endpointMemId : Nat) : ChunkCall := ⟨[], 0, endpointMemId, none⟩

/-- Embeds `TcrConnection::calculateHeaderTimeout`. -/
def calculateHeaderTimeout (d : Decls) (receiveTimeout : Int) (retry : Bool) : Int :=
  if retry ∧ receiveTimeout = d.DEFAULT_READ_TIMEOUT then
    receiveTimeout * d.DEFAULT_TIMEOUT_RETRIES
  else receiveTimeout

/-- Embeds `TcrConnection::readResponseHeader`. -/
def readResponseHeader (d : Decls) (m_conn : Connector) (timeout : Int) :
    Except Raised chunkedResponseHeader × Connector :=
  match receiveData m_conn HEADER_LENGTH timeout with
  | (error, receiveBuffer, conn1) =>
    if error ≠ .CONN_NOERR then
      if d.andTimeout error then
        (.error (.TimeoutException
          "TcrConnection::readResponseHeader: connection timed out while receiving message header"),
          conn1)
      else
        (.error (.GeodeIOException
          "TcrConnection::readResponseHeader: connection failure while receiving message header"),
          conn1)
    else
      let r1 := DataInput.readInt32 receiveBuffer
      let r2 := DataInput.readInt32 r1.2
      let r3 := DataInput.readInt32 r2.2
      let r4 := DataInput.readInt32 r3.2
      let r5 := DataInput.read r4.2
      (.ok ⟨r1.1, r2.1, r3.1, ⟨r4.1, r5.1⟩⟩, conn1)

/-- Embeds `TcrConnection::readChunkHeader`. -/
def readChunkHeader (d : Decls) (m_conn : Connector) (timeout : Int) :
    Except Raised chunkHeader × Connector :=
  match receiveData m_conn CHUNK_HEADER_LENGTH timeout with
  | (error, receiveBuffer, conn1) =>
    if error ≠ .CONN_NOERR then
      if d.andTimeout error then
        (.error (.TimeoutException
          "TcrConnection::readChunkHeader: connection timed out while receiving message header"),
          conn1)
      else
        (.error (.GeodeIOException
          "TcrConnection::readChunkHeader: connection failure while receiving message header"),
          conn1)
    else
      let r1 := DataInput.readInt32 receiveBuffer
      let r2 := DataInput.read r1.2
      (.ok ⟨r1.1, r2.1⟩, conn1)

/-- Embeds `TcrConnection::readChunkBody`.  A negative `chunkLength` makes the
construction of the vector fail (`invalidSize`). -/
def readChunkBody (d : Decls) (m_conn : Connector) (timeout : Int) (chunkLength : Int) :
    Except Raised (List Byte) × Connector :=
  if chunkLength < 0 then (.error .invalidSize, m_conn)
  else
    match receiveData m_conn chunkLength.toNat timeout with
    | (error, chunkBody, conn1) =>
      if error ≠ .CONN_NOERR then
        if d.andTimeout error then
          (.error (.TimeoutException
            "TcrConnection::readChunkBody: connection timed out while receiving chunk body"),
            conn1)
        else
          (.error (.GeodeIOException
            "TcrConnection::readChunkBody: connection failure while receiving chunk body"),
            conn1)
      else (.ok chunkBody, conn1)

/-- Embeds `TcrConnection::processChunk`.  The flags byte is an `int8_t` in the
source; `& LAST_CHUNK_MASK` reads bit 0, which is the same bit of the unsigned
byte.  `memId` is `m_endpointObj->getDistributedMemberID()`. -/
def processChunk (d : Decls) (memId : Nat) (m_conn : Connector) (reply : TcrMessageReply)
    (timeout : Int) (chunkLength : Int) (lastChunkAndSecurityFlags : Byte) :
    Except Raised Bool × TcrMessageReply × Connector :=
  match readChunkBody d m_conn timeout chunkLength with
  | (.error e, conn1) => (.error e, reply, conn1)
  | (.ok chunkBody, conn1) =>
    let reply1 := reply.processChunk chunkBody chunkLength memId (some lastChunkAndSecurityFlags)
    (.ok (if lastChunkAndSecurityFlags.val &&& LAST_CHUNK_MASK ≠ 0 then false else true),
      reply1, conn1)

/-- The `while` loop of `readMessageChunked`, with `header` the loop variable.
The first argument bounds the number of iterations; `none` means the bound
was reached before the loop ended. -/
def readChunks (d : Decls) (memId : Nat) (receiveTimeout headerTimeout : Int) :
    Nat → Connector → TcrMessageReply → chunkHeader →
      Option (Except Raised Unit × TcrMessageReply × Connector)
  | 0, _, _, _ => none
  | fuel + 1, m_conn, reply, header =>
    match processChunk d memId m_conn reply receiveTimeout header.chunkLength header.flags with
    | (.error e, reply1, conn1) => some (.error e, reply1, conn1)
    | (.ok false, reply1, conn1) => some (.ok (), reply1, conn1)
    | (.ok true, reply1, conn1) =>
      match readChunkHeader d conn1 headerTimeout with
      | (.error e, conn2) => some (.error e, reply1, conn2)
      | (.ok header1, conn2) =>
        readChunks d memId receiveTimeout headerTimeout fuel conn2 reply1 header1

/-- The `catch (const Exception&)` block of `readMessageChunked`: clear the
exception the handler has recorded, if there is a handler. -/
def clearHandlerException (reply : TcrMessageReply) : TcrMessageReply :=
  match reply.handler with
  | none => reply
  | some none => reply
  | some (some _) => { reply with handler := some none }

/-- Embeds `TcrConnection::readMessageChunked`.  The loop is run with a bound of
one more than the number of bytes left on the wire (every further iteration
reads a 5-byte chunk header); `readMessageChunked_total` shows the bound is
never reached.  The object `endProcessChunk` is destroyed when the scope is
left, normally or by an exception, after the `catch` block has run. -/
def readMessageChunked (d : Decls) (memId : Nat) (m_conn : Connector)
    (reply : TcrMessageReply) (receiveTimeout : Int) (doHeaderTimeoutRetries : Bool) :
    Option (Except Raised Unit × TcrMessageReply × Connector) :=
  let headerTimeout := calculateHeaderTimeout d receiveTimeout doHeaderTimeoutRetries
  match readResponseHeader d m_conn headerTimeout with
  | (.error e, conn1) => some (.error e, reply, conn1)
  | (.ok responseHeader, conn1) =>
    let reply1 := { reply with messageType := responseHeader.messageType }
    let reply2 := { reply1 with transId := responseHeader.transactionId }
    let reply3 := { reply2 with started := reply2.started + 1 }
    match readChunks d memId receiveTimeout headerTimeout (conn1.input.length + 1)
        conn1 reply3 responseHeader.header with
    | none => none
    | some (.ok _, reply4, conn2) =>
      some (.ok (), FinalizeProcessChunk.destroy reply4 memId, conn2)
    | some (.error e, reply4, conn2) =>
      let reply5 := if e.isException then clearHandlerException reply4 else reply4
      some (.error e, FinalizeProcessChunk.destroy reply5 memId, conn2)

/-! ## Wire format of a chunked reply, used to state the theorems -/

/-- The `ConnErrType` that `receiveData` reports for each transport fault. -/
def recvError : AsioError → ConnErrType
  | .eof => .CONN_NODATA
  | .operation_aborted => .CONN_TIMEOUT
  | .other => .CONN_IOERR

/-- A chunk as it travels on the wire: the 4-byte length field and the flags
byte (the 5-byte chunk header; for the first chunk they are the last 5 bytes
of the 17-byte response header), then the body. -/
structure WireChunk where
  lenField : List Byte
  flags : Byte
  body : List Byte
  deriving DecidableEq, Repr

/-- The length field has 4 bytes and encodes the length of the body. -/
def WireChunk.wellFormed (c : WireChunk) : Prop :=
  c.lenField.length = 4 ∧ (DataInput.readInt32 c.lenField).1 = (c.body.length : Int)

instance (c : WireChunk) : Decidable c.wellFormed := by
  unfold WireChunk.wellFormed; infer_instance

/-- The bytes of a chunk in wire order. -/
def WireChunk.bytes (c : WireChunk) : List Byte := c.lenField ++ [c.flags] ++ c.body

/-- The bytes of a sequence of chunks in wire order. -/
def wireBytes : List WireChunk → List Byte
  | [] => []
  | c :: cs => c.bytes ++ wireBytes cs

/-- Bit 0 of the flags byte: the last-chunk marker. -/
def WireChunk.lastBit (c : WireChunk) : Bool := c.flags.val.testBit 0

/-- The last-chunk bit is set on the last chunk of the sequence and clear on
every chunk before it (so the sequence is not empty). -/
def lastBitOnlyAtEnd : List WireChunk → Bool
  | [] => false
  | [c] => c.lastBit
  | c :: c' :: cs => !c.lastBit && lastBitOnlyAtEnd (c' :: cs)

/-- The `processChunk` call the reader makes for a chunk read off the wire. -/
def WireChunk.call (memId : Nat) (c : WireChunk) : ChunkCall :=
  ⟨c.body, c.body.length, memId, some c.flags⟩

/-- Sum of the body lengths of a sequence of chunks. -/
def totalBodyLength : List WireChunk → Nat
  | [] => 0
  | c :: cs => c.body.length + totalBodyLength cs

/-- The loop of `readMessageChunked` entered at the assignment
`header = readChunkHeader(headerTimeout)`, that is, after a chunk that was not
the last one; `readChunks` continues with this after each such chunk. -/
def readChunksNext (d : Decls) (memId : Nat) (receiveTimeout headerTimeout : Int)
    (fuel : Nat) (m_conn : Connector) (reply : TcrMessageReply) :
    Option (Except Raised Unit × TcrMessageReply × Connector) :=
  match readChunkHeader d m_conn headerTimeout with
  | (.error e, conn2) => some (.error e, reply, conn2)
  | (.ok header1, conn2) =>
    readChunks d memId receiveTimeout headerTimeout fuel conn2 reply header1

/-- The exception `readChunkBody` throws when the transport fails with `fault`. -/
def chunkBodyFailure (d : Decls) (fault : AsioError) : Raised :=
  if d.andTimeout (recvError fault) then
    .TimeoutException
      "TcrConnection::readChunkBody: connection timed out while receiving chunk body"
  else
    .GeodeIOException
      "TcrConnection::readChunkBody: connection failure while receiving chunk body"

/-- The exception `readChunkHeader` throws when the transport fails with `fault`. -/
def chunkHeaderFailure (d : Decls) (fault : AsioError) : Raised :=
  if d.andTimeout (recvError fault) then
    .TimeoutException
      "TcrConnection::readChunkHeader: connection timed out while receiving message header"
  else
    .GeodeIOException
      "TcrConnection::readChunkHeader: connection failure while receiving message header"

/-! ## Connection health tracker -/

/-- Embeds `expiryTimeVariancePercentage`.  The argument is the value returned
by `rand()` (the seeding by `srand` only influences which value that is);
`%` is the C++ remainder. -/
def expiryTimeVariancePercentage (rand : Int) : Int :=
  let numbers : Int := 21
  let random : Int := Int.tmod rand numbers + 1
  if random > 10 then random - numbers else random

/-- The health fields of a connection: `m_creationTime` and `m_lastAccessed`
(readings of `std::chrono::steady_clock`, in clock ticks) and
`m_expiryTimeVariancePercentage`. -/
structure Health where
  m_creationTime : Int
  m_lastAccessed : Int
  m_expiryTimeVariancePercentage : Int
  deriving DecidableEq, Repr

/-- The local `variadicExpiryTime` of `hasExpired`, in milliseconds; `/` is the
C++ integer division, which truncates. -/
def variadicExpiryTime (expiryTime m_expiryTimeVariancePercentage : Int) : Int :=
  expiryTime + Int.tdiv (expiryTime * m_expiryTimeVariancePercentage) 100

/-- Embeds `TcrConnection::hasExpired`.  `now` is the reading of
`steady_clock::now()` in clock ticks, `expiryTime` is in milliseconds and
`ticksPerMilli` is the number of clock ticks in a millisecond (the comparison
is made in the finer unit).  Durations are unbounded integers. -/
def hasExpired (ticksPerMilli : Int) (h : Health) (now : Int) (expiryTime : Int) : Bool :=
  if expiryTime ≤ 0 then false
  else
    decide (now - h.m_creationTime >
      variadicExpiryTime expiryTime h.m_expiryTimeVariancePercentage * ticksPerMilli)

/-- Embeds `TcrConnection::isIdle`, with the same conventions as `hasExpired`. -/
def isIdle (ticksPerMilli : Int) (h : Health) (now : Int) (idleTime : Int) : Bool :=
  if idleTime ≤ 0 then false
  else decide (now - h.m_lastAccessed > idleTime * ticksPerMilli)

/-- Embeds `TcrConnection::touch`; `now` is the reading of the clock. -/
def touch (h : Health) (now : Int) : Health :=
  { h with m_lastAccessed := now }

/-- Embeds `TcrConnection::updateCreationTime`; `now` is the reading of the clock
taken by the function itself and `now1` the one taken by the `touch()` it
calls. -/
def updateCreationTime (h : Health) (now now1 : Int) : Health :=
  touch { h with m_creationTime := now } now1

/-! ## Send followed by a chunked receive -/

/-- Embeds `TcrConnection::sendWithTimeouts`: the value returned (microseconds)
or the exception thrown, and the connector.  `start` and `finish` are the two
readings of `std::chrono::system_clock::now()`, in clock ticks. -/
def sendWithTimeouts (d : Decls) (m_conn : Connector) (data : List Byte)
    (sendTimeout receiveTimeout : Int) (start finish : Int) :
    Except Raised Int × Connector :=
  match send m_conn data sendTimeout with
  | (.error e, conn1) => (.error e, conn1)
  | (.ok _, conn1) =>
    let timeSpent : Int := start - finish
    if timeSpent ≥ receiveTimeout * d.clockTicksPerMicro then
      (.error (.TimeoutException "TcrConnection::send: connection timed out"), conn1)
    else
      (.ok (Int.tdiv timeSpent d.clockTicksPerMicro), conn1)

/-- Embeds `TcrConnection::sendRequestForChunkedResponse`.  The results of the
helpers `useReplyTimeout(request)` and `replyHasResult(request, reply)`, which
only inspect the request's message type, and of `reply.getTimeout()` are
arguments; `setMessageTypeRequest` is not modelled. -/
def sendRequestForChunkedResponse (d : Decls) (memId : Nat) (m_conn : Connector)
    (msgData : List Byte) (reply : TcrMessageReply)
    (sendTimeoutSec receiveTimeoutSec : Int)
    (useReplyTimeout : Bool) (replyTimeout : Int) (replyHasResult : Bool)
    (start finish : Int) :
    Option (Except Raised Unit × TcrMessageReply × Connector) :=
  let receiveTimeoutSec1 := if useReplyTimeout then replyTimeout else receiveTimeoutSec
  let sendTimeoutSec1 := if useReplyTimeout then replyTimeout else sendTimeoutSec
  match sendWithTimeouts d m_conn msgData sendTimeoutSec1 receiveTimeoutSec1 start finish with
  | (.error e, conn1) => some (.error e, reply, conn1)
  | (.ok spent, conn1) =>
    let receiveTimeoutSec2 := receiveTimeoutSec1 - spent
    if replyHasResult then
      readMessageChunked d memId conn1 reply receiveTimeoutSec2 true
    else
      some (.ok (), reply, conn1)

/-! ## Handshake: data -/

/-- The enumeration `ServerQueueStatus`. -/
inductive ServerQueueStatus
  | NON_REDUNDANT_SERVER
  | REDUNDANT_SERVER
  | PRIMARY_SERVER
  deriving DecidableEq, Repr

/-- What the handshake throws.  For the exceptions built from the server's
reply the text of the exception is `message` followed by the bytes `reason`.
`undefined` stands for undefined behaviour (a null dereference, an
out-of-bounds write). -/
inductive Thrown
  | TimeoutException (message : String)
  | GeodeIOException (message : String)
  | AuthenticationRequiredException (message : String) (reason : List Byte)
  | AuthenticationFailedException (message : String) (reason : List Byte)
  | DuplicateDurableClientException (message : String) (reason : List Byte)
  | CacheServerException (message : String) (reason : List Byte)
  | MessageException (message : String) (reason : List Byte)
  | undefined
  deriving DecidableEq, Repr

/-- Constants of the handshake protocol that are declared outside the file
(the acceptance and role codes, the security modes, the `DSCode` type tags)
and the two serialization routines the handshake message uses; they are
parameters of the embedding.  `unsupportedStringTags` holds the values of the
`DSCode` enumerators that `readHandshakeString` lists after
`CacheableASCIIString`. -/
structure HandshakeDecls where
  CLIENT_TO_SERVER : Int
  PRIMARY_SERVER_TO_CLIENT : Int
  SECONDARY_SERVER_TO_CLIENT : Int
  REPLY_OK : Int
  SUCCESSFUL_SERVER_TO_CLIENT : Int
  UNSUCCESSFUL_SERVER_TO_CLIENT : Int
  REPLY_REFUSED : Int
  REPLY_INVALID : Int
  REPLY_SSL_ENABLED : Int
  REPLY_AUTHENTICATION_REQUIRED : Int
  REPLY_AUTHENTICATION_FAILED : Int
  REPLY_DUPLICATE_DURABLE_CLIENT : Int
  SECURITY_CREDENTIALS_NONE : Int
  SECURITY_CREDENTIALS_NORMAL : Int
  SECURITY_MULTIUSER_NOTIFICATIONCHANNEL : Int
  FixedIDByte : Int
  ClientProxyMembershipId : Int
  CacheableNullString : Int
  CacheableASCIIString : Int
  unsupportedStringTags : List Int
  /-- the bytes `Version::write(handShakeMsg, Version::current())` appends -/
  versionData : List Byte
  /-- the bytes `DataOutput::writeBytes` appends for a byte string -/
  writeBytes : List Byte → List Byte

/-- One concrete choice of the handshake constants, with pairwise distinct
acceptance codes, used to evaluate the definitions on examples. -/
def geodeHandshakeDecls : HandshakeDecls where
  CLIENT_TO_SERVER := 100
  PRIMARY_SERVER_TO_CLIENT := 101
  SECONDARY_SERVER_TO_CLIENT := 102
  REPLY_OK := 59
  SUCCESSFUL_SERVER_TO_CLIENT := 105
  UNSUCCESSFUL_SERVER_TO_CLIENT := 106
  REPLY_REFUSED := 60
  REPLY_INVALID := 61
  REPLY_SSL_ENABLED := 21
  REPLY_AUTHENTICATION_REQUIRED := 62
  REPLY_AUTHENTICATION_FAILED := 63
  REPLY_DUPLICATE_DURABLE_CLIENT := 64
  SECURITY_CREDENTIALS_NONE := 0
  SECURITY_CREDENTIALS_NORMAL := 1
  SECURITY_MULTIUSER_NOTIFICATIONCHANNEL := 3
  FixedIDByte := 1
  ClientProxyMembershipId := 38
  CacheableNullString := 69
  CacheableASCIIString := 87
  unsupportedStringTags := [0, 1, 2, -1, 3, 10, 11, 73]
  versionData := [45]
  writeBytes := fun bs => Fin.ofNat bs.length :: bs

/-- The conversion `static_cast<int8_t>` of a byte read off the wire. -/
def toInt8 (b : Byte) : Int :=
  if b.val < 128 then (b.val : Int) else (b.val : Int) - 256

/-- The byte that `DataOutput::write` appends for an integer constant cast to
`int8_t` or `uint8_t`. -/
def toByte (x : Int) : Byte := Fin.ofNat (x % 256).toNat

/-- The bytes of a buffer read as a C string (`reinterpret_cast<char*>(data)`):
everything before the first zero byte. -/
def cString (buf : List Byte) : List Byte := buf.takeWhile (fun b => b ≠ 0)

/-- Modelled from the spec: `DataInput::readInt16`, a fixed-width integer
decode: two bytes, most significant first, two's complement. -/
def DataInput.readInt16 (buf : List Byte) : Int × List Byte :=
  let u : Nat := (buf.getD 0 0).val * 256 + (buf.getD 1 0).val
  (if u < 32768 then (u : Int) else (u : Int) - 65536, buf.drop 2)

/-- Modelled from the spec: `DataInput::readBoolean`, one byte, true when it is
not zero. -/
def DataInput.readBoolean (buf : List Byte) : Bool × List Byte :=
  (decide (buf.getD 0 0 ≠ 0), buf.drop 1)

/-- Modelled from the spec: `DataOutput::writeInt(int32_t)`, four bytes, most
significant first. -/
def DataOutput.writeInt (v : Int) : List Byte :=
  let u : Nat := (v % 4294967296).toNat
  [Fin.ofNat (u / 16777216), Fin.ofNat (u / 65536), Fin.ofNat (u / 256), Fin.ofNat u]

def INITIAL_CONNECTION_ID : Int := 26739

/-- What `authInitialize->getCredentials(...)` does: it returns properties that
`toData` serializes as `data`, returns a null pointer, or throws. -/
inductive CredentialsOutcome
  | properties (data : List Byte)
  | null
  | authenticationRequired (what : String)
  | authenticationFailed (what : String)
  | exception (what : String)
  deriving DecidableEq, Repr

/-- The collaborators `initTcrConnection` consults: system properties, the
endpoint and its pool, the auth provider, the member list. -/
structure HandshakeEnv where
  /-- the flag `sysProp.sslEnabled()` -/
  sslEnabled : Bool
  /-- whether `endpointObj->getPoolHADM()` is not null -/
  hasPool : Bool
  /-- the flag `m_endpointObj->isMultiUserMode()` -/
  isMultiUserMode : Bool
  /-- whether `cacheImpl->getAuthInitialize()` is not null -/
  hasAuthInitialize : Bool
  credentials : CredentialsOutcome
  /-- the string `sysProp.conflateEvents()` -/
  conflateEvents : String
  /-- the `getDSMemberId()` of the pool's membership id -/
  poolDsMemberId : List Byte
  /-- the `getDSMemberId()` of a membership id made from the durable client id
  and timeout -/
  durableDsMemberId : List Byte
  /-- the port `m_conn->getPort()` -/
  localPort : Nat
  /-- the id `getMemberListForVersionStamp()->add(member)` gives the member
  deserialized from the bytes -/
  addMember : List Byte → Nat

/-- The fields of the connection and of its collaborators that
`initTcrConnection` writes: `m_conn` (`none` after `reset()`), the queue
attributes, the port and the shared port set (in iteration order), the
arguments of the last `setServerQueueStatus` and `setPrimaryServerQueueSize`
calls, the endpoint's distributed member id, the process-wide
delta-enabled flag, the health fields and `m_isBeingUsed`. -/
structure Handshake where
  m_conn : Option Connector
  m_hasServerQueue : ServerQueueStatus
  m_queueSize : Int
  connectionId : Int
  m_port : Nat
  ports : List Nat
  endpointQueue : Option (ServerQueueStatus × Int)
  poolPrimaryQueueSize : Option Int
  distributedMemberID : Nat
  deltaEnabledOnServer : Option Bool
  health : Health
  m_isBeingUsed : Bool
  deriving DecidableEq, Repr

/-! ## Handshake: reading the reply -/

/-- The exception the handshake readers throw for a failed `receiveData`:
`TimeoutException` when `error & CONN_TIMEOUT`, else `GeodeIOException`. -/
def handshakeReadFailure (d : Decls) (error : ConnErrType) : Thrown :=
  if d.andTimeout error then
    .TimeoutException "TcrConnection::TcrConnection: Timeout in handshake"
  else
    .GeodeIOException "TcrConnection::TcrConnection: Handshake failure"

/-- Embeds `TcrConnection::readHandshakeData`.  The vector returned holds the
bytes read and a terminating zero byte.  `m_conn` is `none` after `reset()`. -/
def readHandshakeData (d : Decls) (m_conn : Option Connector) (msgLength : Int)
    (connectTimeout : Int) : Except Thrown (List Byte) × Option Connector :=
  let msgLength1 : Int := if msgLength < 0 then 0 else msgLength
  if msgLength1 = 0 then (.ok [0], m_conn)
  else
    match m_conn with
    | none => (.error .undefined, none)
    | some c =>
      match receiveData c msgLength1.toNat connectTimeout with
      | (error, message, c1) =>
        if error ≠ .CONN_NOERR then (.error (handshakeReadFailure d error), none)
        else (.ok (message ++ [0]), some c1)

/-- Embeds `TcrConnection::readHandshakeArraySize`. -/
def readHandshakeArraySize (d : Decls) (m_conn : Option Connector) (connectTimeout : Int) :
    Except Thrown Int × Option Connector :=
  match readHandshakeData d m_conn 1 connectTimeout with
  | (.error e, c1) => (.error e, c1)
  | (.ok arrayLenHeader, c1) =>
    let arrayLength : Int := ((arrayLenHeader.getD 0 0).val : Int)
    if toInt8 (arrayLenHeader.getD 0 0) = -2 then
      match readHandshakeData d c1 2 connectTimeout with
      | (.error e, c2) => (.error e, c2)
      | (.ok arrayLengthBytes, c2) => (.ok (DataInput.readInt16 arrayLengthBytes).1, c2)
    else if toInt8 (arrayLenHeader.getD 0 0) = -3 then
      match readHandshakeData d c1 4 connectTimeout with
      | (.error e, c2) => (.error e, c2)
      | (.ok arrayLengthBytes, c2) => (.ok (DataInput.readInt32 arrayLengthBytes).1, c2)
    else (.ok arrayLength, c1)

/-- Embeds `TcrConnection::readHandShakeBytes`. -/
def readHandShakeBytes (d : Decls) (m_conn : Option Connector) (numberOfBytes : Int)
    (connectTimeout : Int) : Except Thrown Unit × Option Connector :=
  match m_conn with
  | none => (.error .undefined, none)
  | some c =>
    match receiveData c numberOfBytes.toNat connectTimeout with
    | (error, _, c1) =>
      if error ≠ .CONN_NOERR then (.error (handshakeReadFailure d error), none)
      else (.ok (), some c1)

/-- The part of `readHandshakeString` after the `switch`: read `length` bytes
(`length` is a `uint32_t`; at 2^32 - 1 the vector of `length + 1` bytes is
empty and the write of its terminator is out of bounds). -/
def readHandshakeStringBytes (d : Decls) (m_conn : Option Connector) (length : Nat)
    (connectTimeout : Int) : Except Thrown (Option (List Byte)) × Option Connector :=
  if length = 0 then (.ok none, m_conn)
  else if length = 4294967295 then (.error .undefined, m_conn)
  else
    match m_conn with
    | none => (.error .undefined, none)
    | some c =>
      match receiveData c length connectTimeout with
      | (error, recvMessage, c1) =>
        if error ≠ .CONN_NOERR then
          if d.andTimeout error then
            (.error (.TimeoutException
              "TcrConnection::TcrConnection: Timeout in handshake reading string bytes"), none)
          else
            (.error (.GeodeIOException
              "TcrConnection::TcrConnection: Handshake failure reading string bytes"), none)
        else (.ok (some recvMessage), some c1)

/-- Embeds `TcrConnection::readHandshakeString`; the result is `none` for
`nullptr`.  When the read of the type id fails the source tests its local
`error`, which still holds `CONN_NOERR`. -/
def readHandshakeString (d : Decls) (k : HandshakeDecls) (m_conn : Option Connector)
    (connectTimeout : Int) : Except Thrown (Option (List Byte)) × Option Connector :=
  match m_conn with
  | none => (.error .undefined, none)
  | some c =>
    match receiveData c 1 connectTimeout with
    | (error1, buf, c1) =>
      if error1 ≠ .CONN_NOERR then
        if d.andTimeout .CONN_NOERR then
          (.error (.TimeoutException
            "TcrConnection::TcrConnection: Timeout in handshake reading string type ID"), none)
        else
          (.error (.GeodeIOException
            "TcrConnection::TcrConnection: Handshake failure reading string type ID"), none)
      else
        let cstypeid : Int := toInt8 (buf.getD 0 0)
        if cstypeid = k.CacheableNullString then (.ok none, some c1)
        else if cstypeid = k.CacheableASCIIString then
          match readHandshakeData d (some c1) 2 connectTimeout with
          | (.error e, c2) => (.error e, c2)
          | (.ok lenBytes, c2) =>
            let length : Nat := ((DataInput.readInt16 lenBytes).1 % 4294967296).toNat
            readHandshakeStringBytes d c2 length connectTimeout
        else if cstypeid ∈ k.unsupportedStringTags then
          (.error (.GeodeIOException
            "TcrConnection::TcrConnection: Handshake failure: Unexpected string type ID"), none)
        else readHandshakeStringBytes d (some c1) 0 connectTimeout

/-- The loop `for (j < aLen) readHandshakeString(connectTimeout)`. -/
def readHandshakeStrings (d : Decls) (k : HandshakeDecls) (connectTimeout : Int) :
    Nat → Option Connector → Except Thrown Unit × Option Connector
  | 0, c => (.ok (), c)
  | n + 1, c =>
    match readHandshakeString d k c connectTimeout with
    | (.error e, c1) => (.error e, c1)
    | (.ok _, c1) => readHandshakeStrings d k connectTimeout n c1

/-- The first and third loops of `readHandshakeInstantiatorMsg`: per entry six
bytes, an array size and that many strings. -/
def readInstantiatorLists (d : Decls) (k : HandshakeDecls) (connectTimeout : Int) :
    Nat → Option Connector → Except Thrown Unit × Option Connector
  | 0, c => (.ok (), c)
  | n + 1, c =>
    match readHandShakeBytes d c 6 connectTimeout with
    | (.error e, c1) => (.error e, c1)
    | (.ok _, c1) =>
      match readHandshakeArraySize d c1 connectTimeout with
      | (.error e, c2) => (.error e, c2)
      | (.ok aLen, c2) =>
        match readHandshakeStrings d k connectTimeout aLen.toNat c2 with
        | (.error e, c3) => (.error e, c3)
        | (.ok _, c3) => readInstantiatorLists d k connectTimeout n c3

/-- The second loop of `readHandshakeInstantiatorMsg`: per entry five bytes and
one string. -/
def readInstantiatorEntries (d : Decls) (k : HandshakeDecls) (connectTimeout : Int) :
    Nat → Option Connector → Except Thrown Unit × Option Connector
  | 0, c => (.ok (), c)
  | n + 1, c =>
    match readHandShakeBytes d c 5 connectTimeout with
    | (.error e, c1) => (.error e, c1)
    | (.ok _, c1) =>
      match readHandshakeString d k c1 connectTimeout with
      | (.error e, c2) => (.error e, c2)
      | (.ok _, c2) => readInstantiatorEntries d k connectTimeout n c2

/-- Embeds `TcrConnection::readHandshakeInstantiatorMsg`. -/
def readHandshakeInstantiatorMsg (d : Decls) (k : HandshakeDecls) (m_conn : Option Connector)
    (connectTimeout : Int) : Except Thrown Unit × Option Connector :=
  match readHandshakeArraySize d m_conn connectTimeout with
  | (.error e, c1) => (.error e, c1)
  | (.ok hashMapSize, c1) =>
    match readInstantiatorLists d k connectTimeout hashMapSize.toNat c1 with
    | (.error e, c2) => (.error e, c2)
    | (.ok _, c2) =>
      match readHandshakeArraySize d c2 connectTimeout with
      | (.error e, c3) => (.error e, c3)
      | (.ok hashMapSize1, c3) =>
        match readInstantiatorEntries d k connectTimeout hashMapSize1.toNat c3 with
        | (.error e, c4) => (.error e, c4)
        | (.ok _, c4) =>
          match readHandshakeArraySize d c4 connectTimeout with
          | (.error e, c5) => (.error e, c5)
          | (.ok hashMapSize2, c5) =>
            readInstantiatorLists d k connectTimeout hashMapSize2.toNat c5

/-! ## Handshake: `initTcrConnection` -/

/-- Embeds `TcrConnection::getOverrides`; the argument is `props->conflateEvents()`. -/
def getOverrides (conflate : String) : Byte :=
  if conflate = "true" then 1
  else if conflate = "false" then 2
  else 0

/-- The local `tmpIsSecurityOn` of `initTcrConnection` once the handshake message
has its security-mode byte (lines 225-240). -/
def tmpIsSecurityOn (env : HandshakeEnv) (isNotificationChannel : Bool) : Bool :=
  let tmp := env.hasAuthInitialize || env.isMultiUserMode
  if isNotificationChannel && env.isMultiUserMode then false else tmp

/-- The local `doIneedToSendCreds` of `initTcrConnection`. -/
def doIneedToSendCreds (env : HandshakeEnv) (isNotificationChannel : Bool) : Bool :=
  if isNotificationChannel && env.isMultiUserMode then false else true

/-- Insertion into the shared port set. -/
def insertPort (ports : List Nat) (port : Nat) : List Nat :=
  if port ∈ ports then ports else ports ++ [port]

/-- The build phase of `initTcrConnection` (lines 150-289): the bytes of the
handshake message, or the exception that leaves the function from the
credentials block; `m_port` and the shared port set are updated on a forward
channel. -/
def buildHandshake (k : HandshakeDecls) (env : HandshakeEnv) (st : Handshake)
    (isClientNotification isSecondary : Bool) : Except Thrown (List Byte) × Handshake :=
  let role : Int :=
    if isClientNotification then
      (if isSecondary then k.SECONDARY_SERVER_TO_CLIENT else k.PRIMARY_SERVER_TO_CLIENT)
    else k.CLIENT_TO_SERVER
  let msg1 : List Byte := [toByte role] ++ k.versionData ++ [toByte k.REPLY_OK]
  let st1 : Handshake :=
    if !isClientNotification then
      { st with m_port := env.localPort, ports := insertPort st.ports env.localPort }
    else st
  let msg2 : List Byte :=
    if !isClientNotification then msg1
    else msg1 ++ DataOutput.writeInt (st.ports.length : Int) ++
      (st.ports.map (fun port => DataOutput.writeInt (port : Int))).flatten
  let msg3 : List Byte :=
    if !isClientNotification then msg2 ++ DataOutput.writeInt (0x7fffffff - 10000) else msg2
  let dsMemberId : List Byte :=
    if env.hasPool then env.poolDsMemberId else env.durableDsMemberId
  let msg4 : List Byte :=
    msg3 ++ [toByte k.FixedIDByte, toByte k.ClientProxyMembershipId] ++ k.writeBytes dsMemberId
  let msg5 : List Byte := msg4 ++ DataOutput.writeInt 1 ++ [getOverrides env.conflateEvents]
  let securityByte : Int :=
    if isClientNotification && !doIneedToSendCreds env isClientNotification then
      k.SECURITY_MULTIUSER_NOTIFICATIONCHANNEL
    else if tmpIsSecurityOn env isClientNotification then k.SECURITY_CREDENTIALS_NORMAL
    else k.SECURITY_CREDENTIALS_NONE
  let msg6 : List Byte := msg5 ++ [toByte securityByte]
  if tmpIsSecurityOn env isClientNotification then
    if isClientNotification then
      if env.hasAuthInitialize then
        match env.credentials with
        | .properties data => (.ok (msg6 ++ data), st1)
        | .null => (.error .undefined, st1)
        | .authenticationRequired what =>
          (.error (.AuthenticationRequiredException what []), st1)
        | .authenticationFailed what =>
          (.error (.AuthenticationFailedException what []), st1)
        | .exception what =>
          (.error (.AuthenticationFailedException
            ("TcrConnection: failed to load authInit library: " ++ what) []), st1)
      else (.error .undefined, st1)
    else (.ok msg6, st1)
  else (.ok msg6, st1)

/-- The values `initTcrConnection` has read when it reaches the `switch` on the
acceptance code. -/
structure HandshakeReply where
  acceptanceCode : Byte
  serverQueueStatus : Byte
  recvMsgLen2 : Int
  recvMessage : List Byte
  deriving DecidableEq, Repr

/-- The queue classification `initTcrConnection` derives from the queue-status
byte (lines 319-325). -/
def serverQueueStatusOf (serverQueueStatus : Byte) : ServerQueueStatus :=
  if toInt8 serverQueueStatus = 1 then .REDUNDANT_SERVER
  else if toInt8 serverQueueStatus = 2 then .PRIMARY_SERVER
  else .NON_REDUNDANT_SERVER

/-- The block `if (!isClientNotification)` of lines 350-366: read the
distributed-member array and, when the endpoint has no member id yet,
register the member. -/
def readDistributedMember (d : Decls) (env : HandshakeEnv) (st : Handshake)
    (connectTimeout : Int) : Except Thrown Unit × Handshake :=
  match readHandshakeArraySize d st.m_conn connectTimeout with
  | (.error e, c1) => (.error e, { st with m_conn := c1 })
  | (.ok recvMsgLen, c1) =>
    match readHandshakeData d c1 recvMsgLen connectTimeout with
    | (.error e, c2) => (.error e, { st with m_conn := c2 })
    | (.ok recvMessage, c2) =>
      if st.distributedMemberID = 0 then
        (.ok (), { st with m_conn := c2,
                           distributedMemberID := env.addMember recvMessage % 65536 })
      else (.ok (), { st with m_conn := c2 })

/-- The parse phase of `initTcrConnection` up to the `switch` (lines 303-380). -/
def readHandshakeReply (d : Decls) (k : HandshakeDecls) (env : HandshakeEnv) (st : Handshake)
    (isClientNotification : Bool) (connectTimeout : Int) :
    Except Thrown HandshakeReply × Handshake :=
  match readHandshakeData d st.m_conn 1 connectTimeout with
  | (.error e, c1) => (.error e, { st with m_conn := c1 })
  | (.ok acceptanceCode, c1) =>
    if toInt8 (acceptanceCode.getD 0 0) = k.REPLY_SSL_ENABLED ∧ !env.sslEnabled then
      (.error (.AuthenticationRequiredException
        "SSL is enabled on server, enable SSL in client as well" []),
        { st with m_conn := none })
    else
      match readHandshakeData d c1 1 connectTimeout with
      | (.error e, c2) => (.error e, { st with m_conn := c2 })
      | (.ok serverQueueStatus, c2) =>
        let st2 : Handshake :=
          { st with m_hasServerQueue := serverQueueStatusOf (serverQueueStatus.getD 0 0) }
        match readHandshakeData d c2 4 connectTimeout with
        | (.error e, c3) => (.error e, { st2 with m_conn := c3 })
        | (.ok queueSizeMsg, c3) =>
          let queueSize : Int := (DataInput.readInt32 queueSizeMsg).1
          let m_queueSize : Int := if queueSize > 0 then queueSize else 0
          let st3 : Handshake :=
            { st2 with
              m_conn := c3
              m_queueSize := m_queueSize
              endpointQueue := some (st2.m_hasServerQueue, m_queueSize)
              poolPrimaryQueueSize :=
                if (st2.m_hasServerQueue = .PRIMARY_SERVER ∨
                    st2.m_hasServerQueue = .NON_REDUNDANT_SERVER) ∧ isClientNotification
                then some queueSize else st2.poolPrimaryQueueSize }
          match (if !isClientNotification then readDistributedMember d env st3 connectTimeout
                 else (.ok (), st3)) with
          | (.error e, st4) => (.error e, st4)
          | (.ok _, st4) =>
            match readHandshakeData d st4.m_conn 2 connectTimeout with
            | (.error e, c5) => (.error e, { st4 with m_conn := c5 })
            | (.ok recvMsgLenBytes, c5) =>
              let recvMsgLen2 : Int := (DataInput.readInt16 recvMsgLenBytes).1 % 65536
              match readHandshakeData d c5 recvMsgLen2 connectTimeout with
              | (.error e, c6) => (.error e, { st4 with m_conn := c6 })
              | (.ok recvMessage, c6) =>
                if !isClientNotification then
                  match readHandshakeData d c6 1 connectTimeout with
                  | (.error e, c7) => (.error e, { st4 with m_conn := c7 })
                  | (.ok deltaEnabledMsg, c7) =>
                    (.ok ⟨acceptanceCode.getD 0 0, serverQueueStatus.getD 0 0, recvMsgLen2,
                        recvMessage⟩,
                      { st4 with m_conn := c7
                                 deltaEnabledOnServer :=
                                   some (DataInput.readBoolean deltaEnabledMsg).1 })
                else
                  (.ok ⟨acceptanceCode.getD 0 0, serverQueueStatus.getD 0 0, recvMsgLen2,
                      recvMessage⟩,
                    { st4 with m_conn := c6 })

/-- The `switch (acceptanceCode[0])` of `initTcrConnection` (lines 382-434). -/
def checkAcceptance (d : Decls) (k : HandshakeDecls) (st : Handshake) (reply : HandshakeReply)
    (isClientNotification : Bool) (connectTimeout : Int) : Except Thrown Unit × Handshake :=
  let code : Int := toInt8 reply.acceptanceCode
  if code = k.REPLY_OK ∨ code = k.SUCCESSFUL_SERVER_TO_CLIENT then
    if isClientNotification then
      match readHandshakeInstantiatorMsg d k st.m_conn connectTimeout with
      | (r, c1) => (r, { st with m_conn := c1 })
    else (.ok (), st)
  else if code = k.REPLY_AUTHENTICATION_FAILED then
    (.error (.AuthenticationFailedException "" (cString reply.recvMessage)),
      { st with m_conn := none })
  else if code = k.REPLY_AUTHENTICATION_REQUIRED then
    (.error (.AuthenticationRequiredException "" (cString reply.recvMessage)),
      { st with m_conn := none })
  else if code = k.REPLY_DUPLICATE_DURABLE_CLIENT then
    (.error (.DuplicateDurableClientException "" (cString reply.recvMessage)),
      { st with m_conn := none })
  else if code = k.REPLY_REFUSED ∨ code = k.REPLY_INVALID ∨
      code = k.UNSUCCESSFUL_SERVER_TO_CLIENT then
    (.error (.CacheServerException
      "TcrConnection::TcrConnection: Handshake rejected by server: "
      (cString reply.recvMessage)), { st with m_conn := none })
  else
    (.error (.MessageException
      "TcrConnection::TcrConnection: Unknown error received from server in handshake: "
      (cString reply.recvMessage)), { st with m_conn := none })

/-- Embeds `TcrConnection::initTcrConnection`.  `st` holds the fields before the
call, `conn` is the connector `createConnection` makes and `now` the reading of
the steady clock.  The result is the value returned or the exception thrown,
and the fields afterwards. -/
def initTcrConnection (d : Decls) (k : HandshakeDecls) (env : HandshakeEnv) (st : Handshake)
    (conn : Connector) (now : Int) (isClientNotification isSecondary : Bool)
    (connectTimeout : Int) : Except Thrown Bool × Handshake :=
  let st0 : Handshake :=
    { st with
      m_hasServerQueue := .NON_REDUNDANT_SERVER
      m_queueSize := 0
      health := { st.health with m_creationTime := now, m_lastAccessed := now }
      connectionId := INITIAL_CONNECTION_ID
      m_isBeingUsed := false
      m_conn := some conn }
  let isPool : Bool := env.hasPool
  let isNotificationChannel : Bool := isClientNotification
  match buildHandshake k env st0 isClientNotification isSecondary with
  | (.error e, st1) => (.error e, st1)
  | (.ok data, st1) =>
    match sendData conn data connectTimeout with
    | (error, conn1) =>
      if error = .CONN_NOERR then
        match readHandshakeReply d k env { st1 with m_conn := some conn1 }
            isClientNotification connectTimeout with
        | (.error e, st2) => (.error e, st2)
        | (.ok reply, st2) =>
          match checkAcceptance d k st2 reply isClientNotification connectTimeout with
          | (.error e, st3) => (.error e, st3)
          | (.ok _, st3) =>
            if !isNotificationChannel ∧ tmpIsSecurityOn env isNotificationChannel ∧
                (!isPool ∨ !env.isMultiUserMode) then
              (.ok true, st3)
            else (.ok false, st3)
      else
        if d.andTimeout error then
          (.error (.TimeoutException
            "TcrConnection::TcrConnection: connection timed out during handshake"),
            { st1 with m_conn := none })
        else
          (.error (.GeodeIOException "TcrConnection::TcrConnection: Handshake failure"),
            { st1 with m_conn := none })

/-! ## Wire format of the handshake reply, used to state the theorems -/

/-- The connector after a successful `receiveData` of `n` bytes; a read of no
bytes by `readHandshakeData` does not reach the connector. -/
def afterRead (c : Connector) (n : Nat) (t : Int) : Connector :=
  if n = 0 then c
  else { c with input := c.input.drop n, reads := c.reads ++ [(n, toMilliseconds t)] }

/-- Whether the bytes `hdr` are a length header of the handshake that announces
an array of `n` bytes: one byte other than -2 and -3 holding the length, or -2
and a 2-byte length, or -3 and a 4-byte length (a negative length announces
no bytes). -/
def arrayHeaderEncodes (hdr : List Byte) (n : Nat) : Bool :=
  match hdr with
  | [b] => toInt8 b ≠ -2 && toInt8 b ≠ -3 && b.val = n
  | [b, x, y] => toInt8 b = -2 && (DataInput.readInt16 [x, y]).1.toNat = n
  | [b, a1, a2, a3, a4] =>
    toInt8 b = -3 && (DataInput.readInt32 [a1, a2, a3, a4]).1.toNat = n
  | _ => false

/-- The handshake reply as it travels on the wire: acceptance code, queue
status, 4-byte queue size, on a forward channel the length header and the
bytes of the distributed member, the 2-byte length and the bytes of the
message block, and on a forward channel the delta-enabled byte. -/
structure ReplyWire where
  acceptanceCode : Byte
  serverQueueStatus : Byte
  queueSize : List Byte
  memberHeader : List Byte
  member : List Byte
  msgLen : List Byte
  message : List Byte
  delta : Byte
  deriving DecidableEq, Repr

/-- The bytes of a reply in wire order, for a notification channel or a
forward channel. -/
def ReplyWire.bytes (w : ReplyWire) (isClientNotification : Bool) : List Byte :=
  [w.acceptanceCode, w.serverQueueStatus] ++ w.queueSize ++
    (if isClientNotification then [] else w.memberHeader ++ w.member) ++
    w.msgLen ++ w.message ++ (if isClientNotification then [] else [w.delta])

/-- The length fields of a reply agree with the blocks they announce. -/
def ReplyWire.wellFormed (w : ReplyWire) (isClientNotification : Bool) : Bool :=
  w.queueSize.length = 4 && w.msgLen.length = 2 &&
    (DataInput.readInt16 w.msgLen).1 % 65536 = (w.message.length : Int) &&
    (isClientNotification || arrayHeaderEncodes w.memberHeader w.member.length)

/-- The condition under which the build phase of `initTcrConnection` does not
throw: no credentials are asked for, or the auth provider returns properties
that serialize as `data`. -/
def credentialsOk (env : HandshakeEnv) (isClientNotification : Bool) (data : List Byte) : Bool :=
  !isClientNotification || !tmpIsSecurityOn env isClientNotification ||
    (env.hasAuthInitialize && env.credentials = .properties data)

/-- The acceptance codes that are case labels of the `switch` of
`initTcrConnection`, in the order of the source; as labels of one `switch`
they are pairwise distinct. -/
def HandshakeDecls.caseLabels (k : HandshakeDecls) : List Int :=
  [k.REPLY_OK, k.SUCCESSFUL_SERVER_TO_CLIENT, k.REPLY_AUTHENTICATION_FAILED,
   k.REPLY_AUTHENTICATION_REQUIRED, k.REPLY_DUPLICATE_DURABLE_CLIENT, k.REPLY_REFUSED,
   k.REPLY_INVALID, k.UNSUCCESSFUL_SERVER_TO_CLIENT]

/-- The clamped queue size `queueSize > 0 ? queueSize : 0`. -/
def clampQueueSize (queueSize : Int) : Int := if queueSize > 0 then queueSize else 0

/-- The fields after the reply `w` has been read in full from the state `st`,
with `c` the connector then. -/
def parsedState (env : HandshakeEnv) (st : Handshake) (w : ReplyWire)
    (isClientNotification : Bool) (c : Connector) : Handshake :=
  { st with
    m_conn := some c
    m_hasServerQueue := serverQueueStatusOf w.serverQueueStatus
    m_queueSize := clampQueueSize (DataInput.readInt32 w.queueSize).1
    endpointQueue := some (serverQueueStatusOf w.serverQueueStatus,
      clampQueueSize (DataInput.readInt32 w.queueSize).1)
    poolPrimaryQueueSize :=
      if (serverQueueStatusOf w.serverQueueStatus = .PRIMARY_SERVER ∨
          serverQueueStatusOf w.serverQueueStatus = .NON_REDUNDANT_SERVER) ∧
          isClientNotification
      then some (DataInput.readInt32 w.queueSize).1 else st.poolPrimaryQueueSize
    distributedMemberID :=
      if isClientNotification then st.distributedMemberID
      else if st.distributedMemberID = 0 then env.addMember (w.member ++ [0]) % 65536
      else st.distributedMemberID
    deltaEnabledOnServer :=
      if isClientNotification then st.deltaEnabledOnServer
      else some (decide (w.delta ≠ 0)) }

/-- An environment for examples: TLS off, a pool, no auth provider, no
multi-user mode. -/
def exampleEnv : HandshakeEnv where
  sslEnabled := false
  hasPool := true
  isMultiUserMode := false
  hasAuthInitialize := false
  credentials := .null
  conflateEvents := ""
  poolDsMemberId := [1, 2, 3]
  durableDsMemberId := [4, 5]
  localPort := 4000
  addMember := fun _ => 7

/-- The fields of a connection object before its handshake, for examples. -/
def exampleHandshake : Handshake :=
  ⟨none, .NON_REDUNDANT_SERVER, 0, 0, 0, [], none, none, 0, none, ⟨0, 0, 0⟩, false⟩

/-- A reply for examples: acceptance code `acc`, queue status 2 (primary),
queue size -2, a 2-byte member, the message "bad version" and the delta byte
1. -/
def exampleReply (acc : Byte) : ReplyWire :=
  ⟨acc, 2, [255, 255, 255, 254], [2], [9, 9], [0, 11],
    [98, 97, 100, 32, 118, 101, 114, 115, 105, 111, 110], 1⟩

/-- A connector for examples whose peer delivers `input` and then closes. -/
def exampleConn (input : List Byte) : Connector := ⟨input, .eof, none, [], []⟩

/-! ## Usage gate: calls in sequence and concurrent acquires -/

/-- A sequence of calls `setAndGetBeingUsed(isBeingUsed, forTransaction)` made
one after the other on a connection whose `m_isUsed` holds `s`: the final
value of `m_isUsed` and the value each call returned. -/
def setAndGetBeingUsedSeq : Nat → List (Bool × Bool) → Nat × List Bool
  | s, [] => (s, [])
  | s, (isBeingUsed, forTransaction) :: rest =>
    let r := setAndGetBeingUsed s isBeingUsed forTransaction
    let q := setAndGetBeingUsedSeq r.2 rest
    (q.1, r.1 :: q.2)

/-- Where a thread stands inside a call `setAndGetBeingUsed(true, false)`
(lines 1222-1224).  Each constructor but the last names the next access to the
atomic `m_isUsed` the thread makes: the load of `m_isUsed == 1`, the load of
`m_isUsed == 2`, the `compare_exchange_strong`.  `returned` holds the value the
call returned. -/
inductive AcquirePc
  | loadInUse
  | loadInTransaction
  | exchange
  | returned (result : Bool)
  deriving DecidableEq, Repr

/-- One access to the atomic by a thread inside `setAndGetBeingUsed(true, false)`:
the value of `m_isUsed` and the position of the thread afterwards.  An access
to a `std::atomic` is indivisible. -/
def acquireStep (m_isUsed : Nat) : AcquirePc → Nat × AcquirePc
  | .loadInUse =>
    if m_isUsed = 1 then (m_isUsed, .returned false) else (m_isUsed, .loadInTransaction)
  | .loadInTransaction =>
    if m_isUsed = 2 then (m_isUsed, .returned false) else (m_isUsed, .exchange)
  | .exchange =>
    let r := compare_exchange_strong m_isUsed 0 1
    (r.2.1, .returned r.1)
  | .returned result => (m_isUsed, .returned result)

/-- The atomic `m_isUsed` of one connection and `n` threads, each inside a call
`setAndGetBeingUsed(true, false)` on that connection. -/
structure Gate (n : Nat) where
  m_isUsed : Nat
  threads : Fin n → AcquirePc

/-- Thread `i` makes its next access to the atomic. -/
def Gate.step {n : Nat} (g : Gate n) (i : Fin n) : Gate n :=
  let r := acquireStep g.m_isUsed (g.threads i)
  ⟨r.1, Function.update g.threads i r.2⟩

/-- An interleaving of the calls: `schedule` lists, in the order in which they
take effect, the threads that make an access. -/
def Gate.run {n : Nat} (g : Gate n) (schedule : List (Fin n)) : Gate n :=
  schedule.foldl Gate.step g

/-- A Free gate (`m_isUsed` = 0) with `n` calls that have not yet made an
access. -/
def Gate.free (n : Nat) : Gate n := ⟨0, fun _ => .loadInUse⟩

/-- The threads whose call has returned true. -/
def Gate.owners {n : Nat} (g : Gate n) : List (Fin n) :=
  (List.finRange n).filter (fun i => g.threads i = .returned true)

/-- The invariant of concurrent acquires on a gate that started Free: while
`m_isUsed` is 0 no call has returned true, and otherwise `m_isUsed` is 1 and
the calls that returned true are one and the same. -/
def Gate.singleOwner {n : Nat} (g : Gate n) : Prop :=
  (g.m_isUsed = 0 ∧ ∀ i, g.threads i ≠ .returned true) ∨
  (g.m_isUsed = 1 ∧ ∃ w, ∀ i, g.threads i = .returned true → i = w)

/-! ## Handshake message and send log, used to state the theorems -/

/-- The bytes of the handshake message that precede the security-mode byte, in
the order in which `initTcrConnection` writes them (lines 152-223): the role,
the version, `REPLY_OK`, the ports (notification channel) or the read-timeout
value (forward channel), the two type tags, the membership id, the constant 1
and the overrides byte.  `ports` is the shared port set before the call. -/
def handshakePreamble (k : HandshakeDecls) (env : HandshakeEnv) (ports : List Nat)
    (isClientNotification isSecondary : Bool) : List Byte :=
  [toByte (if isClientNotification then
      (if isSecondary then k.SECONDARY_SERVER_TO_CLIENT else k.PRIMARY_SERVER_TO_CLIENT)
    else k.CLIENT_TO_SERVER)] ++
  k.versionData ++ [toByte k.REPLY_OK] ++
  (if isClientNotification then
    DataOutput.writeInt (ports.length : Int) ++
      (ports.map (fun port => DataOutput.writeInt (port : Int))).flatten
   else DataOutput.writeInt (0x7fffffff - 10000)) ++
  [toByte k.FixedIDByte, toByte k.ClientProxyMembershipId] ++
  k.writeBytes (if env.hasPool then env.poolDsMemberId else env.durableDsMemberId) ++
  DataOutput.writeInt 1 ++ [getOverrides env.conflateEvents]

/-- Every connector that `m` may hold has the send log `s`. -/
def sentIs (s : List (List Byte × Int)) (m : Option Connector) : Prop :=
  ∀ c : Connector, m = some c → c.sent = s

/-! ## Header timeout of the simple path -/

/-- The local `headerTimeout` of `readMessage` (lines 645-648). -/
def readMessageHeaderTimeout (d : Decls) (receiveTimeoutSec : Int)
    (doHeaderTimeoutRetries : Bool) : Int :=
  if doHeaderTimeoutRetries ∧ receiveTimeoutSec = d.DEFAULT_READ_TIMEOUT then
    d.DEFAULT_READ_TIMEOUT * d.DEFAULT_TIMEOUT_RETRIES
  else receiveTimeoutSec

/-! ## Usage gate: theorems -/

/-- C1: a non-transactional acquire `setAndGetBeingUsed(true, false)` returns
true exactly when the state is Free (0); the state then becomes InUse (1),
and it is unchanged when the call returns false.  Two calls in a row on a
Free gate return true and then false. -/
theorem setAndGetBeingUsed_acquire (s : Nat) :
    setAndGetBeingUsed s true false = (decide (s = 0), if s = 0 then 1 else s) ∧
    (setAndGetBeingUsed 0 true false).1 = true ∧
    (setAndGetBeingUsed (setAndGetBeingUsed 0 true false).2 true false).1 = false := by
  refine ⟨?_, by decide, by decide⟩
  unfold setAndGetBeingUsed compare_exchange_strong
  by_cases h0 : s = 0
  · subst h0; simp
  · by_cases h1 : s = 1
    · subst h1; simp
    · by_cases h2 : s = 2
      · subst h2; simp
      · simp [h0, h1, h2]

/-- C2: a non-transactional release `setAndGetBeingUsed(false, false)` returns
true and leaves the state Free (0), whatever the state was. -/
theorem setAndGetBeingUsed_release (s : Nat) :
    setAndGetBeingUsed s false false = (true, 0) := by
  simp [setAndGetBeingUsed]

/-- C3: for a state `s` among Free (0), InUse (1), InUseForTransaction (2), a
transactional acquire `setAndGetBeingUsed(true, true)` returns false exactly
when `s` is InUse, leaving the state unchanged; from Free the state becomes
InUseForTransaction and from InUseForTransaction it stays so.  Two
transactional acquires in a row on a Free gate both return true and the state
is InUseForTransaction after each. -/
theorem setAndGetBeingUsed_acquire_transaction (s : Nat) (hs : s = 0 ∨ s = 1 ∨ s = 2) :
    setAndGetBeingUsed s true true = (decide (s ≠ 1), if s = 0 then 2 else s) ∧
    setAndGetBeingUsed 0 true true = (true, 2) ∧
    setAndGetBeingUsed (setAndGetBeingUsed 0 true true).2 true true = (true, 2) := by
  refine ⟨?_, by decide, by decide⟩
  rcases hs with h | h | h <;> subst h <;> decide

/-- Witness for C3 at the state InUseForTransaction. -/
theorem setAndGetBeingUsed_acquire_transaction_witness :
    ((2 : Nat) = 0 ∨ (2 : Nat) = 1 ∨ (2 : Nat) = 2) ∧
    setAndGetBeingUsed 2 true true = (decide (2 ≠ 1), if 2 = 0 then 2 else 2) ∧
    setAndGetBeingUsed 0 true true = (true, 2) ∧
    setAndGetBeingUsed (setAndGetBeingUsed 0 true true).2 true true = (true, 2) :=
  ⟨Or.inr (Or.inr rfl), setAndGetBeingUsed_acquire_transaction 2 (Or.inr (Or.inr rfl))⟩

/-- C4: a transactional release `setAndGetBeingUsed(false, true)` returns true
and leaves the state as it was. -/
theorem setAndGetBeingUsed_release_transaction (s : Nat) :
    setAndGetBeingUsed s false true = (true, s) := by
  simp [setAndGetBeingUsed]

/-! ## Transport lemmas -/

theorem receiveData_ok (c : Connector) (n : Nat) (t : Int) (xs ys : List Byte)
    (hin : c.input = xs ++ ys) (hn : xs.length = n) :
    receiveData c n t = (.CONN_NOERR, xs,
      { c with input := ys, reads := c.reads ++ [(n, toMilliseconds t)] }) := by
  subst hn
  simp [receiveData, Connector.receive, hin]

theorem receiveData_short (c : Connector) (n : Nat) (t : Int) (hn : c.input.length < n) :
    receiveData c n t = (recvError c.fault, [],
      { c with input := [], reads := c.reads ++ [(n, toMilliseconds t)] }) := by
  have h : ¬ n ≤ c.input.length := by omega
  cases hf : c.fault <;> simp [receiveData, Connector.receive, h, hf, recvError]

theorem recvError_ne_noerr (f : AsioError) : recvError f ≠ .CONN_NOERR := by
  cases f <;> simp [recvError]

theorem readInt32_append (l xs : List Byte) (hl : l.length = 4) :
    (DataInput.readInt32 (l ++ xs)).1 = (DataInput.readInt32 l).1 := by
  match l, hl with
  | [a, b, c, e], _ => simp [DataInput.readInt32]

theorem readInt32_snd (buf : List Byte) : (DataInput.readInt32 buf).2 = buf.drop 4 := rfl

/-! ## Frame reader: theorems -/

theorem readMessage_ok (d : Decls) (c : Connector)
    (msgType lenField extra body rest : List Byte) (recvLen : Int) (opErr : ConnErrType)
    (timeout : Int) (retries notif : Bool) (request : Int)
    (hT : msgType.length = 4) (hL : lenField.length = 4) (hE : extra.length = 9)
    (hlen : (DataInput.readInt32 lenField).1 = (body.length : Int))
    (hin : c.input = msgType ++ lenField ++ extra ++ body ++ rest) :
    (readMessage d c recvLen opErr timeout retries notif request).result
        = .ok (some (msgType ++ lenField ++ extra ++ body)) ∧
    (readMessage d c recvLen opErr timeout retries notif request).recvLen
        = 17 + (body.length : Int) ∧
    (readMessage d c recvLen opErr timeout retries notif request).opErr = opErr ∧
    (readMessage d c recvLen opErr timeout retries notif request).m_conn.input = rest := by
  have hmsg : (DataInput.readInt32 (DataInput.readInt32 (msgType ++ lenField ++ extra)).2).1
      = (body.length : Int) := by
    rw [readInt32_snd, List.append_assoc, List.drop_left' hT, readInt32_append _ _ hL, hlen]
  have hnn : ¬ ((body.length : Int) < 0) := by omega
  generalize hr : readMessage d c recvLen opErr timeout retries notif request = r
  unfold readMessage at hr
  dsimp only at hr
  rw [receiveData_ok c HEADER_LENGTH _ (msgType ++ lenField ++ extra) (body ++ rest)
    (by simp [hin]) (by simp [hT, hL, hE, HEADER_LENGTH])] at hr
  simp only [ne_eq, not_true_eq_false, if_false, hmsg, hnn] at hr
  by_cases hsp : ¬ ((body.length : Int) > 0) ∧ request = d.GET_CLIENT_PR_METADATA
  · have hb : body = [] := by
      have : body.length = 0 := by omega
      exact List.length_eq_zero.mp this
    subst hb
    rw [if_pos hsp] at hr
    subst hr
    simp [HEADER_LENGTH]
  · rw [if_neg hsp] at hr
    rw [receiveData_ok _ (body.length : Int).toNat _ body rest rfl (by simp)] at hr
    subst hr
    simp [HEADER_LENGTH]

/-- C5: when the wire holds a 17-byte header (4-byte message type, 4-byte
length field encoding the body length, 9 further bytes) followed by the body,
`readMessage`, `receive` and (after a send that succeeds within the receive
budget) `sendRequest` return the buffer made of the header followed by the
body and report the length 17 + body length.  The message-type bytes are
arbitrary, so the outcome does not depend on them. -/
theorem readMessage_returns_header_and_body (d : Decls) (c : Connector)
    (msgType lenField extra body rest : List Byte) (recvLen : Int) (opErr : ConnErrType)
    (timeout : Int) (retries notif : Bool) (request : Int)
    (buffer : List Byte) (sendTimeout start finish : Int)
    (hT : msgType.length = 4) (hL : lenField.length = 4) (hE : extra.length = 9)
    (hlen : (DataInput.readInt32 lenField).1 = (body.length : Int))
    (hin : c.input = msgType ++ lenField ++ extra ++ body ++ rest)
    (hsend : c.sendFault = none)
    (hbudget : start - finish < timeout * d.clockTicksPerMicro) :
    ((readMessage d c recvLen opErr timeout retries notif request).result
        = .ok (some (msgType ++ lenField ++ extra ++ body)) ∧
      (readMessage d c recvLen opErr timeout retries notif request).recvLen
        = 17 + (body.length : Int)) ∧
    ((receive d c recvLen opErr timeout).result
        = .ok (some (msgType ++ lenField ++ extra ++ body)) ∧
      (receive d c recvLen opErr timeout).recvLen = 17 + (body.length : Int)) ∧
    ((sendRequest d c buffer recvLen sendTimeout timeout request start finish).result
        = .ok (some (msgType ++ lenField ++ extra ++ body)) ∧
      (sendRequest d c buffer recvLen sendTimeout timeout request start finish).recvLen
        = 17 + (body.length : Int)) := by
  refine ⟨?_, ?_, ?_⟩
  · have h := readMessage_ok d c msgType lenField extra body rest recvLen opErr timeout
      retries notif request hT hL hE hlen hin
    exact ⟨h.1, h.2.1⟩
  · have h := readMessage_ok d c msgType lenField extra body rest recvLen opErr timeout
      false true d.defaultRequest hT hL hE hlen hin
    exact ⟨h.1, h.2.1⟩
  · have hnb : ¬ (start - finish ≥ timeout * d.clockTicksPerMicro) := by omega
    have hs : sendRequest d c buffer recvLen sendTimeout timeout request start finish =
        readMessage d { c with sent := c.sent ++ [(buffer, toMilliseconds sendTimeout)] }
          recvLen .CONN_NOERR (timeout - Int.tdiv (start - finish) d.clockTicksPerMicro)
          true false request := by
      simp only [sendRequest, send, sendData, Connector.send, hsend, if_neg hnb]
    rw [hs]
    have h := readMessage_ok d { c with sent := c.sent ++ [(buffer, toMilliseconds sendTimeout)] }
      msgType lenField extra body rest recvLen .CONN_NOERR
      (timeout - Int.tdiv (start - finish) d.clockTicksPerMicro) true false request
      hT hL hE hlen hin
    exact ⟨h.1, h.2.1⟩

/-- Witness for C5: a message of type 42 with a 2-byte body, followed by one
more byte that stays on the wire. -/
theorem readMessage_returns_header_and_body_witness :
    ((readMessage geodeDecls
        ⟨[0, 0, 0, 42, 0, 0, 0, 2, 1, 2, 3, 4, 5, 6, 7, 8, 9, 10, 11, 99], .eof, none, [], []⟩
        0 .CONN_NOERR 1000 false false 7).result
        = .ok (some ([0, 0, 0, 42] ++ [0, 0, 0, 2] ++ [1, 2, 3, 4, 5, 6, 7, 8, 9] ++ [10, 11])) ∧
      (readMessage geodeDecls
        ⟨[0, 0, 0, 42, 0, 0, 0, 2, 1, 2, 3, 4, 5, 6, 7, 8, 9, 10, 11, 99], .eof, none, [], []⟩
        0 .CONN_NOERR 1000 false false 7).recvLen = 17 + (([10, 11] : List Byte).length : Int)) ∧
    ((receive geodeDecls
        ⟨[0, 0, 0, 42, 0, 0, 0, 2, 1, 2, 3, 4, 5, 6, 7, 8, 9, 10, 11, 99], .eof, none, [], []⟩
        0 .CONN_NOERR 1000).result
        = .ok (some ([0, 0, 0, 42] ++ [0, 0, 0, 2] ++ [1, 2, 3, 4, 5, 6, 7, 8, 9] ++ [10, 11])) ∧
      (receive geodeDecls
        ⟨[0, 0, 0, 42, 0, 0, 0, 2, 1, 2, 3, 4, 5, 6, 7, 8, 9, 10, 11, 99], .eof, none, [], []⟩
        0 .CONN_NOERR 1000).recvLen = 17 + (([10, 11] : List Byte).length : Int)) ∧
    ((sendRequest geodeDecls
        ⟨[0, 0, 0, 42, 0, 0, 0, 2, 1, 2, 3, 4, 5, 6, 7, 8, 9, 10, 11, 99], .eof, none, [], []⟩
        [1, 2] 0 500 1000 7 100 200).result
        = .ok (some ([0, 0, 0, 42] ++ [0, 0, 0, 2] ++ [1, 2, 3, 4, 5, 6, 7, 8, 9] ++ [10, 11])) ∧
      (sendRequest geodeDecls
        ⟨[0, 0, 0, 42, 0, 0, 0, 2, 1, 2, 3, 4, 5, 6, 7, 8, 9, 10, 11, 99], .eof, none, [], []⟩
        [1, 2] 0 500 1000 7 100 200).recvLen = 17 + (([10, 11] : List Byte).length : Int)) :=
  readMessage_returns_header_and_body geodeDecls
    ⟨[0, 0, 0, 42, 0, 0, 0, 2, 1, 2, 3, 4, 5, 6, 7, 8, 9, 10, 11, 99], .eof, none, [], []⟩
    [0, 0, 0, 42] [0, 0, 0, 2] [1, 2, 3, 4, 5, 6, 7, 8, 9] [10, 11] [99]
    0 .CONN_NOERR 1000 false false 7 [1, 2] 500 100 200
    (by decide) (by decide) (by decide) (by decide) (by decide) rfl (by decide)

/-- Counterexample to C6 as stated: on a notification channel whose header read
times out, `receive` returns null without raising, but it overwrites the
caller's `opErr` (here `CONN_NOERR`) with `CONN_IOERR`. -/
theorem receive_header_timeout_reports_error :
    (receive geodeDecls ⟨[], .operation_aborted, none, [], []⟩ 0 .CONN_NOERR 1000).result
        = .ok none ∧
    (receive geodeDecls ⟨[], .operation_aborted, none, [], []⟩ 0 .CONN_NOERR 1000).opErr
        = .CONN_IOERR ∧
    ¬ ((receive geodeDecls ⟨[], .operation_aborted, none, [], []⟩ 0 .CONN_NOERR 1000).opErr
        = .CONN_NOERR) := by
  decide

/-- C6 (amended): when the header read of `receive` (a notification channel)
fails with "no data" or with "timeout", the call returns null and raises
nothing; `opErr` is left as the caller set it on "no data" and is set to
`CONN_IOERR` on "timeout". -/
theorem receive_header_failure (d : Decls) (c : Connector) (recvLen : Int)
    (opErr : ConnErrType) (timeout : Int)
    (hshort : c.input.length < 17)
    (hfault : c.fault = .eof ∨ c.fault = .operation_aborted) :
    (receive d c recvLen opErr timeout).result = .ok none ∧
    (receive d c recvLen opErr timeout).opErr =
      (if c.fault = .eof then opErr else .CONN_IOERR) ∧
    (receive d c recvLen opErr timeout).recvLen = recvLen := by
  unfold receive readMessage
  dsimp only
  rw [receiveData_short c HEADER_LENGTH _ (by simpa [HEADER_LENGTH] using hshort)]
  rcases hfault with h | h <;> simp [h, recvError]

/-- Witness for the amended C6: three header bytes arrive, then the read times out. -/
theorem receive_header_failure_witness :
    (receive geodeDecls ⟨[1, 2, 3], .operation_aborted, none, [], []⟩ 0 .CONN_NOERR 1000).result
        = .ok none ∧
    (receive geodeDecls ⟨[1, 2, 3], .operation_aborted, none, [], []⟩ 0 .CONN_NOERR 1000).opErr
        = (if AsioError.operation_aborted = .eof then ConnErrType.CONN_NOERR
            else ConnErrType.CONN_IOERR) ∧
    (receive geodeDecls ⟨[1, 2, 3], .operation_aborted, none, [], []⟩ 0 .CONN_NOERR 1000).recvLen
        = 0 :=
  receive_header_failure geodeDecls ⟨[1, 2, 3], .operation_aborted, none, [], []⟩ 0
    .CONN_NOERR 1000 (by decide) (Or.inr rfl)

/-- C7: when the 17-byte header has been read and fewer body bytes arrive than
the header announces, whatever the transport fault: on a notification
channel `readMessage` returns null with `opErr` set to `CONN_IOERR` and raises
nothing; on another channel it raises `TimeoutException` when the error has a
bit in common with `CONN_TIMEOUT` (the test `error & CONN_TIMEOUT`) and
`GeodeIOException` otherwise, so a timeout raises `TimeoutException` (when
`CONN_TIMEOUT` is non-zero), an I/O error raises `GeodeIOException` (when
`CONN_IOERR & CONN_TIMEOUT` is zero) and a disconnect (`CONN_NODATA`) is
classified by the same test.  In no case is a buffer returned. -/
theorem readMessage_body_failure (d : Decls) (c : Connector)
    (msgType lenField extra part : List Byte) (recvLen : Int) (opErr : ConnErrType)
    (timeout : Int) (retries notif : Bool) (request : Int)
    (hT : msgType.length = 4) (hL : lenField.length = 4) (hE : extra.length = 9)
    (hpart : (part.length : Int) < (DataInput.readInt32 lenField).1)
    (hin : c.input = msgType ++ lenField ++ extra ++ part) :
    (readMessage d c recvLen opErr timeout retries notif request).result =
      (if notif then .ok none
       else if d.andTimeout (recvError c.fault) then
         .error (.TimeoutException
           "TcrConnection::readMessage: connection timed out while receiving message body")
       else
         .error (.GeodeIOException
           "TcrConnection::readMessage: connection failure while receiving message body")) ∧
    (readMessage d c recvLen opErr timeout retries notif request).opErr =
      (if notif then .CONN_IOERR else opErr) ∧
    (∀ buf : List Byte,
      (readMessage d c recvLen opErr timeout retries notif request).result ≠ .ok (some buf)) ∧
    (notif = false → c.fault = .operation_aborted → d.errValue .CONN_TIMEOUT ≠ 0 →
      (readMessage d c recvLen opErr timeout retries notif request).result =
        .error (.TimeoutException
          "TcrConnection::readMessage: connection timed out while receiving message body")) ∧
    (notif = false → c.fault = .other →
      d.errValue .CONN_IOERR &&& d.errValue .CONN_TIMEOUT = 0 →
      (readMessage d c recvLen opErr timeout retries notif request).result =
        .error (.GeodeIOException
          "TcrConnection::readMessage: connection failure while receiving message body")) ∧
    (notif = false → c.fault = .eof →
      (readMessage d c recvLen opErr timeout retries notif request).result =
        (if d.errValue .CONN_NODATA &&& d.errValue .CONN_TIMEOUT ≠ 0 then
          .error (.TimeoutException
            "TcrConnection::readMessage: connection timed out while receiving message body")
         else
          .error (.GeodeIOException
            "TcrConnection::readMessage: connection failure while receiving message body"))) := by
  have hmsg : (DataInput.readInt32 (DataInput.readInt32 (msgType ++ lenField ++ extra)).2).1
      = (DataInput.readInt32 lenField).1 := by
    rw [readInt32_snd, List.append_assoc, List.drop_left' hT, readInt32_append _ _ hL]
  have hnn : ¬ ((DataInput.readInt32 lenField).1 < 0) := by omega
  have hsp : ¬ (¬ ((DataInput.readInt32 lenField).1 > 0) ∧ request = d.GET_CLIENT_PR_METADATA) := by
    intro h; omega
  have hres : (readMessage d c recvLen opErr timeout retries notif request).result =
      (if notif then .ok none
       else if d.andTimeout (recvError c.fault) then
         .error (.TimeoutException
           "TcrConnection::readMessage: connection timed out while receiving message body")
       else
         .error (.GeodeIOException
           "TcrConnection::readMessage: connection failure while receiving message body")) ∧
      (readMessage d c recvLen opErr timeout retries notif request).opErr =
        (if notif then .CONN_IOERR else opErr) := by
    generalize hr : readMessage d c recvLen opErr timeout retries notif request = r
    unfold readMessage at hr
    dsimp only at hr
    rw [receiveData_ok c HEADER_LENGTH _ (msgType ++ lenField ++ extra) part
      (by simp [hin]) (by simp [hT, hL, hE, HEADER_LENGTH])] at hr
    simp only [ne_eq, not_true_eq_false, if_false, hmsg, hnn, if_neg hsp] at hr
    rw [receiveData_short _ _ _ (by simp only []; omega)] at hr
    simp only [recvError_ne_noerr, not_false_eq_true, if_true] at hr
    subst hr
    cases notif
    · by_cases ht : d.andTimeout (recvError c.fault) = true
      · simp [ht]
      · simp [ht]
    · simp
  obtain ⟨h1, h2⟩ := hres
  refine ⟨h1, h2, fun buf => ?_, fun hn hf hto => ?_, fun hn hf hio => ?_, fun hn hf => ?_⟩
  · rw [h1]
    cases notif
    · simp only [Bool.false_eq_true, if_false]
      split <;> simp
    · simp
  · rw [h1, hn, hf]
    have : d.andTimeout .CONN_TIMEOUT = true := by
      simpa [Decls.andTimeout] using hto
    simp [recvError, this]
  · rw [h1, hn, hf]
    have : d.andTimeout .CONN_IOERR = false := by
      simp [Decls.andTimeout, hio]
    simp [recvError, this]
  · rw [h1, hn, hf]
    simp [recvError, Decls.andTimeout]

/-- Witness for C7: a header announcing 2 body bytes, one of which arrives, on
a channel that is not a notification channel; the read then times out, or
the peer closes the connection. -/
theorem readMessage_body_failure_witness :
    (readMessage geodeDecls
      ⟨[0, 0, 0, 42, 0, 0, 0, 2, 1, 2, 3, 4, 5, 6, 7, 8, 9, 10], .operation_aborted, none, [], []⟩
      0 .CONN_NOERR 1000 true false 7).result =
      .error (.TimeoutException
        "TcrConnection::readMessage: connection timed out while receiving message body") ∧
    (readMessage geodeDecls
      ⟨[0, 0, 0, 42, 0, 0, 0, 2, 1, 2, 3, 4, 5, 6, 7, 8, 9, 10], .eof, none, [], []⟩
      0 .CONN_NOERR 1000 true false 7).result =
      (if geodeDecls.errValue .CONN_NODATA &&& geodeDecls.errValue .CONN_TIMEOUT ≠ 0 then
        .error (.TimeoutException
          "TcrConnection::readMessage: connection timed out while receiving message body")
       else
        .error (.GeodeIOException
          "TcrConnection::readMessage: connection failure while receiving message body")) :=
  ⟨(readMessage_body_failure geodeDecls
      ⟨[0, 0, 0, 42, 0, 0, 0, 2, 1, 2, 3, 4, 5, 6, 7, 8, 9, 10], .operation_aborted, none, [], []⟩
      [0, 0, 0, 42] [0, 0, 0, 2] [1, 2, 3, 4, 5, 6, 7, 8, 9] [10] 0 .CONN_NOERR 1000 true false 7
      (by decide) (by decide) (by decide) (by decide) (by decide)).2.2.2.1 rfl rfl (by decide),
    (readMessage_body_failure geodeDecls
      ⟨[0, 0, 0, 42, 0, 0, 0, 2, 1, 2, 3, 4, 5, 6, 7, 8, 9, 10], .eof, none, [], []⟩
      [0, 0, 0, 42] [0, 0, 0, 2] [1, 2, 3, 4, 5, 6, 7, 8, 9] [10] 0 .CONN_NOERR 1000 true false 7
      (by decide) (by decide) (by decide) (by decide) (by decide)).2.2.2.2.2 rfl rfl⟩

/-! ## Chunked reply reader: lemmas -/

theorem mask_iff_testBit (f : Byte) :
    (f.val &&& LAST_CHUNK_MASK ≠ 0) ↔ f.val.testBit 0 = true := by
  simp only [LAST_CHUNK_MASK, Nat.and_one_is_mod, Nat.testBit_zero, decide_eq_true_eq]
  omega

theorem lastBit_iff (c : WireChunk) :
    (c.flags.val &&& LAST_CHUNK_MASK ≠ 0) ↔ c.lastBit = true :=
  mask_iff_testBit c.flags

theorem readChunkBody_ok (d : Decls) (c : Connector) (t : Int) (body ys : List Byte)
    (hin : c.input = body ++ ys) :
    readChunkBody d c t (body.length : Int) = (.ok body,
      { c with input := ys, reads := c.reads ++ [(body.length, toMilliseconds t)] }) := by
  have hnn : ¬ ((body.length : Int) < 0) := by omega
  unfold readChunkBody
  rw [if_neg hnn, receiveData_ok c (body.length : Int).toNat t body ys hin (by simp)]
  simp

theorem readChunkBody_short (d : Decls) (c : Connector) (t : Int) (len : Int)
    (hshort : (c.input.length : Int) < len) :
    readChunkBody d c t len =
      (.error (chunkBodyFailure d c.fault),
        { c with input := [], reads := c.reads ++ [(len.toNat, toMilliseconds t)] }) := by
  have hnn : ¬ (len < 0) := by omega
  unfold readChunkBody chunkBodyFailure
  rw [if_neg hnn, receiveData_short c len.toNat t (by omega)]
  simp only [ne_eq, recvError_ne_noerr, not_false_eq_true, if_true]
  split <;> rfl

theorem chunkBodyFailure_isException (d : Decls) (f : AsioError) :
    (chunkBodyFailure d f).isException = true := by
  unfold chunkBodyFailure; split <;> rfl

theorem chunkHeaderFailure_isException (d : Decls) (f : AsioError) :
    (chunkHeaderFailure d f).isException = true := by
  unfold chunkHeaderFailure; split <;> rfl

theorem readChunkHeader_ok (d : Decls) (c : Connector) (t : Int) (lenField : List Byte)
    (flags : Byte) (ys : List Byte) (hL : lenField.length = 4)
    (hin : c.input = lenField ++ [flags] ++ ys) :
    readChunkHeader d c t = (.ok ⟨(DataInput.readInt32 lenField).1, flags⟩,
      { c with input := ys, reads := c.reads ++ [(5, toMilliseconds t)] }) := by
  unfold readChunkHeader
  rw [receiveData_ok c CHUNK_HEADER_LENGTH t (lenField ++ [flags]) ys hin
    (by simp [hL, CHUNK_HEADER_LENGTH])]
  simp only [ne_eq, not_true_eq_false, if_false, readInt32_snd, List.drop_left' hL,
    readInt32_append _ _ hL, DataInput.read, CHUNK_HEADER_LENGTH]
  rfl

theorem readChunkHeader_short (d : Decls) (c : Connector) (t : Int)
    (hshort : c.input.length < 5) :
    readChunkHeader d c t =
      (.error (chunkHeaderFailure d c.fault),
        { c with input := [], reads := c.reads ++ [(5, toMilliseconds t)] }) := by
  unfold readChunkHeader chunkHeaderFailure
  rw [receiveData_short c CHUNK_HEADER_LENGTH t (by simpa [CHUNK_HEADER_LENGTH] using hshort)]
  simp only [ne_eq, recvError_ne_noerr, not_false_eq_true, if_true]
  split <;> rfl

theorem readResponseHeader_ok (d : Decls) (c : Connector) (t : Int)
    (pre lenField : List Byte) (flags : Byte) (ys : List Byte)
    (hP : pre.length = 12) (hL : lenField.length = 4)
    (hin : c.input = pre ++ lenField ++ [flags] ++ ys) :
    readResponseHeader d c t =
      (.ok ⟨(DataInput.readInt32 (pre ++ lenField ++ [flags])).1,
            (DataInput.readInt32 ((pre ++ lenField ++ [flags]).drop 4)).1,
            (DataInput.readInt32 ((pre ++ lenField ++ [flags]).drop 8)).1,
            ⟨(DataInput.readInt32 lenField).1, flags⟩⟩,
        { c with input := ys, reads := c.reads ++ [(17, toMilliseconds t)] }) := by
  have h12 : (pre ++ lenField ++ [flags]).drop 12 = lenField ++ [flags] := by
    rw [List.append_assoc]; exact List.drop_left' hP
  unfold readResponseHeader
  rw [receiveData_ok c HEADER_LENGTH t (pre ++ lenField ++ [flags]) ys hin
    (by simp [hP, hL, HEADER_LENGTH])]
  simp only [ne_eq, not_true_eq_false, if_false, readInt32_snd, List.drop_drop, Nat.reduceAdd,
    h12, List.drop_left' hL, readInt32_append _ _ hL, DataInput.read, HEADER_LENGTH]
  rfl

theorem processChunk_ok (d : Decls) (memId : Nat) (conn : Connector) (reply : TcrMessageReply)
    (t : Int) (c : WireChunk) (ys : List Byte) (hin : conn.input = c.body ++ ys) :
    processChunk d memId conn reply t (c.body.length : Int) c.flags =
      (.ok (!c.lastBit),
        { reply with chunks := reply.chunks ++ [c.call memId] },
        { conn with input := ys, reads := conn.reads ++ [(c.body.length, toMilliseconds t)] }) := by
  unfold processChunk
  rw [readChunkBody_ok d conn t c.body ys hin]
  cases hb : c.lastBit
  · have : ¬ (c.flags.val &&& LAST_CHUNK_MASK ≠ 0) := by
      rw [lastBit_iff, hb]; decide
    simp only [if_neg this]
    rfl
  · have : c.flags.val &&& LAST_CHUNK_MASK ≠ 0 := by
      rw [lastBit_iff, hb]
    simp only [if_pos this]
    rfl

theorem readChunks_last (d : Decls) (memId : Nat) (rt ht : Int) (fuel : Nat)
    (conn : Connector) (reply : TcrMessageReply) (c : WireChunk) (ys : List Byte)
    (hin : conn.input = c.body ++ ys) (hb : c.lastBit = true) :
    readChunks d memId rt ht (fuel + 1) conn reply ⟨(c.body.length : Int), c.flags⟩ =
      some (.ok (), { reply with chunks := reply.chunks ++ [c.call memId] },
        { conn with input := ys, reads := conn.reads ++ [(c.body.length, toMilliseconds rt)] }) := by
  simp only [readChunks, processChunk_ok d memId conn reply rt c ys hin, hb, Bool.not_true]

theorem readChunks_more (d : Decls) (memId : Nat) (rt ht : Int) (fuel : Nat)
    (conn : Connector) (reply : TcrMessageReply) (c : WireChunk) (ys : List Byte)
    (hin : conn.input = c.body ++ ys) (hb : c.lastBit = false) :
    readChunks d memId rt ht (fuel + 1) conn reply ⟨(c.body.length : Int), c.flags⟩ =
      readChunksNext d memId rt ht fuel
        { conn with input := ys, reads := conn.reads ++ [(c.body.length, toMilliseconds rt)] }
        { reply with chunks := reply.chunks ++ [c.call memId] } := by
  simp only [readChunks, processChunk_ok d memId conn reply rt c ys hin, hb, Bool.not_false,
    readChunksNext]

theorem wireBytes_length (cs : List WireChunk) (hwf : ∀ x ∈ cs, x.wellFormed) :
    (wireBytes cs).length = 5 * cs.length + totalBodyLength cs := by
  induction cs with
  | nil => rfl
  | cons c tl ih =>
    have hc := (hwf c (List.mem_cons_self c tl)).1
    have := ih (fun x hx => hwf x (List.mem_cons_of_mem c hx))
    simp only [wireBytes, WireChunk.bytes, List.length_append, List.length_cons,
      List.length_nil, totalBodyLength, hc, this]
    omega

theorem readChunksNext_ok (d : Decls) (memId : Nat) (rt ht : Int) (rest : List Byte)
    (cs : List WireChunk) :
    lastBitOnlyAtEnd cs = true → (∀ x ∈ cs, x.wellFormed) →
    ∀ (fuel : Nat) (conn : Connector) (reply : TcrMessageReply),
      cs.length ≤ fuel → conn.input = wireBytes cs ++ rest →
      ∃ conn1 : Connector, conn1.input = rest ∧
        readChunksNext d memId rt ht fuel conn reply =
          some (.ok (), { reply with chunks := reply.chunks ++ cs.map (WireChunk.call memId) },
            conn1) := by
  induction cs with
  | nil => intro h; simp [lastBitOnlyAtEnd] at h
  | cons c tl ih =>
    intro hbits hwf fuel conn reply hfuel hin
    have hc := hwf c (List.mem_cons_self c tl)
    obtain ⟨f, rfl⟩ : ∃ f, fuel = f + 1 := ⟨fuel - 1, by simp at hfuel; omega⟩
    have hin1 : conn.input = c.lenField ++ [c.flags] ++ (c.body ++ (wireBytes tl ++ rest)) := by
      simp [hin, wireBytes, WireChunk.bytes]
    unfold readChunksNext
    rw [readChunkHeader_ok d conn ht c.lenField c.flags _ hc.1 hin1]
    simp only [hc.2]
    cases tl with
    | nil =>
      have hb : c.lastBit = true := by simpa [lastBitOnlyAtEnd] using hbits
      rw [readChunks_last d memId rt ht f _ reply c (wireBytes [] ++ rest) rfl hb]
      exact ⟨{ conn with input := rest, reads := conn.reads ++ [(5, toMilliseconds ht)] ++
        [(c.body.length, toMilliseconds rt)] }, rfl, by simp [wireBytes]⟩
    | cons c1 tl1 =>
      have hb : c.lastBit = false ∧ lastBitOnlyAtEnd (c1 :: tl1) = true := by
        simpa [lastBitOnlyAtEnd] using hbits
      rw [readChunks_more d memId rt ht f _ reply c (wireBytes (c1 :: tl1) ++ rest) rfl hb.1]
      have hle : (c1 :: tl1).length ≤ f := by
        simp only [List.length_cons] at hfuel ⊢; omega
      have e : ({ reply with chunks := reply.chunks ++ (c :: c1 :: tl1).map (WireChunk.call memId) }
          : TcrMessageReply) =
          { ({ reply with chunks := reply.chunks ++ [c.call memId] } : TcrMessageReply) with
            chunks := (reply.chunks ++ [c.call memId]) ++
              (c1 :: tl1).map (WireChunk.call memId) } := by
        simp
      rw [e]
      refine ih hb.2 (fun x hx => hwf x (List.mem_cons_of_mem c hx)) f _ _ hle ?_
      rfl

theorem readMessageChunked_ok (d : Decls) (memId : Nat) (conn : Connector)
    (reply : TcrMessageReply) (rt : Int) (retry : Bool) (pre rest : List Byte)
    (chunks : List WireChunk) (hP : pre.length = 12)
    (hwf : ∀ x ∈ chunks, x.wellFormed) (hbits : lastBitOnlyAtEnd chunks = true)
    (hin : conn.input = pre ++ wireBytes chunks ++ rest) :
    ∃ (reply1 : TcrMessageReply) (conn1 : Connector),
      readMessageChunked d memId conn reply rt retry = some (.ok (), reply1, conn1) ∧
      reply1.chunks = reply.chunks ++ chunks.map (WireChunk.call memId) ++ [endOfStream memId] ∧
      reply1.handler = reply.handler ∧
      conn1.input = rest := by
  cases chunks with
  | nil => simp [lastBitOnlyAtEnd] at hbits
  | cons c tl =>
    have hc := hwf c (List.mem_cons_self c tl)
    have hin1 : conn.input = pre ++ c.lenField ++ [c.flags] ++ (c.body ++ (wireBytes tl ++ rest)) := by
      simp [hin, wireBytes, WireChunk.bytes]
    unfold readMessageChunked
    dsimp only
    rw [readResponseHeader_ok d conn _ pre c.lenField c.flags _ hP hc.1 hin1]
    simp only [hc.2]
    cases tl with
    | nil =>
      have hb : c.lastBit = true := by simpa [lastBitOnlyAtEnd] using hbits
      rw [readChunks_last d memId rt _ _ _ _ c (wireBytes [] ++ rest) rfl hb]
      refine ⟨_, _, rfl, ?_, ?_, ?_⟩
      · simp [FinalizeProcessChunk.destroy, TcrMessageReply.processChunk, endOfStream]
      · rfl
      · simp [wireBytes]
    | cons c1 tl1 =>
      have hb : c.lastBit = false ∧ lastBitOnlyAtEnd (c1 :: tl1) = true := by
        simpa [lastBitOnlyAtEnd] using hbits
      have hwf1 : ∀ x ∈ c1 :: tl1, x.wellFormed := fun x hx => hwf x (List.mem_cons_of_mem c hx)
      rw [readChunks_more d memId rt _ _ _ _ c (wireBytes (c1 :: tl1) ++ rest) rfl hb.1]
      obtain ⟨conn1, h1, h2⟩ := readChunksNext_ok d memId rt
        (calculateHeaderTimeout d rt retry) rest (c1 :: tl1) hb.2 hwf1
        (c.body ++ (wireBytes (c1 :: tl1) ++ rest)).length
        { conn with input := wireBytes (c1 :: tl1) ++ rest,
                    reads := conn.reads ++ [(17, toMilliseconds (calculateHeaderTimeout d rt retry))]
                      ++ [(c.body.length, toMilliseconds rt)] }
        { messageType := (DataInput.readInt32 (pre ++ c.lenField ++ [c.flags])).1,
          transId := (DataInput.readInt32 ((pre ++ c.lenField ++ [c.flags]).drop 8)).1,
          started := reply.started + 1,
          chunks := reply.chunks ++ [c.call memId],
          handler := reply.handler }
        (by
          have := wireBytes_length (c1 :: tl1) hwf1
          simp only [List.length_append, this]
          omega)
        rfl
      rw [h2]
      refine ⟨_, _, rfl, ?_, ?_, h1⟩
      · simp [FinalizeProcessChunk.destroy, TcrMessageReply.processChunk, endOfStream]
      · rfl

theorem readChunks_bodyfail (d : Decls) (memId : Nat) (rt ht : Int) (fuel : Nat)
    (conn : Connector) (reply : TcrMessageReply) (len : Int) (flags : Byte)
    (hshort : (conn.input.length : Int) < len) :
    readChunks d memId rt ht (fuel + 1) conn reply ⟨len, flags⟩ =
      some (.error (chunkBodyFailure d conn.fault), reply,
        { conn with input := [], reads := conn.reads ++ [(len.toNat, toMilliseconds rt)] }) := by
  simp only [readChunks, processChunk, readChunkBody_short d conn rt len hshort]

theorem readChunksNext_fail (d : Decls) (memId : Nat) (rt ht : Int) (tail : List Byte)
    (hfail : (∃ (lenField : List Byte) (flags : Byte) (part : List Byte),
        tail = lenField ++ [flags] ++ part ∧ lenField.length = 4 ∧
        (part.length : Int) < (DataInput.readInt32 lenField).1) ∨ tail.length < 5)
    (done : List WireChunk) :
    (∀ x ∈ done, x.wellFormed) → (∀ x ∈ done, x.lastBit = false) →
    ∀ (fuel : Nat) (conn : Connector) (reply : TcrMessageReply),
      conn.input.length < 5 * fuel + 5 → conn.input = wireBytes done ++ tail →
      ∃ (e : Raised) (conn1 : Connector),
        readChunksNext d memId rt ht fuel conn reply =
          some (.error e,
            { reply with chunks := reply.chunks ++ done.map (WireChunk.call memId) }, conn1) ∧
        (e = chunkBodyFailure d conn.fault ∨ e = chunkHeaderFailure d conn.fault) := by
  induction done with
  | nil =>
    intro _ _ fuel conn reply hfuel hin
    have hin0 : conn.input = tail := by simpa [wireBytes] using hin
    have hr : ({ reply with chunks := reply.chunks ++ ([] : List WireChunk).map (WireChunk.call memId) }
        : TcrMessageReply) = reply := by simp
    rw [hr]
    rcases hfail with ⟨lenField, flags, part, ht1, hL, hpart⟩ | hshort
    · obtain ⟨f, rfl⟩ : ∃ f, fuel = f + 1 := by
        refine ⟨fuel - 1, ?_⟩
        rw [hin0, ht1] at hfuel
        simp only [List.length_append, hL, List.length_cons, List.length_nil] at hfuel
        omega
      unfold readChunksNext
      rw [readChunkHeader_ok d conn ht lenField flags part hL (by rw [hin0, ht1])]
      dsimp only
      rw [readChunks_bodyfail d memId rt ht f _ reply _ flags hpart]
      exact ⟨_, _, rfl, Or.inl rfl⟩
    · unfold readChunksNext
      rw [readChunkHeader_short d conn ht (by rw [hin0]; exact hshort)]
      exact ⟨_, _, rfl, Or.inr rfl⟩
  | cons c tl ih =>
    intro hwf hnl fuel conn reply hfuel hin
    have hc := hwf c (List.mem_cons_self c tl)
    have hb := hnl c (List.mem_cons_self c tl)
    have hin1 : conn.input = c.lenField ++ [c.flags] ++ (c.body ++ (wireBytes tl ++ tail)) := by
      simp [hin, wireBytes, WireChunk.bytes]
    have hlen : conn.input.length = 5 + c.body.length + (wireBytes tl ++ tail).length := by
      rw [hin1]
      simp only [List.length_append, hc.1, List.length_cons, List.length_nil]
      omega
    obtain ⟨f, rfl⟩ : ∃ f, fuel = f + 1 := ⟨fuel - 1, by omega⟩
    unfold readChunksNext
    rw [readChunkHeader_ok d conn ht c.lenField c.flags _ hc.1 hin1]
    simp only [hc.2]
    rw [readChunks_more d memId rt ht f _ reply c (wireBytes tl ++ tail) rfl hb]
    have e : ({ reply with chunks := reply.chunks ++ (c :: tl).map (WireChunk.call memId) }
        : TcrMessageReply) =
        { ({ reply with chunks := reply.chunks ++ [c.call memId] } : TcrMessageReply) with
          chunks := (reply.chunks ++ [c.call memId]) ++ tl.map (WireChunk.call memId) } := by
      simp
    rw [e]
    refine ih (fun x hx => hwf x (List.mem_cons_of_mem c hx))
      (fun x hx => hnl x (List.mem_cons_of_mem c hx)) f _ _ ?_ ?_
    · show (wireBytes tl ++ tail).length < 5 * f + 5
      omega
    · rfl

theorem clearHandlerException_handler (reply : TcrMessageReply) :
    (clearHandlerException reply).handler = reply.handler.map (fun _ => none) := by
  unfold clearHandlerException
  rcases h : reply.handler with _ | _ | _ <;> simp [h]

theorem clearHandlerException_chunks (reply : TcrMessageReply) :
    (clearHandlerException reply).chunks = reply.chunks := by
  unfold clearHandlerException
  rcases h : reply.handler with _ | _ | _ <;> simp

theorem isException_cases (e : Raised) (h : e.isException = true) :
    (∃ m, e = .TimeoutException m) ∨ (∃ m, e = .GeodeIOException m) := by
  cases e with
  | TimeoutException m => exact Or.inl ⟨m, rfl⟩
  | GeodeIOException m => exact Or.inr ⟨m, rfl⟩
  | invalidSize => simp [Raised.isException] at h

theorem readMessageChunked_fail (d : Decls) (memId : Nat) (conn : Connector)
    (reply : TcrMessageReply) (rt : Int) (retry : Bool) (pre tail : List Byte)
    (done : List WireChunk) (hP : pre.length = 12)
    (hwf : ∀ x ∈ done, x.wellFormed) (hnl : ∀ x ∈ done, x.lastBit = false)
    (hfail : (∃ (lenField : List Byte) (flags : Byte) (part : List Byte),
        tail = lenField ++ [flags] ++ part ∧ lenField.length = 4 ∧
        (part.length : Int) < (DataInput.readInt32 lenField).1) ∨
      (done ≠ [] ∧ tail.length < 5))
    (hin : conn.input = pre ++ wireBytes done ++ tail) :
    ∃ (e : Raised) (reply1 : TcrMessageReply) (conn1 : Connector),
      readMessageChunked d memId conn reply rt retry = some (.error e, reply1, conn1) ∧
      (e = chunkBodyFailure d conn.fault ∨ e = chunkHeaderFailure d conn.fault) ∧
      reply1.chunks = reply.chunks ++ done.map (WireChunk.call memId) ++ [endOfStream memId] ∧
      reply1.handler = reply.handler.map (fun _ => none) := by
  cases done with
  | nil =>
    rcases hfail with ⟨lenField, flags, part, ht1, hL, hpart⟩ | ⟨hne, _⟩
    · have hin1 : conn.input = pre ++ lenField ++ [flags] ++ part := by
        simp [hin, wireBytes, ht1]
      unfold readMessageChunked
      dsimp only
      rw [readResponseHeader_ok d conn _ pre lenField flags _ hP hL hin1]
      dsimp only
      rw [readChunks_bodyfail d memId rt _ _ _ _ _ flags hpart]
      simp only [chunkBodyFailure_isException, if_true]
      refine ⟨_, _, _, rfl, Or.inl rfl, ?_, ?_⟩
      · simp [FinalizeProcessChunk.destroy, TcrMessageReply.processChunk, endOfStream,
          clearHandlerException_chunks]
      · simp [FinalizeProcessChunk.destroy, TcrMessageReply.processChunk,
          clearHandlerException_handler]
    · exact absurd rfl hne
  | cons c tl =>
    have hc := hwf c (List.mem_cons_self c tl)
    have hb := hnl c (List.mem_cons_self c tl)
    have hfail1 : (∃ (lenField : List Byte) (flags : Byte) (part : List Byte),
        tail = lenField ++ [flags] ++ part ∧ lenField.length = 4 ∧
        (part.length : Int) < (DataInput.readInt32 lenField).1) ∨ tail.length < 5 := by
      rcases hfail with h | ⟨_, h⟩
      · exact Or.inl h
      · exact Or.inr h
    have hin1 : conn.input = pre ++ c.lenField ++ [c.flags] ++ (c.body ++ (wireBytes tl ++ tail)) := by
      simp [hin, wireBytes, WireChunk.bytes]
    unfold readMessageChunked
    dsimp only
    rw [readResponseHeader_ok d conn _ pre c.lenField c.flags _ hP hc.1 hin1]
    simp only [hc.2]
    rw [readChunks_more d memId rt _ _ _ _ c (wireBytes tl ++ tail) rfl hb]
    obtain ⟨e, conn1, h1, h2⟩ := readChunksNext_fail d memId rt
      (calculateHeaderTimeout d rt retry) tail hfail1 tl
      (fun x hx => hwf x (List.mem_cons_of_mem c hx))
      (fun x hx => hnl x (List.mem_cons_of_mem c hx))
      (c.body ++ (wireBytes tl ++ tail)).length
      { conn with input := wireBytes tl ++ tail,
                  reads := conn.reads ++ [(17, toMilliseconds (calculateHeaderTimeout d rt retry))]
                    ++ [(c.body.length, toMilliseconds rt)] }
      { messageType := (DataInput.readInt32 (pre ++ c.lenField ++ [c.flags])).1,
        transId := (DataInput.readInt32 ((pre ++ c.lenField ++ [c.flags]).drop 8)).1,
        started := reply.started + 1,
        chunks := reply.chunks ++ [c.call memId],
        handler := reply.handler }
      (by simp only [List.length_append]; omega)
      rfl
    have h3 : e.isException = true := by
      rcases h2 with h | h <;> rw [h]
      · exact chunkBodyFailure_isException d _
      · exact chunkHeaderFailure_isException d _
    rw [h1]
    simp only [h3, if_true]
    refine ⟨_, _, _, rfl, h2, ?_, ?_⟩
    · simp [FinalizeProcessChunk.destroy, TcrMessageReply.processChunk, endOfStream,
        clearHandlerException_chunks]
    · simp [FinalizeProcessChunk.destroy, TcrMessageReply.processChunk,
        clearHandlerException_handler]

/-! ## The iteration bound of `readMessageChunked` is never reached -/

theorem receiveData_length_le (c : Connector) (n : Nat) (t : Int) :
    (receiveData c n t).2.2.input.length ≤ c.input.length := by
  unfold receiveData Connector.receive
  by_cases h : n ≤ c.input.length
  · simp [h]
  · cases hf : c.fault <;> simp [h, hf]

theorem receiveData_noerr_length (c : Connector) (n : Nat) (t : Int)
    (hok : (receiveData c n t).1 = .CONN_NOERR) :
    (receiveData c n t).2.2.input.length + n = c.input.length := by
  unfold receiveData Connector.receive at hok ⊢
  by_cases h : n ≤ c.input.length
  · simp [h]
  · cases hf : c.fault <;> simp [h, hf] at hok

theorem readChunkBody_length_le (d : Decls) (c : Connector) (t len : Int) :
    (readChunkBody d c t len).2.input.length ≤ c.input.length := by
  unfold readChunkBody
  by_cases hneg : len < 0
  · simp [hneg]
  · rw [if_neg hneg]
    have h := receiveData_length_le c len.toNat t
    rcases hr : receiveData c len.toNat t with ⟨err, buf, c1⟩
    rw [hr] at h
    dsimp only at h ⊢
    split <;> [split; skip] <;> exact h

theorem processChunk_length_le (d : Decls) (memId : Nat) (c : Connector)
    (reply : TcrMessageReply) (t len : Int) (flags : Byte) :
    (processChunk d memId c reply t len flags).2.2.input.length ≤ c.input.length := by
  unfold processChunk
  have h := readChunkBody_length_le d c t len
  rcases hr : readChunkBody d c t len with ⟨_ | _, c1⟩ <;> (rw [hr] at h; exact h)

theorem readChunkHeader_ok_length (d : Decls) (c : Connector) (t : Int) (h1 : chunkHeader)
    (c2 : Connector) (hok : readChunkHeader d c t = (.ok h1, c2)) :
    c2.input.length + 5 = c.input.length := by
  unfold readChunkHeader at hok
  have h := receiveData_noerr_length c CHUNK_HEADER_LENGTH t
  rcases hr : receiveData c CHUNK_HEADER_LENGTH t with ⟨err, buf, c1⟩
  rw [hr] at h hok
  dsimp only at h hok
  by_cases he : err = .CONN_NOERR
  · subst he
    simp only [ne_eq, not_true_eq_false, if_false, Prod.mk.injEq] at hok
    rw [← hok.2]
    exact h rfl
  · rw [if_pos he] at hok
    split at hok <;> simp at hok

theorem readChunks_isSome (d : Decls) (memId : Nat) (rt ht : Int) (fuel : Nat) :
    ∀ (conn : Connector) (reply : TcrMessageReply) (header : chunkHeader),
      conn.input.length < fuel →
      (readChunks d memId rt ht fuel conn reply header).isSome = true := by
  induction fuel with
  | zero => intro conn _ _ h; omega
  | succ f ih =>
    intro conn reply header hlt
    unfold readChunks
    have hp := processChunk_length_le d memId conn reply rt header.chunkLength header.flags
    rcases hr : processChunk d memId conn reply rt header.chunkLength header.flags
      with ⟨_ | _ | _, reply1, conn1⟩
    · rfl
    · rfl
    · rw [hr] at hp
      dsimp only at hp ⊢
      rcases hh : readChunkHeader d conn1 ht with ⟨_ | header1, conn2⟩
      · rfl
      · have := readChunkHeader_ok_length d conn1 ht header1 conn2 hh
        exact ih conn2 reply1 header1 (by omega)

theorem readMessageChunked_total (d : Decls) (memId : Nat) (conn : Connector)
    (reply : TcrMessageReply) (rt : Int) (retry : Bool) :
    (readMessageChunked d memId conn reply rt retry).isSome = true := by
  unfold readMessageChunked
  dsimp only
  rcases hh : readResponseHeader d conn (calculateHeaderTimeout d rt retry)
    with ⟨_ | responseHeader, conn1⟩
  · rfl
  · dsimp only
    have h := readChunks_isSome d memId rt (calculateHeaderTimeout d rt retry)
      (conn1.input.length + 1) conn1
      { messageType := responseHeader.messageType, transId := responseHeader.transactionId,
        started := reply.started + 1, chunks := reply.chunks, handler := reply.handler }
      responseHeader.header (by omega)
    rcases hr : readChunks d memId rt (calculateHeaderTimeout d rt retry)
      (conn1.input.length + 1) conn1
      { messageType := responseHeader.messageType, transId := responseHeader.transactionId,
        started := reply.started + 1, chunks := reply.chunks, handler := reply.handler }
      responseHeader.header with _ | ⟨_ | _, reply4, conn2⟩
    · rw [hr] at h; simp at h
    · rfl
    · rfl

/-! ## Chunked reply reader: theorems -/

/-- C8: for a chunked reply of N >= 1 well-formed chunks whose last-chunk bit
is set on chunk N only, delivered without transport error,
`readMessageChunked` returns normally and the calls it makes on the chunk
consumer are exactly the N chunks, each with its body, length and flags, in
wire order, followed by one end-of-stream call (the empty chunk). -/
theorem readMessageChunked_delivers_chunks (d : Decls) (memId : Nat) (conn : Connector)
    (reply : TcrMessageReply) (receiveTimeout : Int) (doHeaderTimeoutRetries : Bool)
    (pre rest : List Byte) (chunks : List WireChunk) (hP : pre.length = 12)
    (hwf : ∀ x ∈ chunks, x.wellFormed) (hbits : lastBitOnlyAtEnd chunks = true)
    (hin : conn.input = pre ++ wireBytes chunks ++ rest) :
    ∃ (reply1 : TcrMessageReply) (conn1 : Connector),
      readMessageChunked d memId conn reply receiveTimeout doHeaderTimeoutRetries
        = some (.ok (), reply1, conn1) ∧
      reply1.chunks =
        reply.chunks ++ chunks.map (WireChunk.call memId) ++ [endOfStream memId] := by
  obtain ⟨reply1, conn1, h1, h2, _, _⟩ := readMessageChunked_ok d memId conn reply
    receiveTimeout doHeaderTimeoutRetries pre rest chunks hP hwf hbits hin
  exact ⟨reply1, conn1, h1, h2⟩

/-- Witness for C8: a reply of two chunks (bodies of 2 and 1 bytes, flags 0
and 3) followed by two bytes that belong to the next message. -/
theorem readMessageChunked_delivers_chunks_witness :
    ∃ (reply1 : TcrMessageReply) (conn1 : Connector),
      readMessageChunked geodeDecls 5
        ⟨[0, 0, 0, 42, 0, 0, 0, 1, 0, 0, 0, 7, 0, 0, 0, 2, 0, 10, 11, 0, 0, 0, 1, 3, 12, 99, 98],
          .eof, none, [], []⟩
        ⟨0, 0, 0, [], none⟩ 1000 true = some (.ok (), reply1, conn1) ∧
      reply1.chunks =
        [] ++ [⟨[0, 0, 0, 2], 0, [10, 11]⟩, ⟨[0, 0, 0, 1], 3, [12]⟩].map (WireChunk.call 5)
          ++ [endOfStream 5] :=
  readMessageChunked_delivers_chunks geodeDecls 5
    ⟨[0, 0, 0, 42, 0, 0, 0, 1, 0, 0, 0, 7, 0, 0, 0, 2, 0, 10, 11, 0, 0, 0, 1, 3, 12, 99, 98],
      .eof, none, [], []⟩
    ⟨0, 0, 0, [], none⟩ 1000 true [0, 0, 0, 42, 0, 0, 0, 1, 0, 0, 0, 7] [99, 98]
    [⟨[0, 0, 0, 2], 0, [10, 11]⟩, ⟨[0, 0, 0, 1], 3, [12]⟩]
    (by decide) (by decide) (by decide) (by decide)

/-- C9: when the 17-byte response header has been read and, after the chunks
`done` were handed over, the read of the next chunk body or (after at least
one chunk) of the next chunk header fails, `readMessageChunked` raises that
read failure, a `TimeoutException` or a `GeodeIOException`; the consumer
has received the chunks `done`, then exactly one end-of-stream call and no
further chunk, and an exception recorded by the handler has been cleared. -/
theorem readMessageChunked_read_failure (d : Decls) (memId : Nat) (conn : Connector)
    (reply : TcrMessageReply) (receiveTimeout : Int) (doHeaderTimeoutRetries : Bool)
    (pre tail : List Byte) (done : List WireChunk) (hP : pre.length = 12)
    (hwf : ∀ x ∈ done, x.wellFormed) (hnl : ∀ x ∈ done, x.lastBit = false)
    (hfail : (∃ (lenField : List Byte) (flags : Byte) (part : List Byte),
        tail = lenField ++ [flags] ++ part ∧ lenField.length = 4 ∧
        (part.length : Int) < (DataInput.readInt32 lenField).1) ∨
      (done ≠ [] ∧ tail.length < 5))
    (hin : conn.input = pre ++ wireBytes done ++ tail) :
    ∃ (e : Raised) (reply1 : TcrMessageReply) (conn1 : Connector),
      readMessageChunked d memId conn reply receiveTimeout doHeaderTimeoutRetries
        = some (.error e, reply1, conn1) ∧
      (e = chunkBodyFailure d conn.fault ∨ e = chunkHeaderFailure d conn.fault) ∧
      ((∃ m, e = .TimeoutException m) ∨ (∃ m, e = .GeodeIOException m)) ∧
      reply1.chunks = reply.chunks ++ done.map (WireChunk.call memId) ++ [endOfStream memId] ∧
      reply1.handler = reply.handler.map (fun _ => none) := by
  obtain ⟨e, reply1, conn1, h1, h2, h3, h4⟩ := readMessageChunked_fail d memId conn reply
    receiveTimeout doHeaderTimeoutRetries pre tail done hP hwf hnl hfail hin
  refine ⟨e, reply1, conn1, h1, h2, ?_, h3, h4⟩
  apply isException_cases
  rcases h2 with h | h <;> rw [h]
  · exact chunkBodyFailure_isException d _
  · exact chunkHeaderFailure_isException d _

/-- Witness for C9: one chunk arrives whole, the next announces 3 body bytes
of which one arrives before an I/O error; the handler had recorded an
exception. -/
theorem readMessageChunked_read_failure_witness :
    ∃ (e : Raised) (reply1 : TcrMessageReply) (conn1 : Connector),
      readMessageChunked geodeDecls 5
        ⟨[0, 0, 0, 42, 0, 0, 0, 1, 0, 0, 0, 7, 0, 0, 0, 2, 0, 10, 11, 0, 0, 0, 3, 1, 12],
          .other, none, [], []⟩
        ⟨0, 0, 0, [], some (some "consumer failed")⟩ 1000 true
        = some (.error e, reply1, conn1) ∧
      (e = chunkBodyFailure geodeDecls .other ∨ e = chunkHeaderFailure geodeDecls .other) ∧
      ((∃ m, e = .TimeoutException m) ∨ (∃ m, e = .GeodeIOException m)) ∧
      reply1.chunks = [] ++ [(⟨[0, 0, 0, 2], 0, [10, 11]⟩ : WireChunk)].map (WireChunk.call 5)
        ++ [endOfStream 5] ∧
      reply1.handler = (some (some "consumer failed")).map (fun _ => none) :=
  readMessageChunked_read_failure geodeDecls 5
    ⟨[0, 0, 0, 42, 0, 0, 0, 1, 0, 0, 0, 7, 0, 0, 0, 2, 0, 10, 11, 0, 0, 0, 3, 1, 12],
      .other, none, [], []⟩
    ⟨0, 0, 0, [], some (some "consumer failed")⟩ 1000 true
    [0, 0, 0, 42, 0, 0, 0, 1, 0, 0, 0, 7] [0, 0, 0, 3, 1, 12]
    [⟨[0, 0, 0, 2], 0, [10, 11]⟩]
    (by decide) (by decide) (by decide)
    (Or.inl ⟨[0, 0, 0, 3], 1, [12], by decide, by decide, by decide⟩) (by decide)

/-- C10: on a well-formed reply of N chunks whose last-chunk bit is set on
chunk N only, `readMessageChunked` leaves every byte after chunk N on the
wire and consumes exactly 17 + (sum of the body lengths) + 5 * (N - 1)
bytes; and whether `processChunk` asks for another chunk depends on bit 0 of
the flags only. -/
theorem readMessageChunked_stops_at_last_chunk (d : Decls) (memId : Nat) (conn : Connector)
    (reply : TcrMessageReply) (receiveTimeout : Int) (doHeaderTimeoutRetries : Bool)
    (pre rest : List Byte) (chunks : List WireChunk) (hP : pre.length = 12)
    (hwf : ∀ x ∈ chunks, x.wellFormed) (hbits : lastBitOnlyAtEnd chunks = true)
    (hin : conn.input = pre ++ wireBytes chunks ++ rest) :
    (∃ (reply1 : TcrMessageReply) (conn1 : Connector),
      readMessageChunked d memId conn reply receiveTimeout doHeaderTimeoutRetries
        = some (.ok (), reply1, conn1) ∧
      conn1.input = rest ∧
      conn.input.length - conn1.input.length =
        17 + totalBodyLength chunks + 5 * (chunks.length - 1)) ∧
    (∀ (c : Connector) (r : TcrMessageReply) (t len : Int) (f1 f2 : Byte),
      f1.val.testBit 0 = f2.val.testBit 0 →
      (processChunk d memId c r t len f1).1 = (processChunk d memId c r t len f2).1) := by
  constructor
  · obtain ⟨reply1, conn1, h1, _, _, h4⟩ := readMessageChunked_ok d memId conn reply
      receiveTimeout doHeaderTimeoutRetries pre rest chunks hP hwf hbits hin
    refine ⟨reply1, conn1, h1, h4, ?_⟩
    have hlen := wireBytes_length chunks hwf
    have hpos : 0 < chunks.length := by
      cases chunks with
      | nil => simp [lastBitOnlyAtEnd] at hbits
      | cons c tl => simp
    rw [hin, h4]
    simp only [List.length_append, hP, hlen]
    omega
  · intro c r t len f1 f2 hf
    have hm : (f1.val &&& LAST_CHUNK_MASK ≠ 0) ↔ (f2.val &&& LAST_CHUNK_MASK ≠ 0) := by
      rw [mask_iff_testBit, mask_iff_testBit, hf]
    unfold processChunk
    rcases readChunkBody d c t len with ⟨_ | body, c1⟩
    · rfl
    · by_cases h : f1.val &&& LAST_CHUNK_MASK ≠ 0
      · simp only [if_pos h, if_pos (hm.mp h)]
      · have h2 : ¬ (f2.val &&& LAST_CHUNK_MASK ≠ 0) := fun h3 => h (hm.mpr h3)
        simp only [if_neg h, if_neg h2]

/-- Witness for C10: a reply of two chunks followed by two bytes of the next
message, which stay on the wire. -/
theorem readMessageChunked_stops_at_last_chunk_witness :
    ∃ (reply1 : TcrMessageReply) (conn1 : Connector),
      readMessageChunked geodeDecls 5
        ⟨[0, 0, 0, 42, 0, 0, 0, 1, 0, 0, 0, 7, 0, 0, 0, 2, 0, 10, 11, 0, 0, 0, 1, 3, 12, 99, 98],
          .eof, none, [], []⟩
        ⟨0, 0, 0, [], none⟩ 1000 true = some (.ok (), reply1, conn1) ∧
      conn1.input = [99, 98] ∧
      (27 : Nat) - conn1.input.length = 17 + 3 + 5 * (2 - 1) := by
  obtain ⟨reply1, conn1, h1, h2, h3⟩ := (readMessageChunked_stops_at_last_chunk geodeDecls 5
    ⟨[0, 0, 0, 42, 0, 0, 0, 1, 0, 0, 0, 7, 0, 0, 0, 2, 0, 10, 11, 0, 0, 0, 1, 3, 12, 99, 98],
      .eof, none, [], []⟩
    ⟨0, 0, 0, [], none⟩ 1000 true [0, 0, 0, 42, 0, 0, 0, 1, 0, 0, 0, 7] [99, 98]
    [⟨[0, 0, 0, 2], 0, [10, 11]⟩, ⟨[0, 0, 0, 1], 3, [12]⟩]
    (by decide) (by decide) (by decide) (by decide)).1
  exact ⟨reply1, conn1, h1, h2, h3⟩

/-! ## Connection health tracker: theorems -/

/-- C13: `hasExpired(baseExpiry)` is false for `baseExpiry <= 0`; otherwise it
is true exactly when the time elapsed since creation exceeds
`baseExpiry + (baseExpiry * p) / 100` milliseconds (truncating division, `p`
the jitter percentage).  It depends on the creation time and the clock only
through the elapsed time; with `baseExpiry` = 1000 ms and exactly 1000 ms
elapsed it is true exactly when `p < 0`. -/
theorem hasExpired_spec (ticksPerMilli : Int) (created lastAccessed p : Int)
    (created1 lastAccessed1 : Int) (elapsed expiryTime : Int)
    (htick : 0 < ticksPerMilli) :
    hasExpired ticksPerMilli ⟨created, lastAccessed, p⟩ (created + elapsed) expiryTime =
      (if expiryTime ≤ 0 then false
       else decide (elapsed > (expiryTime + Int.tdiv (expiryTime * p) 100) * ticksPerMilli)) ∧
    hasExpired ticksPerMilli ⟨created, lastAccessed, p⟩ (created + elapsed) expiryTime =
      hasExpired ticksPerMilli ⟨created1, lastAccessed1, p⟩ (created1 + elapsed) expiryTime ∧
    hasExpired ticksPerMilli ⟨created, lastAccessed, p⟩ (created + 1000 * ticksPerMilli) 1000 =
      decide (p < 0) := by
  refine ⟨?_, ?_, ?_⟩
  · simp [hasExpired, variadicExpiryTime]
  · simp [hasExpired, variadicExpiryTime]
  · have h1000 : Int.tdiv (1000 * p) 100 = 10 * p := by
      rw [show (1000 : Int) * p = 100 * (10 * p) by ring]
      exact Int.mul_tdiv_cancel_left _ (by decide)
    simp only [hasExpired, variadicExpiryTime, h1000, add_sub_cancel_left]
    simp only [show ¬ ((1000 : Int) ≤ 0) by decide, if_false]
    congr 1
    apply propext
    constructor
    · intro hgt
      by_contra hp
      have hp0 : 0 ≤ p := by omega
      have : 1000 * ticksPerMilli ≤ (1000 + 10 * p) * ticksPerMilli := by nlinarith
      omega
    · intro hp
      have : (1000 + 10 * p) * ticksPerMilli < 1000 * ticksPerMilli := by nlinarith
      omega

/-- Witness for C13: a clock of 1000000 ticks per millisecond and a jitter of -3. -/
theorem hasExpired_spec_witness :
    hasExpired 1000000 ⟨5, 7, -3⟩ (5 + 1000 * 1000000) 1000 = decide ((-3 : Int) < 0) :=
  (hasExpired_spec 1000000 5 7 (-3) 0 0 0 1000 (by decide)).2.2

/-- C14: for a non-negative value of the random source,
`expiryTimeVariancePercentage` lies in [-10, 10] and depends on the value
modulo 21 only; every integer of [-10, 10] is the image of exactly one
residue (the residues 10..20 give the offsets -10..0); and for an expiry
`e > 0` the adjusted expiry of `hasExpired` lies between 90% and 110% of `e`. -/
theorem expiryTimeVariancePercentage_range (rand : Int) (expiryTime : Int)
    (hrand : 0 ≤ rand) (hexp : 0 < expiryTime) :
    (-10 ≤ expiryTimeVariancePercentage rand ∧ expiryTimeVariancePercentage rand ≤ 10) ∧
    expiryTimeVariancePercentage rand = expiryTimeVariancePercentage (rand % 21) ∧
    (∀ v : Int, -10 ≤ v → v ≤ 10 →
      ∃! r : Int, (0 ≤ r ∧ r < 21) ∧ expiryTimeVariancePercentage r = v) ∧
    (∀ r : Int, 0 ≤ r → r < 21 →
      expiryTimeVariancePercentage r = if r + 1 > 10 then r + 1 - 21 else r + 1) ∧
    (9 * expiryTime ≤
        10 * variadicExpiryTime expiryTime (expiryTimeVariancePercentage rand) ∧
      10 * variadicExpiryTime expiryTime (expiryTimeVariancePercentage rand)
        ≤ 11 * expiryTime) := by
  have hmod : Int.tmod rand 21 = rand % 21 := Int.tmod_eq_emod hrand (by decide)
  have hlo : 0 ≤ rand % 21 := Int.emod_nonneg _ (by decide)
  have hhi : rand % 21 < 21 := Int.emod_lt_of_pos _ (by decide)
  have hsmall : ∀ r : Int, 0 ≤ r → r < 21 →
      expiryTimeVariancePercentage r = if r + 1 > 10 then r + 1 - 21 else r + 1 := by
    intro r h0 h1
    have : Int.tmod r 21 = r := by
      rw [Int.tmod_eq_emod h0 (by decide)]; exact Int.emod_eq_of_lt h0 h1
    simp only [expiryTimeVariancePercentage, this]
  have hval : expiryTimeVariancePercentage rand =
      if rand % 21 + 1 > 10 then rand % 21 + 1 - 21 else rand % 21 + 1 := by
    simp only [expiryTimeVariancePercentage, hmod]
  have hrange : -10 ≤ expiryTimeVariancePercentage rand ∧
      expiryTimeVariancePercentage rand ≤ 10 := by
    rw [hval]; split <;> constructor <;> omega
  refine ⟨hrange, ?_, ?_, hsmall, ?_⟩
  · rw [hval, hsmall _ hlo hhi]
  · intro v hv0 hv1
    by_cases hpos : 1 ≤ v
    · refine ⟨v - 1, ⟨⟨by omega, by omega⟩, ?_⟩, ?_⟩
      · rw [hsmall _ (by omega) (by omega)]; split <;> omega
      · rintro r ⟨⟨h0, h1⟩, hr⟩
        rw [hsmall _ h0 h1] at hr
        split at hr <;> omega
    · refine ⟨v + 20, ⟨⟨by omega, by omega⟩, ?_⟩, ?_⟩
      · rw [hsmall _ (by omega) (by omega)]; split <;> omega
      · rintro r ⟨⟨h0, h1⟩, hr⟩
        rw [hsmall _ h0 h1] at hr
        split at hr <;> omega
  · generalize expiryTimeVariancePercentage rand = p at hrange
    obtain ⟨hp0, hp1⟩ := hrange
    simp only [variadicExpiryTime]
    have h1 : expiryTime * p ≤ 10 * expiryTime := by nlinarith
    have h2 : -(10 * expiryTime) ≤ expiryTime * p := by nlinarith
    generalize expiryTime * p = x at h1 h2
    by_cases hx : 0 ≤ x
    · rw [Int.tdiv_eq_ediv hx (by decide)]
      omega
    · have hneg : x = -(-x) := by omega
      rw [hneg, Int.neg_tdiv, Int.tdiv_eq_ediv (by omega) (by decide)]
      omega

/-- Witness for C14: the value 1804289383 of the random source and an expiry of
1000 ms. -/
theorem expiryTimeVariancePercentage_range_witness :
    -10 ≤ expiryTimeVariancePercentage 1804289383 ∧
    expiryTimeVariancePercentage 1804289383 ≤ 10 :=
  (expiryTimeVariancePercentage_range 1804289383 1000 (by decide) (by decide)).1

/-- C15: `isIdle(idleThreshold)` is false for `idleThreshold <= 0` and otherwise
true exactly when the time elapsed since `m_lastAccessed` exceeds the
threshold; `touch()` sets `m_lastAccessed` to the clock reading and leaves the
creation time and the jitter, hence `hasExpired`, as they were;
`updateCreationTime()` sets the creation time to the clock reading and, through
`touch()`, the last-accessed time to the reading taken there. -/
theorem isIdle_spec (ticksPerMilli : Int) (h : Health) (now idleTime : Int)
    (t t1 expiryTime : Int) :
    isIdle ticksPerMilli h now idleTime =
      (if idleTime ≤ 0 then false
       else decide (now - h.m_lastAccessed > idleTime * ticksPerMilli)) ∧
    isIdle ticksPerMilli (touch h t) now idleTime =
      (if idleTime ≤ 0 then false else decide (now - t > idleTime * ticksPerMilli)) ∧
    touch h t = ⟨h.m_creationTime, t, h.m_expiryTimeVariancePercentage⟩ ∧
    hasExpired ticksPerMilli (touch h t) now expiryTime =
      hasExpired ticksPerMilli h now expiryTime ∧
    updateCreationTime h t t1 = ⟨t, t1, h.m_expiryTimeVariancePercentage⟩ ∧
    updateCreationTime h t t = ⟨t, t, h.m_expiryTimeVariancePercentage⟩ ∧
    isIdle ticksPerMilli (updateCreationTime h t t1) now idleTime =
      (if idleTime ≤ 0 then false else decide (now - t1 > idleTime * ticksPerMilli)) := by
  refine ⟨rfl, rfl, rfl, rfl, rfl, rfl, rfl⟩

/-! ## Timeout budgets: theorems -/

theorem receiveData_reads (c : Connector) (n : Nat) (t : Int) :
    (receiveData c n t).2.2.reads = c.reads ++ [(n, toMilliseconds t)] := by
  unfold receiveData Connector.receive
  by_cases h : n ≤ c.input.length
  · simp [h]
  · cases hf : c.fault <;> simp [h, hf]

/-- The receive budget that `sendRequest` hands to `readMessage` after a send
that succeeded and took `finish - start` clock ticks: the time spent is
computed as `start - finish`, so it is added to the budget and the guard
`timeSpent >= receiveTimeoutSec` cannot fire for a positive budget. -/
theorem sendRequest_budget (d : Decls) (c : Connector) (buffer : List Byte) (recvLen : Int)
    (sendTimeout receiveTimeout request start finish : Int)
    (hsend : c.sendFault = none) (hclock : start ≤ finish)
    (htick : 0 < d.clockTicksPerMicro) (hbudget : 0 < receiveTimeout) :
    sendRequest d c buffer recvLen sendTimeout receiveTimeout request start finish =
      readMessage d { c with sent := c.sent ++ [(buffer, toMilliseconds sendTimeout)] }
        recvLen .CONN_NOERR
        (receiveTimeout + Int.tdiv (finish - start) d.clockTicksPerMicro) true false request := by
  have hpos : 0 < receiveTimeout * d.clockTicksPerMicro := Int.mul_pos hbudget htick
  have hnb : ¬ (start - finish ≥ receiveTimeout * d.clockTicksPerMicro) := by omega
  have hneg : start - finish = -(finish - start) := by omega
  simp only [sendRequest, send, sendData, Connector.send, hsend, if_neg hnb]
  rw [hneg, Int.neg_tdiv, sub_neg_eq_add]

/-- C16 (the code at the failing input): a send that takes 2 s (2000000000
clock ticks) against a receive timeout of 1 s does not make `sendRequest`
raise; the reply is read, and both reads are given 3000 ms.  Likewise
`sendWithTimeouts` returns -2000000 microseconds, which
`sendRequestForChunkedResponse` subtracts from the receive timeout. -/
theorem sendRequest_slow_send_extends_budget :
    (sendRequest geodeDecls
        ⟨[0, 0, 0, 42, 0, 0, 0, 2, 1, 2, 3, 4, 5, 6, 7, 8, 9, 10, 11], .eof, none, [], []⟩
        [1, 2] 0 1000000 1000000 7 0 2000000000).result
      = .ok (some [0, 0, 0, 42, 0, 0, 0, 2, 1, 2, 3, 4, 5, 6, 7, 8, 9, 10, 11]) ∧
    (sendRequest geodeDecls
        ⟨[0, 0, 0, 42, 0, 0, 0, 2, 1, 2, 3, 4, 5, 6, 7, 8, 9, 10, 11], .eof, none, [], []⟩
        [1, 2] 0 1000000 1000000 7 0 2000000000).m_conn.reads
      = [(17, 3000), (2, 3000)] ∧
    (sendWithTimeouts geodeDecls
        ⟨[0, 0, 0, 42, 0, 0, 0, 2, 1, 2, 3, 4, 5, 6, 7, 8, 9, 10, 11], .eof, none, [], []⟩
        [1, 2] 1000000 1000000 0 2000000000).1 = .ok (-2000000) ∧
    (sendRequestForChunkedResponse geodeDecls 5
        ⟨[0, 0, 0, 42, 0, 0, 0, 1, 0, 0, 0, 7, 0, 0, 0, 2, 1, 10, 11], .eof, none, [], []⟩
        [1, 2] ⟨0, 0, 0, [], none⟩ 1000000 1000000 false 0 true 0 2000000000).map
        (fun r => (r.1, r.2.2.reads))
      = some (.ok (), [(17, 3000), (2, 3000)]) := by
  decide

/-- Counterexample to C17 as stated: with a receive timeout of 1 s on a channel
that is not a notification channel, the header read and the body read are both
given 1000 ms, so together they may wait 2000 ms. -/
theorem readMessage_body_read_gets_full_timeout :
    (readMessage geodeDecls
        ⟨[0, 0, 0, 42, 0, 0, 0, 2, 1, 2, 3, 4, 5, 6, 7, 8, 9, 10, 11], .eof, none, [], []⟩
        0 .CONN_NOERR 1000000 false false 7).m_conn.reads = [(17, 1000), (2, 1000)] ∧
    ¬ ((1000 : Int) + 1000 ≤ 1000) := by
  decide

/-- C17 (amended): once the 17-byte header has been read and announces a body
that `readMessage` goes on to read, the body read is given the caller's
receive timeout unchanged, multiplied by `DEFAULT_TIMEOUT_RETRIES` on a
notification channel; nothing is subtracted for the time the header read
took. -/
theorem readMessage_body_timeout (d : Decls) (c : Connector)
    (msgType lenField extra rest : List Byte) (recvLen : Int) (opErr : ConnErrType)
    (timeout : Int) (retries notif : Bool) (request : Int)
    (hT : msgType.length = 4) (hL : lenField.length = 4) (hE : extra.length = 9)
    (hin : c.input = msgType ++ lenField ++ extra ++ rest)
    (hlen : 0 ≤ (DataInput.readInt32 lenField).1)
    (hbody : 0 < (DataInput.readInt32 lenField).1 ∨ request ≠ d.GET_CLIENT_PR_METADATA) :
    (readMessage d c recvLen opErr timeout retries notif request).m_conn.reads =
      c.reads ++
        [(17, toMilliseconds (if retries = true ∧ timeout = d.DEFAULT_READ_TIMEOUT then
            d.DEFAULT_READ_TIMEOUT * d.DEFAULT_TIMEOUT_RETRIES else timeout)),
         ((DataInput.readInt32 lenField).1.toNat,
           toMilliseconds (if notif then timeout * d.DEFAULT_TIMEOUT_RETRIES else timeout))] := by
  have hmsg : (DataInput.readInt32 (DataInput.readInt32 (msgType ++ lenField ++ extra)).2).1
      = (DataInput.readInt32 lenField).1 := by
    rw [readInt32_snd, List.append_assoc, List.drop_left' hT, readInt32_append _ _ hL]
  have hnn : ¬ ((DataInput.readInt32 lenField).1 < 0) := by omega
  have hsp : ¬ (¬ ((DataInput.readInt32 lenField).1 > 0) ∧ request = d.GET_CLIENT_PR_METADATA) := by
    rintro ⟨h1, h2⟩
    rcases hbody with h | h
    · exact h1 h
    · exact h h2
  generalize hr : readMessage d c recvLen opErr timeout retries notif request = r
  unfold readMessage at hr
  dsimp only at hr
  rw [receiveData_ok c HEADER_LENGTH _ (msgType ++ lenField ++ extra) rest
    (by simp [hin]) (by simp [hT, hL, hE, HEADER_LENGTH])] at hr
  simp only [ne_eq, not_true_eq_false, if_false, hmsg, hnn, if_neg hsp] at hr
  have hreads := receiveData_reads
    { c with input := rest, reads := c.reads ++ [(HEADER_LENGTH, toMilliseconds
      (if retries = true ∧ timeout = d.DEFAULT_READ_TIMEOUT then
        d.DEFAULT_READ_TIMEOUT * d.DEFAULT_TIMEOUT_RETRIES else timeout))] }
    (DataInput.readInt32 lenField).1.toNat
    (if notif = true then timeout * d.DEFAULT_TIMEOUT_RETRIES else timeout)
  rcases hrd : receiveData
    { c with input := rest, reads := c.reads ++ [(HEADER_LENGTH, toMilliseconds
      (if retries = true ∧ timeout = d.DEFAULT_READ_TIMEOUT then
        d.DEFAULT_READ_TIMEOUT * d.DEFAULT_TIMEOUT_RETRIES else timeout))] }
    (DataInput.readInt32 lenField).1.toNat
    (if notif = true then timeout * d.DEFAULT_TIMEOUT_RETRIES else timeout)
    with ⟨err, buf, c2⟩
  rw [hrd] at hr hreads
  dsimp only at hr hreads
  have hc2 : r.m_conn = c2 := by
    subst hr
    split <;> [split <;> [skip; split]; skip] <;> rfl
  rw [hc2, hreads]
  simp [HEADER_LENGTH]

/-- Witness for the amended C17: a notification channel; the body read gets
12 times the receive timeout. -/
theorem readMessage_body_timeout_witness :
    (readMessage geodeDecls
        ⟨[0, 0, 0, 42, 0, 0, 0, 2, 1, 2, 3, 4, 5, 6, 7, 8, 9, 10, 11], .eof, none, [], []⟩
        0 .CONN_NOERR 1000000 false true 7).m_conn.reads =
      [] ++ [(17, toMilliseconds (if false = true ∧ (1000000 : Int) = geodeDecls.DEFAULT_READ_TIMEOUT
            then geodeDecls.DEFAULT_READ_TIMEOUT * geodeDecls.DEFAULT_TIMEOUT_RETRIES
            else 1000000)),
         ((DataInput.readInt32 [0, 0, 0, 2]).1.toNat,
           toMilliseconds (if true then 1000000 * geodeDecls.DEFAULT_TIMEOUT_RETRIES
            else 1000000))] :=
  readMessage_body_timeout geodeDecls
    ⟨[0, 0, 0, 42, 0, 0, 0, 2, 1, 2, 3, 4, 5, 6, 7, 8, 9, 10, 11], .eof, none, [], []⟩
    [0, 0, 0, 42] [0, 0, 0, 2] [1, 2, 3, 4, 5, 6, 7, 8, 9] [10, 11] 0 .CONN_NOERR 1000000
    false true 7 (by decide) (by decide) (by decide) (by decide) (by decide)
    (Or.inl (by decide))

/-! ## Handshake: lemmas -/

theorem afterRead_input (c : Connector) (n : Nat) (t : Int) :
    (afterRead c n t).input = c.input.drop n := by
  unfold afterRead
  split
  · next h => simp [h]
  · rfl

theorem readHandshakeData_take (d : Decls) (c : Connector) (n : Nat) (t : Int)
    (hn : n ≤ c.input.length) :
    readHandshakeData d (some c) (n : Int) t =
      (.ok (c.input.take n ++ [0]), some (afterRead c n t)) := by
  unfold readHandshakeData afterRead
  have hnn : ¬ ((n : Int) < 0) := by omega
  simp only [if_neg hnn]
  by_cases h0 : n = 0
  · subst h0; simp
  · have h0i : ¬ ((n : Int) = 0) := by omega
    simp only [if_neg h0i, if_neg h0, Int.toNat_ofNat]
    rw [receiveData_ok c n t (c.input.take n) (c.input.drop n) (List.take_append_drop n _).symm
      (List.length_take_of_le hn)]
    simp

theorem readHandshakeData_nonpos (d : Decls) (m : Option Connector) (n : Int) (t : Int)
    (hn : n ≤ 0) : readHandshakeData d m n t = (.ok [0], m) := by
  unfold readHandshakeData
  by_cases h : n < 0
  · simp [h]
  · have : n = 0 := by omega
    simp [this]

theorem readHandshakeData_short (d : Decls) (c : Connector) (n : Nat) (t : Int)
    (hn : c.input.length < n) :
    readHandshakeData d (some c) (n : Int) t =
      (.error (handshakeReadFailure d (recvError c.fault)), none) := by
  unfold readHandshakeData
  have hnn : ¬ ((n : Int) < 0) := by omega
  have h0i : ¬ ((n : Int) = 0) := by omega
  simp only [if_neg hnn, if_neg h0i, Int.toNat_ofNat]
  rw [receiveData_short c n t hn]
  simp [recvError_ne_noerr]


theorem readHandshakeData_one (d : Decls) (c : Connector) (t : Int) (b : Byte)
    (rest : List Byte) (hin : c.input = b :: rest) :
    readHandshakeData d (some c) 1 t = (.ok [b, 0], some (afterRead c 1 t)) := by
  have h := readHandshakeData_take d c 1 t (by simp [hin])
  simpa [hin] using h

theorem readDistributedMember_hasServerQueue (d : Decls) (env : HandshakeEnv)
    (st : Handshake) (t : Int) :
    (readDistributedMember d env st t).2.m_hasServerQueue = st.m_hasServerQueue := by
  unfold readDistributedMember
  split
  · simp
  · split
    · simp
    · split <;> simp

theorem readDistributedMember_queueSize (d : Decls) (env : HandshakeEnv)
    (st : Handshake) (t : Int) :
    (readDistributedMember d env st t).2.m_queueSize = st.m_queueSize := by
  unfold readDistributedMember
  split
  · simp
  · split
    · simp
    · split <;> simp

theorem readDistributedMember_endpointQueue (d : Decls) (env : HandshakeEnv)
    (st : Handshake) (t : Int) :
    (readDistributedMember d env st t).2.endpointQueue = st.endpointQueue := by
  unfold readDistributedMember
  split
  · simp
  · split
    · simp
    · split <;> simp

theorem readDistributedMember_poolPrimaryQueueSize (d : Decls) (env : HandshakeEnv)
    (st : Handshake) (t : Int) :
    (readDistributedMember d env st t).2.poolPrimaryQueueSize = st.poolPrimaryQueueSize := by
  unfold readDistributedMember
  split
  · simp
  · split
    · simp
    · split <;> simp

theorem readHandshakeReply_queue (d : Decls) (k : HandshakeDecls) (env : HandshakeEnv)
    (st : Handshake) (c : Connector) (notif : Bool) (t : Int)
    (acc qs : Byte) (q4 rest : List Byte)
    (hc : st.m_conn = some c) (hin : c.input = acc :: qs :: (q4 ++ rest))
    (hq : q4.length = 4)
    (hssl : ¬ (toInt8 acc = k.REPLY_SSL_ENABLED ∧ env.sslEnabled = false)) :
    (readHandshakeReply d k env st notif t).2.m_hasServerQueue = serverQueueStatusOf qs ∧
    (readHandshakeReply d k env st notif t).2.m_queueSize =
      (if (DataInput.readInt32 q4).1 > 0 then (DataInput.readInt32 q4).1 else 0) ∧
    (readHandshakeReply d k env st notif t).2.endpointQueue =
      some (serverQueueStatusOf qs,
        if (DataInput.readInt32 q4).1 > 0 then (DataInput.readInt32 q4).1 else 0) ∧
    (readHandshakeReply d k env st notif t).2.poolPrimaryQueueSize =
      (if (serverQueueStatusOf qs = .PRIMARY_SERVER ∨
          serverQueueStatusOf qs = .NON_REDUNDANT_SERVER) ∧ notif = true
       then some (DataInput.readInt32 q4).1 else st.poolPrimaryQueueSize) := by
  have h1 := readHandshakeData_one d c t acc (qs :: (q4 ++ rest)) hin
  have hin2 : (afterRead c 1 t).input = qs :: (q4 ++ rest) := by
    rw [afterRead_input, hin]; rfl
  have h2 := readHandshakeData_one d (afterRead c 1 t) t qs (q4 ++ rest) hin2
  have hin3 : (afterRead (afterRead c 1 t) 1 t).input = q4 ++ rest := by
    rw [afterRead_input, hin2]; rfl
  have h3 := readHandshakeData_take d (afterRead (afterRead c 1 t) 1 t) 4 t
    (by rw [hin3]; simp [hq])
  have htake : List.take 4 (q4 ++ rest) = q4 := by
    rw [← hq]; exact List.take_left' rfl
  rw [hin3, htake] at h3
  have hq32 : (DataInput.readInt32 (q4 ++ [0])).1 = (DataInput.readInt32 q4).1 :=
    readInt32_append q4 [0] hq
  have hssl' : ¬ (toInt8 acc = k.REPLY_SSL_ENABLED ∧ (!env.sslEnabled) = true) := by
    simpa using hssl
  generalize hr : readHandshakeReply d k env st notif t = r
  unfold readHandshakeReply at hr
  rw [hc, h1] at hr
  simp only [List.getD_cons_zero, if_neg hssl', h2] at hr
  simp only [Nat.cast_ofNat] at h3
  simp only [h3, hq32] at hr
  subst hr
  cases notif
  · simp only [Bool.not_false, if_true]
    split
    · next e st4 heq =>
      have h := congrArg Prod.snd heq
      simp only at h
      rw [← h]
      simp [readDistributedMember_hasServerQueue, readDistributedMember_queueSize,
        readDistributedMember_endpointQueue, readDistributedMember_poolPrimaryQueueSize]
    · next u st4 heq =>
      have h := congrArg Prod.snd heq
      simp only at h
      have e1 : st4.m_hasServerQueue = serverQueueStatusOf qs := by
        rw [← h]; simp [readDistributedMember_hasServerQueue]
      have e2 : st4.m_queueSize =
          (if (DataInput.readInt32 q4).1 > 0 then (DataInput.readInt32 q4).1 else 0) := by
        rw [← h]; simp [readDistributedMember_queueSize]
      have e3 : st4.endpointQueue = some (serverQueueStatusOf qs,
          if (DataInput.readInt32 q4).1 > 0 then (DataInput.readInt32 q4).1 else 0) := by
        rw [← h]; simp [readDistributedMember_endpointQueue]
      have e4 : st4.poolPrimaryQueueSize = st.poolPrimaryQueueSize := by
        rw [← h]; simp [readDistributedMember_poolPrimaryQueueSize]
      split
      · simp [e1, e2, e3, e4]
      · split
        · simp [e1, e2, e3, e4]
        · split <;> simp [e1, e2, e3, e4]
  · simp only [Bool.not_true, Bool.false_eq_true, if_false]
    split
    · simp
    · split
      · simp
      · simp


theorem readHandshakeData_wire (d : Decls) (c : Connector) (len : Int) (t : Int)
    (xs ys : List Byte) (hlen : len.toNat = xs.length) (hin : c.input = xs ++ ys) :
    ∃ c1 : Connector, readHandshakeData d (some c) len t = (.ok (xs ++ [0]), some c1) ∧
      c1.input = ys := by
  by_cases hpos : 0 < len
  · have hcast : len = ((xs.length : Nat) : Int) := by omega
    have htk : List.take xs.length c.input = xs := by
      rw [hin]; exact List.take_left' rfl
    rw [hcast, readHandshakeData_take d c xs.length t (by simp [hin]), htk]
    refine ⟨_, rfl, ?_⟩
    rw [afterRead_input, hin]; simp
  · have hx : xs = [] := List.length_eq_zero.mp (by omega)
    subst hx
    rw [readHandshakeData_nonpos d (some c) len t (by omega)]
    exact ⟨c, rfl, by simpa using hin⟩

theorem readHandshakeArraySize_wire (d : Decls) (c : Connector) (t : Int)
    (hdr ys : List Byte) (n : Nat) (h : arrayHeaderEncodes hdr n = true)
    (hin : c.input = hdr ++ ys) :
    ∃ (len : Int) (c1 : Connector),
      readHandshakeArraySize d (some c) t = (.ok len, some c1) ∧ len.toNat = n ∧
      c1.input = ys := by
  unfold readHandshakeArraySize
  match hdr, h with
  | [b], h =>
    simp only [arrayHeaderEncodes, Bool.and_eq_true, decide_eq_true_eq, bne_iff_ne, ne_eq,
      Bool.not_eq_true', decide_eq_false_iff_not] at h
    rw [readHandshakeData_one d c t b ys (by simpa using hin)]
    simp only [List.getD_cons_zero, if_neg h.1.1, if_neg h.1.2]
    refine ⟨_, _, rfl, ?_, ?_⟩
    · simpa using h.2
    · rw [afterRead_input, hin]; rfl
  | [b, x, y], h =>
    simp only [arrayHeaderEncodes, Bool.and_eq_true, decide_eq_true_eq] at h
    rw [readHandshakeData_one d c t b ([x, y] ++ ys) (by simpa using hin)]
    simp only [List.getD_cons_zero, if_pos h.1]
    have hin2 : (afterRead c 1 t).input = [x, y] ++ ys := by
      rw [afterRead_input, hin]; rfl
    have h2 := readHandshakeData_take d (afterRead c 1 t) 2 t (by rw [hin2]; simp)
    simp only [Nat.cast_ofNat, hin2] at h2
    rw [h2]
    refine ⟨_, _, rfl, ?_, ?_⟩
    · simpa [DataInput.readInt16] using h.2
    · rw [afterRead_input, hin2]; rfl
  | [b, a1, a2, a3, a4], h =>
    simp only [arrayHeaderEncodes, Bool.and_eq_true, decide_eq_true_eq] at h
    have hne : ¬ (toInt8 b = -2) := by rw [h.1]; decide
    rw [readHandshakeData_one d c t b ([a1, a2, a3, a4] ++ ys) (by simpa using hin)]
    simp only [List.getD_cons_zero, if_neg hne, if_pos h.1]
    have hin2 : (afterRead c 1 t).input = [a1, a2, a3, a4] ++ ys := by
      rw [afterRead_input, hin]; rfl
    have h2 := readHandshakeData_take d (afterRead c 1 t) 4 t (by rw [hin2]; simp)
    simp only [Nat.cast_ofNat, hin2] at h2
    rw [h2]
    refine ⟨_, _, rfl, ?_, ?_⟩
    · simpa [DataInput.readInt32] using h.2
    · rw [afterRead_input, hin2]; rfl
  | [], h => simp [arrayHeaderEncodes] at h
  | [_, _], h => simp [arrayHeaderEncodes] at h
  | [_, _, _, _], h => simp [arrayHeaderEncodes] at h
  | _ :: _ :: _ :: _ :: _ :: _ :: _, h => simp [arrayHeaderEncodes] at h


theorem readDistributedMember_wire (d : Decls) (env : HandshakeEnv) (st : Handshake)
    (c : Connector) (t : Int) (hdr member ys : List Byte)
    (hc : st.m_conn = some c) (h : arrayHeaderEncodes hdr member.length = true)
    (hin : c.input = hdr ++ member ++ ys) :
    ∃ c1 : Connector, c1.input = ys ∧
      readDistributedMember d env st t =
        (.ok (), { st with
          m_conn := some c1
          distributedMemberID :=
            if st.distributedMemberID = 0 then env.addMember (member ++ [0]) % 65536
            else st.distributedMemberID }) := by
  obtain ⟨len, c1, h1, h2, h3⟩ := readHandshakeArraySize_wire d c t hdr (member ++ ys)
    member.length h (by rw [hin, List.append_assoc])
  obtain ⟨c2, h4, h5⟩ := readHandshakeData_wire d c1 len t member ys h2 h3
  refine ⟨c2, h5, ?_⟩
  unfold readDistributedMember
  rw [hc, h1]
  simp only [h4]
  split <;> rfl

theorem readInt16_append (l xs : List Byte) (hl : l.length = 2) :
    (DataInput.readInt16 (l ++ xs)).1 = (DataInput.readInt16 l).1 := by
  match l, hl with
  | [a, b], _ => simp [DataInput.readInt16]

theorem readHandshakeReply_wire (d : Decls) (k : HandshakeDecls) (env : HandshakeEnv)
    (st : Handshake) (c : Connector) (notif : Bool) (t : Int) (w : ReplyWire)
    (rest : List Byte) (hc : st.m_conn = some c)
    (hwf : w.wellFormed notif = true) (hin : c.input = w.bytes notif ++ rest)
    (hssl : ¬ (toInt8 w.acceptanceCode = k.REPLY_SSL_ENABLED ∧ env.sslEnabled = false)) :
    ∃ c1 : Connector, c1.input = rest ∧
      readHandshakeReply d k env st notif t =
        (.ok ⟨w.acceptanceCode, w.serverQueueStatus, (w.message.length : Int),
            w.message ++ [0]⟩, parsedState env st w notif c1) := by
  simp only [ReplyWire.wellFormed, Bool.and_eq_true, decide_eq_true_eq, Bool.or_eq_true] at hwf
  obtain ⟨⟨⟨hq, hl⟩, hm⟩, hmem⟩ := hwf
  have hssl' : ¬ (toInt8 w.acceptanceCode = k.REPLY_SSL_ENABLED ∧ (!env.sslEnabled) = true) := by
    simpa using hssl
  -- the first three reads
  have hin1 : c.input = w.acceptanceCode :: w.serverQueueStatus :: (w.queueSize ++
      ((if notif then [] else w.memberHeader ++ w.member) ++ w.msgLen ++ w.message ++
        (if notif then [] else [w.delta]) ++ rest)) := by
    rw [hin]; simp [ReplyWire.bytes]
  have h1 := readHandshakeData_one d c t _ _ hin1
  have hin2 : (afterRead c 1 t).input = w.serverQueueStatus :: (w.queueSize ++
      ((if notif then [] else w.memberHeader ++ w.member) ++ w.msgLen ++ w.message ++
        (if notif then [] else [w.delta]) ++ rest)) := by
    rw [afterRead_input, hin1]; rfl
  have h2 := readHandshakeData_one d (afterRead c 1 t) t _ _ hin2
  have hin3 : (afterRead (afterRead c 1 t) 1 t).input = w.queueSize ++
      ((if notif then [] else w.memberHeader ++ w.member) ++ w.msgLen ++ w.message ++
        (if notif then [] else [w.delta]) ++ rest) := by
    rw [afterRead_input, hin2]; rfl
  have h3 := readHandshakeData_take d (afterRead (afterRead c 1 t) 1 t) 4 t
    (by rw [hin3]; simp [hq])
  have htake : List.take 4 (w.queueSize ++
      ((if notif then [] else w.memberHeader ++ w.member) ++ w.msgLen ++ w.message ++
        (if notif then [] else [w.delta]) ++ rest)) = w.queueSize := by
    rw [← hq]; exact List.take_left' rfl
  rw [hin3, htake] at h3
  simp only [Nat.cast_ofNat] at h3
  have hin4 : (afterRead (afterRead (afterRead c 1 t) 1 t) 4 t).input =
      (if notif then [] else w.memberHeader ++ w.member) ++ w.msgLen ++ w.message ++
        (if notif then [] else [w.delta]) ++ rest := by
    rw [afterRead_input, hin3, ← hq]; simp
  have hq32 : (DataInput.readInt32 (w.queueSize ++ [0])).1 = (DataInput.readInt32 w.queueSize).1 :=
    readInt32_append _ [0] hq
  have hl16 : (DataInput.readInt16 (w.msgLen ++ [0])).1 % 65536 = (w.message.length : Int) := by
    rw [readInt16_append _ [0] hl, hm]
  unfold readHandshakeReply
  rw [hc, h1]
  simp only [List.getD_cons_zero, if_neg hssl', h2, h3, hq32]
  cases notif
  · -- forward channel
    simp only [Bool.false_eq_true, if_false, false_or] at hmem hin4
    simp only [Bool.not_false, if_true]
    obtain ⟨c5, hc5, hrd⟩ := readDistributedMember_wire d env
      { st with m_hasServerQueue := serverQueueStatusOf w.serverQueueStatus,
                m_conn := some (afterRead (afterRead (afterRead c 1 t) 1 t) 4 t),
                m_queueSize := if (DataInput.readInt32 w.queueSize).1 > 0 then
                  (DataInput.readInt32 w.queueSize).1 else 0,
                endpointQueue := some (serverQueueStatusOf w.serverQueueStatus,
                  if (DataInput.readInt32 w.queueSize).1 > 0 then
                    (DataInput.readInt32 w.queueSize).1 else 0),
                poolPrimaryQueueSize :=
                  if (serverQueueStatusOf w.serverQueueStatus = .PRIMARY_SERVER ∨
                      serverQueueStatusOf w.serverQueueStatus = .NON_REDUNDANT_SERVER) ∧
                      false = true
                  then some (DataInput.readInt32 w.queueSize).1 else st.poolPrimaryQueueSize }
      (afterRead (afterRead (afterRead c 1 t) 1 t) 4 t) t w.memberHeader w.member
      (w.msgLen ++ w.message ++ [w.delta] ++ rest) rfl hmem
      (by rw [hin4]; simp)
    rw [hrd]
    have h6 := readHandshakeData_take d c5 2 t (by rw [hc5]; simp [hl])
    have htake2 : List.take 2 c5.input = w.msgLen := by
      rw [hc5, ← hl]; simp [List.take_left']
    rw [htake2] at h6
    simp only [Nat.cast_ofNat] at h6
    simp only [h6, hl16]
    have hin7 : (afterRead c5 2 t).input = w.message ++ ([w.delta] ++ rest) := by
      rw [afterRead_input, hc5, ← hl]; simp
    obtain ⟨c8, h8, hc8⟩ := readHandshakeData_wire d (afterRead c5 2 t) (w.message.length : Int) t
      w.message ([w.delta] ++ rest) (by simp) hin7
    rw [h8]
    simp only
    rw [readHandshakeData_one d c8 t w.delta rest (by simpa using hc8)]
    refine ⟨afterRead c8 1 t, ?_, ?_⟩
    · rw [afterRead_input, hc8]; rfl
    · simp [parsedState, clampQueueSize, DataInput.readBoolean]
  · -- notification channel
    simp only [if_true, List.nil_append, List.append_nil] at hin4
    simp only [Bool.not_true, Bool.false_eq_true, if_false]
    have h6 := readHandshakeData_take d (afterRead (afterRead (afterRead c 1 t) 1 t) 4 t) 2 t
      (by rw [hin4]; simp [hl])
    have htake2 : List.take 2 (afterRead (afterRead (afterRead c 1 t) 1 t) 4 t).input
        = w.msgLen := by
      rw [hin4, ← hl]; simp [List.take_left']
    rw [htake2] at h6
    simp only [Nat.cast_ofNat] at h6
    simp only [h6, hl16]
    have hin7 : (afterRead (afterRead (afterRead (afterRead c 1 t) 1 t) 4 t) 2 t).input
        = w.message ++ rest := by
      rw [afterRead_input, hin4, ← hl]; simp
    obtain ⟨c8, h8, hc8⟩ := readHandshakeData_wire d _ (w.message.length : Int) t
      w.message rest (by simp) hin7
    rw [h8]
    refine ⟨c8, hc8, ?_⟩
    simp [parsedState, clampQueueSize]

theorem buildHandshake_ok (k : HandshakeDecls) (env : HandshakeEnv) (st : Handshake)
    (notif sec : Bool) (creds : List Byte) (hcred : credentialsOk env notif creds = true) :
    ∃ msg : List Byte, buildHandshake k env st notif sec =
      (.ok msg, if !notif then
          { st with m_port := env.localPort, ports := insertPort st.ports env.localPort }
        else st) := by
  unfold buildHandshake
  simp only [credentialsOk, Bool.or_eq_true, Bool.not_eq_true', Bool.and_eq_true,
    decide_eq_true_eq] at hcred
  by_cases hsec : tmpIsSecurityOn env notif = true
  · cases notif
    · simp only [hsec, if_true, Bool.false_eq_true, if_false]
      exact ⟨_, rfl⟩
    · rcases hcred with (h | h) | h
      · exact absurd h (by decide)
      · rw [hsec] at h; exact absurd h (by decide)
      · simp only [hsec, if_true, h.1, h.2]
        exact ⟨_, rfl⟩
  · simp only [hsec, Bool.false_eq_true, if_false]
    exact ⟨_, rfl⟩

theorem sendData_ok (c : Connector) (buffer : List Byte) (t : Int) (hsend : c.sendFault = none) :
    sendData c buffer t =
      (.CONN_NOERR, { c with sent := c.sent ++ [(buffer, toMilliseconds t)] }) := by
  simp [sendData, Connector.send, hsend]

/-- The state in which `initTcrConnection` starts to read the reply, when the
build phase and the send succeed. -/
theorem initTcrConnection_run (d : Decls) (k : HandshakeDecls) (env : HandshakeEnv)
    (st : Handshake) (conn : Connector) (now : Int) (notif sec : Bool) (t : Int)
    (creds : List Byte) (hcred : credentialsOk env notif creds = true)
    (hsend : conn.sendFault = none) :
    ∃ (st1 : Handshake) (c1 : Connector),
      initTcrConnection d k env st conn now notif sec t =
        (match readHandshakeReply d k env st1 notif t with
         | (.error e, st2) => (.error e, st2)
         | (.ok reply, st2) =>
           match checkAcceptance d k st2 reply notif t with
           | (.error e, st3) => (.error e, st3)
           | (.ok _, st3) =>
             if !notif ∧ tmpIsSecurityOn env notif ∧ (!env.hasPool ∨ !env.isMultiUserMode) then
               (.ok true, st3)
             else (.ok false, st3)) ∧
      st1.m_conn = some c1 ∧ c1.input = conn.input ∧ c1.fault = conn.fault ∧
      st1.poolPrimaryQueueSize = st.poolPrimaryQueueSize ∧
      st1.distributedMemberID = st.distributedMemberID ∧
      st1.deltaEnabledOnServer = st.deltaEnabledOnServer ∧
      st1.m_hasServerQueue = .NON_REDUNDANT_SERVER ∧ st1.m_queueSize = 0 ∧
      st1.endpointQueue = st.endpointQueue := by
  obtain ⟨msg, hb⟩ := buildHandshake_ok k env
    { st with
      m_hasServerQueue := .NON_REDUNDANT_SERVER
      m_queueSize := 0
      health := { st.health with m_creationTime := now, m_lastAccessed := now }
      connectionId := INITIAL_CONNECTION_ID
      m_isBeingUsed := false
      m_conn := some conn } notif sec creds hcred
  unfold initTcrConnection
  simp only [hb, sendData_ok conn msg t hsend, if_true]
  cases notif
  · exact ⟨_, _, rfl, rfl, rfl, rfl, rfl, rfl, rfl, rfl, rfl, rfl⟩
  · exact ⟨_, _, rfl, rfl, rfl, rfl, rfl, rfl, rfl, rfl, rfl, rfl⟩


theorem checkAcceptance_frame (d : Decls) (k : HandshakeDecls) (st : Handshake)
    (reply : HandshakeReply) (notif : Bool) (t : Int) :
    (checkAcceptance d k st reply notif t).2 =
      { st with m_conn := (checkAcceptance d k st reply notif t).2.m_conn } := by
  unfold checkAcceptance
  dsimp only
  repeat' split
  all_goals rfl

theorem readHandshakeReply_status_short (d : Decls) (k : HandshakeDecls) (env : HandshakeEnv)
    (st : Handshake) (c : Connector) (notif : Bool) (t : Int)
    (acc qs : Byte) (rest : List Byte)
    (hc : st.m_conn = some c) (hin : c.input = acc :: qs :: rest)
    (hshort : rest.length < 4)
    (hssl : ¬ (toInt8 acc = k.REPLY_SSL_ENABLED ∧ env.sslEnabled = false)) :
    readHandshakeReply d k env st notif t =
      (.error (handshakeReadFailure d (recvError c.fault)),
        { st with m_hasServerQueue := serverQueueStatusOf qs, m_conn := none }) := by
  have h1 := readHandshakeData_one d c t acc (qs :: rest) hin
  have hin2 : (afterRead c 1 t).input = qs :: rest := by
    rw [afterRead_input, hin]; rfl
  have h2 := readHandshakeData_one d (afterRead c 1 t) t qs rest hin2
  have hin3 : (afterRead (afterRead c 1 t) 1 t).input = rest := by
    rw [afterRead_input, hin2]; rfl
  have h3 := readHandshakeData_short d (afterRead (afterRead c 1 t) 1 t) 4 t
    (by rw [hin3]; exact hshort)
  simp only [Nat.cast_ofNat] at h3
  have hssl' : ¬ (toInt8 acc = k.REPLY_SSL_ENABLED ∧ (!env.sslEnabled) = true) := by
    simpa using hssl
  unfold readHandshakeReply
  rw [hc, h1]
  simp only [List.getD_cons_zero, if_neg hssl', h2, h3]
  rfl

theorem initTcrConnection_queue (d : Decls) (k : HandshakeDecls) (env : HandshakeEnv)
    (st : Handshake) (conn : Connector) (now : Int) (notif sec : Bool) (t : Int)
    (creds : List Byte) (acc qs : Byte) (q4 rest : List Byte)
    (hcred : credentialsOk env notif creds = true) (hsend : conn.sendFault = none)
    (hin : conn.input = acc :: qs :: (q4 ++ rest)) (hq : q4.length = 4)
    (hssl : ¬ (toInt8 acc = k.REPLY_SSL_ENABLED ∧ env.sslEnabled = false)) :
    (initTcrConnection d k env st conn now notif sec t).2.m_hasServerQueue
      = serverQueueStatusOf qs ∧
    (initTcrConnection d k env st conn now notif sec t).2.m_queueSize
      = clampQueueSize (DataInput.readInt32 q4).1 ∧
    (initTcrConnection d k env st conn now notif sec t).2.endpointQueue
      = some (serverQueueStatusOf qs, clampQueueSize (DataInput.readInt32 q4).1) ∧
    (initTcrConnection d k env st conn now notif sec t).2.poolPrimaryQueueSize =
      (if (serverQueueStatusOf qs = .PRIMARY_SERVER ∨
          serverQueueStatusOf qs = .NON_REDUNDANT_SERVER) ∧ notif = true
       then some (DataInput.readInt32 q4).1 else st.poolPrimaryQueueSize) := by
  obtain ⟨st1, c1, hrun, hc1, hi1, _, hp1, _, _⟩ :=
    initTcrConnection_run d k env st conn now notif sec t creds hcred hsend
  obtain ⟨f1, f2, f3, f4⟩ := readHandshakeReply_queue d k env st1 c1 notif t acc qs q4 rest
    hc1 (by rw [hi1, hin]) hq hssl
  rw [hp1] at f4
  rw [hrun]
  rcases hr : readHandshakeReply d k env st1 notif t with ⟨e | reply, st2⟩
  · rw [hr] at f1 f2 f3 f4
    exact ⟨f1, f2, f3, f4⟩
  · rw [hr] at f1 f2 f3 f4
    dsimp only at f1 f2 f3 f4 ⊢
    have hfr := checkAcceptance_frame d k st2 reply notif t
    rcases hca : checkAcceptance d k st2 reply notif t with ⟨e | u, st3⟩
    · rw [hca] at hfr
      dsimp only at hfr ⊢
      rw [hfr]
      exact ⟨f1, f2, f3, f4⟩
    · rw [hca] at hfr
      dsimp only at hfr ⊢
      split <;> (dsimp only; rw [hfr]; exact ⟨f1, f2, f3, f4⟩)

theorem serverQueueStatusOf_val (qs : Byte) :
    serverQueueStatusOf qs =
      (if qs.val = 1 then .REDUNDANT_SERVER
       else if qs.val = 2 then .PRIMARY_SERVER else .NON_REDUNDANT_SERVER) := by
  have hlt := qs.isLt
  unfold serverQueueStatusOf toInt8
  by_cases h1 : qs.val = 1
  · simp [h1]
  · by_cases h2 : qs.val = 2
    · simp [h2]
    · have e1 : ¬ ((if qs.val < 128 then (qs.val : Int) else (qs.val : Int) - 256) = 1) := by
        split <;> omega
      have e2 : ¬ ((if qs.val < 128 then (qs.val : Int) else (qs.val : Int) - 256) = 2) := by
        split <;> omega
      simp only [if_neg e1, if_neg e2, if_neg h1, if_neg h2]

/-! ## Handshake: theorems -/

/-- C11: once the queue-status byte `b` of the handshake reply has been read,
`m_hasServerQueue` is `REDUNDANT_SERVER` if `b` = 1, `PRIMARY_SERVER` if
`b` = 2 and `NON_REDUNDANT_SERVER` for every other value, whatever the rest of
the handshake does. -/
theorem initTcrConnection_server_queue_status (d : Decls) (k : HandshakeDecls)
    (env : HandshakeEnv) (st : Handshake) (conn : Connector) (now : Int)
    (isClientNotification isSecondary : Bool) (connectTimeout : Int)
    (creds : List Byte) (acceptanceCode b : Byte) (rest : List Byte)
    (hcred : credentialsOk env isClientNotification creds = true)
    (hsend : conn.sendFault = none)
    (hin : conn.input = acceptanceCode :: b :: rest)
    (hssl : ¬ (toInt8 acceptanceCode = k.REPLY_SSL_ENABLED ∧ env.sslEnabled = false)) :
    (initTcrConnection d k env st conn now isClientNotification isSecondary
      connectTimeout).2.m_hasServerQueue =
      (if b.val = 1 then .REDUNDANT_SERVER
       else if b.val = 2 then .PRIMARY_SERVER else .NON_REDUNDANT_SERVER) := by
  rw [← serverQueueStatusOf_val]
  by_cases hlen : 4 ≤ rest.length
  · have hsplit : rest = rest.take 4 ++ rest.drop 4 := (List.take_append_drop 4 rest).symm
    exact (initTcrConnection_queue d k env st conn now isClientNotification isSecondary
      connectTimeout creds acceptanceCode b (rest.take 4) (rest.drop 4) hcred hsend
      (by rw [hin, ← hsplit]) (List.length_take_of_le hlen) hssl).1
  · obtain ⟨st1, c1, hrun, hc1, hi1, _, _, _, _⟩ :=
      initTcrConnection_run d k env st conn now isClientNotification isSecondary
        connectTimeout creds hcred hsend
    rw [hrun, readHandshakeReply_status_short d k env st1 c1 isClientNotification
      connectTimeout acceptanceCode b rest hc1 (by rw [hi1, hin]) (by omega) hssl]

/-- Witness for C11: a forward channel whose reply starts with the acceptance
code 59 and the queue status 1. -/
theorem initTcrConnection_server_queue_status_witness :
    (initTcrConnection geodeDecls geodeHandshakeDecls exampleEnv exampleHandshake
      (exampleConn [59, 1, 0, 0, 0, 5]) 100 false false 1000).2.m_hasServerQueue =
      .REDUNDANT_SERVER :=
  initTcrConnection_server_queue_status geodeDecls geodeHandshakeDecls exampleEnv
    exampleHandshake (exampleConn [59, 1, 0, 0, 0, 5]) 100 false false 1000 [] 59 1
    [0, 0, 0, 5] (by decide) (by decide) (by decide) (by decide)

/-- C12: once the 4-byte queue size `q` of the handshake reply has been read,
`m_queueSize` is `max(q, 0)`, hence never negative, whatever the rest of the
handshake does. -/
theorem initTcrConnection_queue_size (d : Decls) (k : HandshakeDecls)
    (env : HandshakeEnv) (st : Handshake) (conn : Connector) (now : Int)
    (isClientNotification isSecondary : Bool) (connectTimeout : Int)
    (creds : List Byte) (acceptanceCode b : Byte) (q4 rest : List Byte)
    (hcred : credentialsOk env isClientNotification creds = true)
    (hsend : conn.sendFault = none)
    (hin : conn.input = acceptanceCode :: b :: (q4 ++ rest)) (hq : q4.length = 4)
    (hssl : ¬ (toInt8 acceptanceCode = k.REPLY_SSL_ENABLED ∧ env.sslEnabled = false)) :
    (initTcrConnection d k env st conn now isClientNotification isSecondary
      connectTimeout).2.m_queueSize = max (DataInput.readInt32 q4).1 0 ∧
    0 ≤ (initTcrConnection d k env st conn now isClientNotification isSecondary
      connectTimeout).2.m_queueSize := by
  have h := (initTcrConnection_queue d k env st conn now isClientNotification isSecondary
    connectTimeout creds acceptanceCode b q4 rest hcred hsend hin hq hssl).2.1
  have hmax : clampQueueSize (DataInput.readInt32 q4).1 = max (DataInput.readInt32 q4).1 0 := by
    unfold clampQueueSize
    split <;> omega
  rw [h, hmax]
  exact ⟨rfl, le_max_right _ _⟩

/-- Witness for C12: the queue size bytes encode -2. -/
theorem initTcrConnection_queue_size_witness :
    (initTcrConnection geodeDecls geodeHandshakeDecls exampleEnv exampleHandshake
      (exampleConn [59, 1, 255, 255, 255, 254]) 100 false false 1000).2.m_queueSize =
      max (DataInput.readInt32 [255, 255, 255, 254]).1 0 ∧
    0 ≤ (initTcrConnection geodeDecls geodeHandshakeDecls exampleEnv exampleHandshake
      (exampleConn [59, 1, 255, 255, 255, 254]) 100 false false 1000).2.m_queueSize :=
  initTcrConnection_queue_size geodeDecls geodeHandshakeDecls exampleEnv
    exampleHandshake (exampleConn [59, 1, 255, 255, 255, 254]) 100 false false 1000 [] 59 1
    [255, 255, 255, 254] [] (by decide) (by decide) (by decide) (by decide) (by decide)

theorem readHandshakeReply_ssl (d : Decls) (k : HandshakeDecls) (env : HandshakeEnv)
    (st : Handshake) (c : Connector) (notif : Bool) (t : Int) (acc : Byte) (rest : List Byte)
    (hc : st.m_conn = some c) (hin : c.input = acc :: rest)
    (hacc : toInt8 acc = k.REPLY_SSL_ENABLED) (hssl : env.sslEnabled = false) :
    readHandshakeReply d k env st notif t =
      (.error (.AuthenticationRequiredException
        "SSL is enabled on server, enable SSL in client as well" []),
        { st with m_conn := none }) := by
  unfold readHandshakeReply
  rw [hc, readHandshakeData_one d c t acc rest hin]
  simp [hacc, hssl]

/-- C20: when the first byte of the reply is the SSL-required code and TLS is
disabled locally, `initTcrConnection` raises `AuthenticationRequiredException`
and resets the socket; the queue attributes keep their initial values
whatever bytes follow, so nothing after the first byte is read.  With TLS
enabled the same first byte does not end the handshake there: the queue
status and queue size that follow are read and propagated. -/
theorem initTcrConnection_ssl_required (d : Decls) (k : HandshakeDecls)
    (env : HandshakeEnv) (st : Handshake) (conn : Connector) (now : Int)
    (isClientNotification isSecondary : Bool) (connectTimeout : Int)
    (creds : List Byte) (acceptanceCode b : Byte) (q4 rest : List Byte)
    (hcred : credentialsOk env isClientNotification creds = true)
    (hsend : conn.sendFault = none)
    (hacc : toInt8 acceptanceCode = k.REPLY_SSL_ENABLED) (hq : q4.length = 4) :
    ((initTcrConnection d k { env with sslEnabled := false } st
        { conn with input := acceptanceCode :: rest } now isClientNotification isSecondary
        connectTimeout).1 =
      .error (.AuthenticationRequiredException
        "SSL is enabled on server, enable SSL in client as well" []) ∧
     (initTcrConnection d k { env with sslEnabled := false } st
        { conn with input := acceptanceCode :: rest } now isClientNotification isSecondary
        connectTimeout).2.m_conn = none ∧
     (initTcrConnection d k { env with sslEnabled := false } st
        { conn with input := acceptanceCode :: rest } now isClientNotification isSecondary
        connectTimeout).2.m_hasServerQueue = .NON_REDUNDANT_SERVER ∧
     (initTcrConnection d k { env with sslEnabled := false } st
        { conn with input := acceptanceCode :: rest } now isClientNotification isSecondary
        connectTimeout).2.m_queueSize = 0 ∧
     (initTcrConnection d k { env with sslEnabled := false } st
        { conn with input := acceptanceCode :: rest } now isClientNotification isSecondary
        connectTimeout).2.endpointQueue = st.endpointQueue) ∧
    (initTcrConnection d k { env with sslEnabled := true } st
        { conn with input := acceptanceCode :: b :: (q4 ++ rest) } now isClientNotification
        isSecondary connectTimeout).2.endpointQueue =
      some (serverQueueStatusOf b, clampQueueSize (DataInput.readInt32 q4).1) := by
  constructor
  · obtain ⟨st1, c1, hrun, hc1, hi1, _, _, _, _, hs1, hs2, hs3⟩ :=
      initTcrConnection_run d k { env with sslEnabled := false } st
        { conn with input := acceptanceCode :: rest } now isClientNotification isSecondary
        connectTimeout creds hcred hsend
    rw [hrun, readHandshakeReply_ssl d k { env with sslEnabled := false } st1 c1
      isClientNotification connectTimeout acceptanceCode rest hc1 hi1 hacc rfl]
    exact ⟨rfl, rfl, hs1, hs2, hs3⟩
  · exact (initTcrConnection_queue d k { env with sslEnabled := true } st
      { conn with input := acceptanceCode :: b :: (q4 ++ rest) } now isClientNotification
      isSecondary connectTimeout creds acceptanceCode b q4 rest hcred hsend rfl hq
      (by simp)).2.2.1

/-- Witness for C20: the first byte of the reply is 21. -/
theorem initTcrConnection_ssl_required_witness :
    (initTcrConnection geodeDecls geodeHandshakeDecls { exampleEnv with sslEnabled := false }
        exampleHandshake { exampleConn [] with input := 21 :: [2, 0, 0, 0, 5] } 100 false false
        1000).1 =
      .error (.AuthenticationRequiredException
        "SSL is enabled on server, enable SSL in client as well" []) :=
  (initTcrConnection_ssl_required geodeDecls geodeHandshakeDecls exampleEnv exampleHandshake
    (exampleConn []) 100 false false 1000 [] 21 2 [0, 0, 0, 5] [2, 0, 0, 0, 5]
    (by decide) (by decide) (by decide) (by decide)).1.1

theorem cString_append_zero (m : List Byte) : cString (m ++ [0]) = cString m := by
  unfold cString
  induction m with
  | nil => simp
  | cons b tl ih =>
    by_cases hb : b = 0
    · simp [List.takeWhile, hb]
    · have hd : decide (b ≠ 0) = true := by simpa using hb
      show List.takeWhile (fun b => decide (b ≠ 0)) (b :: (tl ++ [0]))
        = List.takeWhile (fun b => decide (b ≠ 0)) (b :: tl)
      rw [List.takeWhile_cons, List.takeWhile_cons]
      simp only [hd, if_true]
      rw [ih]

theorem cString_of_nonzero (m : List Byte) (h : ∀ b ∈ m, b ≠ 0) : cString m = m := by
  unfold cString
  rw [List.takeWhile_eq_self_iff]
  intro b hb
  simpa using h b hb

theorem initTcrConnection_wire (d : Decls) (k : HandshakeDecls) (env : HandshakeEnv)
    (st : Handshake) (conn : Connector) (now : Int) (notif sec : Bool) (t : Int)
    (creds : List Byte) (w : ReplyWire) (rest : List Byte)
    (hcred : credentialsOk env notif creds = true) (hsend : conn.sendFault = none)
    (hwf : w.wellFormed notif = true) (hin : conn.input = w.bytes notif ++ rest)
    (hssl : ¬ (toInt8 w.acceptanceCode = k.REPLY_SSL_ENABLED ∧ env.sslEnabled = false)) :
    ∃ (st1 : Handshake) (c2 : Connector), c2.input = rest ∧
      initTcrConnection d k env st conn now notif sec t =
        (match checkAcceptance d k (parsedState env st1 w notif c2)
            ⟨w.acceptanceCode, w.serverQueueStatus, (w.message.length : Int),
              w.message ++ [0]⟩ notif t with
         | (.error e, st3) => (.error e, st3)
         | (.ok _, st3) =>
           if !notif ∧ tmpIsSecurityOn env notif ∧ (!env.hasPool ∨ !env.isMultiUserMode) then
             (.ok true, st3)
           else (.ok false, st3)) := by
  obtain ⟨st1, c1, hrun, hc1, hi1, _⟩ :=
    initTcrConnection_run d k env st conn now notif sec t creds hcred hsend
  obtain ⟨c2, hc2, hparse⟩ := readHandshakeReply_wire d k env st1 c1 notif t w rest hc1 hwf
    (by rw [hi1, hin]) hssl
  exact ⟨st1, c2, hc2, by rw [hrun, hparse]⟩

theorem checkAcceptance_failed (d : Decls) (k : HandshakeDecls) (st : Handshake)
    (reply : HandshakeReply) (notif : Bool) (t : Int)
    (hok : ¬ (toInt8 reply.acceptanceCode = k.REPLY_OK ∨
      toInt8 reply.acceptanceCode = k.SUCCESSFUL_SERVER_TO_CLIENT)) :
    checkAcceptance d k st reply notif t =
      (.error
        (if toInt8 reply.acceptanceCode = k.REPLY_AUTHENTICATION_FAILED then
          .AuthenticationFailedException "" (cString reply.recvMessage)
         else if toInt8 reply.acceptanceCode = k.REPLY_AUTHENTICATION_REQUIRED then
          .AuthenticationRequiredException "" (cString reply.recvMessage)
         else if toInt8 reply.acceptanceCode = k.REPLY_DUPLICATE_DURABLE_CLIENT then
          .DuplicateDurableClientException "" (cString reply.recvMessage)
         else if toInt8 reply.acceptanceCode = k.REPLY_REFUSED ∨
            toInt8 reply.acceptanceCode = k.REPLY_INVALID ∨
            toInt8 reply.acceptanceCode = k.UNSUCCESSFUL_SERVER_TO_CLIENT then
          .CacheServerException
            "TcrConnection::TcrConnection: Handshake rejected by server: "
            (cString reply.recvMessage)
         else
          .MessageException
            "TcrConnection::TcrConnection: Unknown error received from server in handshake: "
            (cString reply.recvMessage)),
        { st with m_conn := none }) := by
  unfold checkAcceptance
  dsimp only
  rw [if_neg hok]
  repeat' split
  all_goals rfl

theorem checkAcceptance_ok (d : Decls) (k : HandshakeDecls) (st : Handshake)
    (reply : HandshakeReply) (notif : Bool) (t : Int)
    (hok : toInt8 reply.acceptanceCode = k.REPLY_OK ∨
      toInt8 reply.acceptanceCode = k.SUCCESSFUL_SERVER_TO_CLIENT) :
    checkAcceptance d k st reply notif t =
      (if notif then
        ((readHandshakeInstantiatorMsg d k st.m_conn t).1,
          { st with m_conn := (readHandshakeInstantiatorMsg d k st.m_conn t).2 })
       else (.ok (), st)) := by
  unfold checkAcceptance
  dsimp only
  rw [if_pos hok]

/-- C18: when the reply is read in full, its acceptance code is `REPLY_REFUSED`
and its message block holds a reason string without a zero byte,
`initTcrConnection` throws the `CacheServerException` whose text is
"TcrConnection::TcrConnection: Handshake rejected by server: " followed by
exactly that string, and `m_conn` is reset. -/
theorem initTcrConnection_refused (d : Decls) (k : HandshakeDecls)
    (env : HandshakeEnv) (st : Handshake) (conn : Connector) (now : Int)
    (isClientNotification isSecondary : Bool) (connectTimeout : Int)
    (creds : List Byte) (w : ReplyWire) (rest : List Byte)
    (hcred : credentialsOk env isClientNotification creds = true)
    (hsend : conn.sendFault = none)
    (hwf : w.wellFormed isClientNotification = true)
    (hin : conn.input = w.bytes isClientNotification ++ rest)
    (hacc : toInt8 w.acceptanceCode = k.REPLY_REFUSED)
    (hlabels : k.caseLabels.Nodup)
    (hssl : ¬ (k.REPLY_REFUSED = k.REPLY_SSL_ENABLED ∧ env.sslEnabled = false))
    (hreason : ∀ b ∈ w.message, b ≠ 0) :
    (initTcrConnection d k env st conn now isClientNotification isSecondary
      connectTimeout).1 =
      .error (.CacheServerException
        "TcrConnection::TcrConnection: Handshake rejected by server: " w.message) ∧
    (initTcrConnection d k env st conn now isClientNotification isSecondary
      connectTimeout).2.m_conn = none := by
  obtain ⟨st1, c2, _, hrun⟩ := initTcrConnection_wire d k env st conn now isClientNotification
    isSecondary connectTimeout creds w rest hcred hsend hwf hin (by rw [hacc]; exact hssl)
  simp only [HandshakeDecls.caseLabels, List.nodup_cons, List.mem_cons, List.mem_singleton,
    not_or, List.not_mem_nil, not_false_eq_true, List.nodup_nil, and_true] at hlabels
  obtain ⟨⟨_, _, _, _, a5, _, _⟩, ⟨_, _, _, b4, _, _⟩, ⟨_, _, c3, _, _⟩, ⟨_, d2, _, _⟩,
    ⟨e1, _, _⟩, _, _⟩ := hlabels
  have n0 : ¬ (k.REPLY_REFUSED = k.REPLY_OK) := fun h => a5 h.symm
  have n00 : ¬ (k.REPLY_REFUSED = k.SUCCESSFUL_SERVER_TO_CLIENT) := fun h => b4 h.symm
  have n1 : ¬ (k.REPLY_REFUSED = k.REPLY_AUTHENTICATION_FAILED) := fun h => c3 h.symm
  have n2 : ¬ (k.REPLY_REFUSED = k.REPLY_AUTHENTICATION_REQUIRED) := fun h => d2 h.symm
  have n3 : ¬ (k.REPLY_REFUSED = k.REPLY_DUPLICATE_DURABLE_CLIENT) := fun h => e1 h.symm
  have hok : ¬ (toInt8 (⟨w.acceptanceCode, w.serverQueueStatus, (w.message.length : Int),
      w.message ++ [0]⟩ : HandshakeReply).acceptanceCode = k.REPLY_OK ∨
      toInt8 (⟨w.acceptanceCode, w.serverQueueStatus, (w.message.length : Int),
      w.message ++ [0]⟩ : HandshakeReply).acceptanceCode = k.SUCCESSFUL_SERVER_TO_CLIENT) := by
    dsimp only; rw [hacc]; exact not_or.mpr ⟨n0, n00⟩
  rw [hrun, checkAcceptance_failed d k _ _ _ _ hok]
  dsimp only
  simp only [hacc, if_neg n1, if_neg n2, if_neg n3, true_or, if_true,
    cString_append_zero, cString_of_nonzero w.message hreason, and_self]

set_option maxRecDepth 8000 in
/-- Witness for C18: a forward channel, the acceptance code 60 and the reason
"bad version". -/
theorem initTcrConnection_refused_witness :
    (initTcrConnection geodeDecls geodeHandshakeDecls exampleEnv exampleHandshake
      (exampleConn ((exampleReply 60).bytes false ++ [77])) 100 false false 1000).1 =
      .error (.CacheServerException
        "TcrConnection::TcrConnection: Handshake rejected by server: "
        [98, 97, 100, 32, 118, 101, 114, 115, 105, 111, 110]) ∧
    (initTcrConnection geodeDecls geodeHandshakeDecls exampleEnv exampleHandshake
      (exampleConn ((exampleReply 60).bytes false ++ [77])) 100 false false 1000).2.m_conn =
      none :=
  initTcrConnection_refused geodeDecls geodeHandshakeDecls exampleEnv exampleHandshake
    (exampleConn ((exampleReply 60).bytes false ++ [77])) 100 false false 1000 []
    (exampleReply 60) [77] (by decide) (by decide) (by decide) rfl (by decide) (by decide)
    (by decide) (by decide)

set_option maxRecDepth 8000 in
/-- Counterexample to C19 as stated: the replies with the unknown acceptance
codes 98 and 99 and the same message make `initTcrConnection` throw the same
`MessageException`, whose text is a fixed prefix followed by the reason; the
exception does not carry the code. -/
theorem initTcrConnection_unknown_code_not_in_error :
    (initTcrConnection geodeDecls geodeHandshakeDecls exampleEnv exampleHandshake
      (exampleConn ((exampleReply 98).bytes false)) 100 false false 1000).1 =
      .error (.MessageException
        "TcrConnection::TcrConnection: Unknown error received from server in handshake: "
        [98, 97, 100, 32, 118, 101, 114, 115, 105, 111, 110]) ∧
    (initTcrConnection geodeDecls geodeHandshakeDecls exampleEnv exampleHandshake
      (exampleConn ((exampleReply 99).bytes false)) 100 false false 1000).1 =
      (initTcrConnection geodeDecls geodeHandshakeDecls exampleEnv exampleHandshake
        (exampleConn ((exampleReply 98).bytes false)) 100 false false 1000).1 := by
  decide

/-- C19 (amended): when the reply is read in full, the outcome of
`initTcrConnection` is decided by the acceptance code: `REPLY_OK` and
`SUCCESSFUL_SERVER_TO_CLIENT` give success (on a notification channel, the
outcome of reading the instantiator block); `REPLY_AUTHENTICATION_FAILED`,
`REPLY_AUTHENTICATION_REQUIRED` and `REPLY_DUPLICATE_DURABLE_CLIENT` throw the
exception of that name whose text is the message block read as a C string;
`REPLY_REFUSED`, `REPLY_INVALID` and `UNSUCCESSFUL_SERVER_TO_CLIENT` throw
`CacheServerException` ("Handshake rejected by server: " and the message);
every other code throws `MessageException` whose text is a fixed prefix and
the message, without the code.  In every failing case `m_conn` is reset. -/
theorem initTcrConnection_acceptance (d : Decls) (k : HandshakeDecls)
    (env : HandshakeEnv) (st : Handshake) (conn : Connector) (now : Int)
    (isClientNotification isSecondary : Bool) (connectTimeout : Int)
    (creds : List Byte) (w : ReplyWire) (rest : List Byte)
    (hcred : credentialsOk env isClientNotification creds = true)
    (hsend : conn.sendFault = none)
    (hwf : w.wellFormed isClientNotification = true)
    (hin : conn.input = w.bytes isClientNotification ++ rest)
    (hlabels : k.caseLabels.Nodup)
    (hssl : ¬ (toInt8 w.acceptanceCode = k.REPLY_SSL_ENABLED ∧ env.sslEnabled = false)) :
    ((toInt8 w.acceptanceCode = k.REPLY_OK ∨
        toInt8 w.acceptanceCode = k.SUCCESSFUL_SERVER_TO_CLIENT) →
      (isClientNotification = false →
        (initTcrConnection d k env st conn now isClientNotification isSecondary
          connectTimeout).1 =
          .ok (decide (tmpIsSecurityOn env false = true ∧
            (env.hasPool = false ∨ env.isMultiUserMode = false))) ∧
        ∃ c : Connector, c.input = rest ∧
          (initTcrConnection d k env st conn now isClientNotification isSecondary
            connectTimeout).2.m_conn = some c) ∧
      (isClientNotification = true →
        ∃ c : Connector, c.input = rest ∧
          (initTcrConnection d k env st conn now isClientNotification isSecondary
            connectTimeout).1 =
            (readHandshakeInstantiatorMsg d k (some c) connectTimeout).1.map
              (fun _ => false))) ∧
    (toInt8 w.acceptanceCode = k.REPLY_AUTHENTICATION_FAILED →
      initTcrConnection d k env st conn now isClientNotification isSecondary connectTimeout =
        (.error (.AuthenticationFailedException "" (cString w.message)),
          { (initTcrConnection d k env st conn now isClientNotification isSecondary
              connectTimeout).2 with m_conn := none })) ∧
    (toInt8 w.acceptanceCode = k.REPLY_AUTHENTICATION_REQUIRED →
      initTcrConnection d k env st conn now isClientNotification isSecondary connectTimeout =
        (.error (.AuthenticationRequiredException "" (cString w.message)),
          { (initTcrConnection d k env st conn now isClientNotification isSecondary
              connectTimeout).2 with m_conn := none })) ∧
    (toInt8 w.acceptanceCode = k.REPLY_DUPLICATE_DURABLE_CLIENT →
      initTcrConnection d k env st conn now isClientNotification isSecondary connectTimeout =
        (.error (.DuplicateDurableClientException "" (cString w.message)),
          { (initTcrConnection d k env st conn now isClientNotification isSecondary
              connectTimeout).2 with m_conn := none })) ∧
    ((toInt8 w.acceptanceCode = k.REPLY_REFUSED ∨ toInt8 w.acceptanceCode = k.REPLY_INVALID ∨
        toInt8 w.acceptanceCode = k.UNSUCCESSFUL_SERVER_TO_CLIENT) →
      initTcrConnection d k env st conn now isClientNotification isSecondary connectTimeout =
        (.error (.CacheServerException
          "TcrConnection::TcrConnection: Handshake rejected by server: " (cString w.message)),
          { (initTcrConnection d k env st conn now isClientNotification isSecondary
              connectTimeout).2 with m_conn := none })) ∧
    (toInt8 w.acceptanceCode ∉ k.caseLabels →
      initTcrConnection d k env st conn now isClientNotification isSecondary connectTimeout =
        (.error (.MessageException
          "TcrConnection::TcrConnection: Unknown error received from server in handshake: "
          (cString w.message)),
          { (initTcrConnection d k env st conn now isClientNotification isSecondary
              connectTimeout).2 with m_conn := none })) := by
  obtain ⟨st1, c2, hc2, hrun⟩ := initTcrConnection_wire d k env st conn now
    isClientNotification isSecondary connectTimeout creds w rest hcred hsend hwf hin hssl
  simp only [HandshakeDecls.caseLabels, List.nodup_cons, List.mem_cons, List.mem_singleton,
    not_or, List.not_mem_nil, not_false_eq_true, List.nodup_nil, and_true] at hlabels
  obtain ⟨⟨a1, a2, a3, a4, a5, a6, a7⟩, ⟨b1, b2, b3, b4, b5, b6⟩, ⟨c1, c2', c3, c4, c5⟩,
    ⟨d1, d2, d3, d4⟩, ⟨e1, e2, e3⟩, ⟨f1, f2⟩, g1⟩ := hlabels
  have hfail : ∀ (hok : ¬ (toInt8 w.acceptanceCode = k.REPLY_OK ∨
      toInt8 w.acceptanceCode = k.SUCCESSFUL_SERVER_TO_CLIENT)),
      initTcrConnection d k env st conn now isClientNotification isSecondary connectTimeout =
      (.error
        (if toInt8 w.acceptanceCode = k.REPLY_AUTHENTICATION_FAILED then
          .AuthenticationFailedException "" (cString w.message)
         else if toInt8 w.acceptanceCode = k.REPLY_AUTHENTICATION_REQUIRED then
          .AuthenticationRequiredException "" (cString w.message)
         else if toInt8 w.acceptanceCode = k.REPLY_DUPLICATE_DURABLE_CLIENT then
          .DuplicateDurableClientException "" (cString w.message)
         else if toInt8 w.acceptanceCode = k.REPLY_REFUSED ∨
            toInt8 w.acceptanceCode = k.REPLY_INVALID ∨
            toInt8 w.acceptanceCode = k.UNSUCCESSFUL_SERVER_TO_CLIENT then
          .CacheServerException
            "TcrConnection::TcrConnection: Handshake rejected by server: "
            (cString w.message)
         else
          .MessageException
            "TcrConnection::TcrConnection: Unknown error received from server in handshake: "
            (cString w.message)),
        { parsedState env st1 w isClientNotification c2 with m_conn := none }) := by
    intro hok
    rw [hrun, checkAcceptance_failed d k _ _ _ _ hok]
    simp only [cString_append_zero]
  refine ⟨?_, ?_, ?_, ?_, ?_, ?_⟩
  · intro hok
    constructor
    · intro hn
      subst hn
      rw [hrun, checkAcceptance_ok d k _ _ _ _ hok]
      simp only [Bool.false_eq_true, if_false, Bool.not_false, true_and]
      by_cases hcond : tmpIsSecurityOn env false = true ∧
          ((!env.hasPool) = true ∨ (!env.isMultiUserMode) = true)
      · rw [if_pos hcond]
        refine ⟨?_, c2, hc2, rfl⟩
        simp only [Bool.not_eq_true'] at hcond
        simp [hcond]
      · rw [if_neg hcond]
        refine ⟨?_, c2, hc2, rfl⟩
        simp only [Bool.not_eq_true'] at hcond
        simp [hcond]
    · intro hn
      subst hn
      refine ⟨c2, hc2, ?_⟩
      rw [hrun, checkAcceptance_ok d k _ _ _ _ hok]
      simp only [if_true]
      have hm : (parsedState env st1 w true c2).m_conn = some c2 := rfl
      rw [hm]
      rcases readHandshakeInstantiatorMsg d k (some c2) connectTimeout with ⟨e | u, c3⟩
      · rfl
      · simp [Except.map]
  · intro h
    have hok : ¬ (toInt8 w.acceptanceCode = k.REPLY_OK ∨
        toInt8 w.acceptanceCode = k.SUCCESSFUL_SERVER_TO_CLIENT) := by
      rw [h]; exact not_or.mpr ⟨fun x => a2 x.symm, fun x => b1 x.symm⟩
    rw [hfail hok]
    simp only [h, if_true]
  · intro h
    have hok : ¬ (toInt8 w.acceptanceCode = k.REPLY_OK ∨
        toInt8 w.acceptanceCode = k.SUCCESSFUL_SERVER_TO_CLIENT) := by
      rw [h]; exact not_or.mpr ⟨fun x => a3 x.symm, fun x => b2 x.symm⟩
    have n1 : ¬ (k.REPLY_AUTHENTICATION_REQUIRED = k.REPLY_AUTHENTICATION_FAILED) :=
      fun x => c1 x.symm
    rw [hfail hok]
    simp only [h, if_neg n1, if_true]
  · intro h
    have hok : ¬ (toInt8 w.acceptanceCode = k.REPLY_OK ∨
        toInt8 w.acceptanceCode = k.SUCCESSFUL_SERVER_TO_CLIENT) := by
      rw [h]; exact not_or.mpr ⟨fun x => a4 x.symm, fun x => b3 x.symm⟩
    have n1 : ¬ (k.REPLY_DUPLICATE_DURABLE_CLIENT = k.REPLY_AUTHENTICATION_FAILED) :=
      fun x => c2' x.symm
    have n2 : ¬ (k.REPLY_DUPLICATE_DURABLE_CLIENT = k.REPLY_AUTHENTICATION_REQUIRED) :=
      fun x => d1 x.symm
    rw [hfail hok]
    simp only [h, if_neg n1, if_neg n2, if_true]
  · intro h
    have hne : ¬ (toInt8 w.acceptanceCode = k.REPLY_OK) ∧
        ¬ (toInt8 w.acceptanceCode = k.SUCCESSFUL_SERVER_TO_CLIENT) ∧
        ¬ (toInt8 w.acceptanceCode = k.REPLY_AUTHENTICATION_FAILED) ∧
        ¬ (toInt8 w.acceptanceCode = k.REPLY_AUTHENTICATION_REQUIRED) ∧
        ¬ (toInt8 w.acceptanceCode = k.REPLY_DUPLICATE_DURABLE_CLIENT) := by
      rcases h with h | h | h <;> rw [h]
      · exact ⟨fun x => a5 x.symm, fun x => b4 x.symm, fun x => c3 x.symm,
          fun x => d2 x.symm, fun x => e1 x.symm⟩
      · exact ⟨fun x => a6 x.symm, fun x => b5 x.symm, fun x => c4 x.symm,
          fun x => d3 x.symm, fun x => e2 x.symm⟩
      · exact ⟨fun x => a7 x.symm, fun x => b6 x.symm, fun x => c5 x.symm,
          fun x => d4 x.symm, fun x => e3 x.symm⟩
    rw [hfail (not_or.mpr ⟨hne.1, hne.2.1⟩)]
    simp only [if_neg hne.2.2.1, if_neg hne.2.2.2.1, if_neg hne.2.2.2.2, if_pos h]
  · intro h
    simp only [HandshakeDecls.caseLabels, List.mem_cons, List.mem_singleton, not_or,
      List.not_mem_nil, not_false_eq_true, and_true] at h
    obtain ⟨h1, h2, h3, h4, h5, h6, h7, h8⟩ := h
    rw [hfail (not_or.mpr ⟨h1, h2⟩)]
    simp only [if_neg h3, if_neg h4, if_neg h5, if_neg (not_or.mpr ⟨h6, not_or.mpr ⟨h7, h8⟩⟩)]

set_option maxRecDepth 8000 in
/-- Witness for the amended C19: a forward channel and the unknown acceptance
code 99. -/
theorem initTcrConnection_acceptance_witness :
    (initTcrConnection geodeDecls geodeHandshakeDecls exampleEnv exampleHandshake
      (exampleConn ((exampleReply 99).bytes false ++ [77])) 100 false false 1000).1 =
      .error (.MessageException
        "TcrConnection::TcrConnection: Unknown error received from server in handshake: "
        (cString (exampleReply 99).message)) :=
  congrArg Prod.fst
    ((initTcrConnection_acceptance geodeDecls geodeHandshakeDecls exampleEnv exampleHandshake
      (exampleConn ((exampleReply 99).bytes false ++ [77])) 100 false false 1000 []
      (exampleReply 99) [77] (by decide) (by decide) (by decide) rfl (by decide)
      (by decide)).2.2.2.2.2 (by decide))

/-! ## Usage gate: sequences of calls and concurrent acquires -/

theorem setAndGetBeingUsed_state_le (s : Nat) (a b : Bool) (hs : s ≤ 2) :
    (setAndGetBeingUsed s a b).2 ≤ 2 := by
  have h : s = 0 ∨ s = 1 ∨ s = 2 := by omega
  rcases h with h | h | h <;> subst h <;> cases a <;> cases b <;> decide

theorem setAndGetBeingUsed_enters_transaction (s : Nat) (a b : Bool) (hs : s ≤ 2)
    (h2 : (setAndGetBeingUsed s a b).2 = 2) (hne : s ≠ 2) :
    a = true ∧ b = true ∧ (setAndGetBeingUsed s a b).1 = true := by
  have h : s = 0 ∨ s = 1 := by omega
  rcases h with h | h <;> subst h <;> cases a <;> cases b <;> revert h2 <;> decide

theorem setAndGetBeingUsedSeq_invariant (calls : List (Bool × Bool)) :
    ∀ s : Nat, s ≤ 2 →
      (setAndGetBeingUsedSeq s calls).1 ≤ 2 ∧
      ((setAndGetBeingUsedSeq s calls).1 = 2 → s = 2 ∨
        ∃ i : Nat, calls[i]? = some (true, true) ∧
          (setAndGetBeingUsedSeq s calls).2[i]? = some true) := by
  induction calls with
  | nil =>
    intro s hs
    exact ⟨hs, fun h => Or.inl h⟩
  | cons c rest ih =>
    intro s hs
    obtain ⟨a, b⟩ := c
    have hle := setAndGetBeingUsed_state_le s a b hs
    obtain ⟨h1, h2⟩ := ih (setAndGetBeingUsed s a b).2 hle
    refine ⟨h1, fun hfin => ?_⟩
    by_cases hs2 : s = 2
    · exact Or.inl hs2
    · right
      rcases h2 hfin with h | ⟨i, hi1, hi2⟩
      · obtain ⟨ha, hb, hr⟩ := setAndGetBeingUsed_enters_transaction s a b hs h hs2
        refine ⟨0, ?_, ?_⟩
        · simp [ha, hb]
        · simp [setAndGetBeingUsedSeq, hr]
      · exact ⟨i + 1, by simpa using hi1, by simpa [setAndGetBeingUsedSeq] using hi2⟩

/-- C24: starting from a freshly constructed connection (`m_isUsed` = 0), after
every finite sequence of `setAndGetBeingUsed` calls with arbitrary arguments
the usage state is 0, 1 or 2, and it is 2 only if some call of the sequence
was a transactional acquire `(true, true)` that returned true. -/
theorem setAndGetBeingUsedSeq_states (calls : List (Bool × Bool)) :
    ((setAndGetBeingUsedSeq 0 calls).1 = 0 ∨ (setAndGetBeingUsedSeq 0 calls).1 = 1 ∨
      (setAndGetBeingUsedSeq 0 calls).1 = 2) ∧
    ((setAndGetBeingUsedSeq 0 calls).1 = 2 →
      ∃ i : Nat, calls[i]? = some (true, true) ∧
        (setAndGetBeingUsedSeq 0 calls).2[i]? = some true) := by
  obtain ⟨h1, h2⟩ := setAndGetBeingUsedSeq_invariant calls 0 (by omega)
  refine ⟨by omega, fun h => ?_⟩
  rcases h2 h with h0 | h0
  · omega
  · exact h0

/-- Witness for C24: an acquire, a refused transactional acquire, a release
and a transactional acquire end in state 2. -/
theorem setAndGetBeingUsedSeq_states_witness :
    (setAndGetBeingUsedSeq 0 [(true, false), (true, true), (false, false), (true, true)]).1 = 2 ∧
    ∃ i : Nat,
      [(true, false), (true, true), (false, false), (true, true)][i]? = some (true, true) ∧
      (setAndGetBeingUsedSeq 0
        [(true, false), (true, true), (false, false), (true, true)]).2[i]? = some true :=
  ⟨by decide, (setAndGetBeingUsedSeq_states
    [(true, false), (true, true), (false, false), (true, true)]).2 (by decide)⟩

/-- A thread that runs its call `setAndGetBeingUsed(true, false)` alone makes at
most three accesses and gets the result of the sequential embedding. -/
theorem acquireStep_alone (s : Nat) :
    acquireStep (acquireStep (acquireStep s .loadInUse).1 (acquireStep s .loadInUse).2).1
        (acquireStep (acquireStep s .loadInUse).1 (acquireStep s .loadInUse).2).2 =
      ((setAndGetBeingUsed s true false).2, .returned (setAndGetBeingUsed s true false).1) := by
  by_cases h1 : s = 1
  · subst h1; decide
  · by_cases h2 : s = 2
    · subst h2; decide
    · by_cases h0 : s = 0
      · subst h0; decide
      · simp [acquireStep, setAndGetBeingUsed, compare_exchange_strong, h0, h1, h2]

theorem Gate.step_threads_self {n : Nat} (g : Gate n) (i : Fin n) :
    (g.step i).threads i = (acquireStep g.m_isUsed (g.threads i)).2 := by
  simp [Gate.step]

theorem Gate.step_threads_other {n : Nat} (g : Gate n) (i j : Fin n) (hj : j ≠ i) :
    (g.step i).threads j = g.threads j := by
  simp [Gate.step, Function.update_noteq hj]

theorem Gate.step_m_isUsed {n : Nat} (g : Gate n) (i : Fin n) :
    (g.step i).m_isUsed = (acquireStep g.m_isUsed (g.threads i)).1 := rfl

theorem Gate.step_singleOwner {n : Nat} (g : Gate n) (i : Fin n) (h : g.singleOwner) :
    (g.step i).singleOwner := by
  rcases h with ⟨hm, hall⟩ | ⟨hm, w, hw⟩
  · -- the gate is still Free
    by_cases hx : g.threads i = .exchange
    · right
      refine ⟨by simp [Gate.step_m_isUsed, hx, acquireStep, hm, compare_exchange_strong], i,
        fun j hjt => ?_⟩
      by_contra hj
      rw [Gate.step_threads_other g i j hj] at hjt
      exact hall j hjt
    · left
      constructor
      · rw [Gate.step_m_isUsed]
        cases hp : g.threads i <;> simp_all [acquireStep]
      · intro j
        by_cases hj : j = i
        · subst hj
          rw [Gate.step_threads_self]
          have hnt := hall j
          cases hp : g.threads j <;> simp_all [acquireStep]
        · rw [Gate.step_threads_other g i j hj]
          exact hall j
  · -- some call owns the gate
    right
    constructor
    · rw [Gate.step_m_isUsed]
      cases hp : g.threads i <;> simp [acquireStep, hm, compare_exchange_strong]
    · refine ⟨w, fun j hjt => ?_⟩
      by_cases hj : j = i
      · subst hj
        rw [Gate.step_threads_self] at hjt
        apply hw j
        cases hp : g.threads j <;>
          simp_all [acquireStep, compare_exchange_strong]
      · rw [Gate.step_threads_other g i j hj] at hjt
        exact hw j hjt

theorem Gate.run_singleOwner {n : Nat} (schedule : List (Fin n)) :
    ∀ g : Gate n, g.singleOwner → (g.run schedule).singleOwner := by
  induction schedule with
  | nil => intro g h; exact h
  | cons i rest ih =>
    intro g h
    exact ih (g.step i) (Gate.step_singleOwner g i h)

theorem Gate.owners_length_le_one {n : Nat} (g : Gate n) (h : g.singleOwner) :
    g.owners.length ≤ 1 := by
  have hnd : g.owners.Nodup := (List.nodup_finRange n).filter _
  rcases h with ⟨_, hall⟩ | ⟨_, w, hw⟩
  · have : g.owners = [] := by
      unfold Gate.owners
      rw [List.filter_eq_nil_iff]
      intro i _
      simpa using hall i
    simp [this]
  · have hsub : ∀ i ∈ g.owners, i = w := by
      intro i hi
      unfold Gate.owners at hi
      rw [List.mem_filter] at hi
      exact hw i (by simpa using hi.2)
    match hg : g.owners, hnd, hsub with
    | [], _, _ => simp
    | [_], _, _ => simp
    | a :: b :: tl, hnd, hsub =>
      have ha := hsub a (by simp)
      have hb := hsub b (by simp)
      rw [ha, hb] at hnd
      simp at hnd

/-- C23: for every number of concurrent calls `setAndGetBeingUsed(true, false)`
on a Free gate and every interleaving of their accesses to the atomic
`m_isUsed` (no release takes place), at most one of the calls has returned
true. -/
theorem setAndGetBeingUsed_concurrent_acquire (n : Nat) (schedule : List (Fin n)) :
    ((Gate.free n).run schedule).owners.length ≤ 1 :=
  Gate.owners_length_le_one _
    (Gate.run_singleOwner schedule (Gate.free n) (Or.inl ⟨rfl, fun _ => by simp [Gate.free]⟩))

/-- Two calls that both pass the two loads before either reaches the
`compare_exchange_strong`: the first exchange wins, the second call returns
false. -/
theorem setAndGetBeingUsed_lost_race :
    ((Gate.free 2).run [0, 0, 1, 1, 1, 0]).threads 1 = .returned true ∧
    ((Gate.free 2).run [0, 0, 1, 1, 1, 0]).threads 0 = .returned false ∧
    ((Gate.free 2).run [0, 0, 1, 1, 1, 0]).m_isUsed = 1 := by
  decide

/-- The value `initTcrConnection` returns when it returns (lines 455-461). -/
theorem initTcrConnection_result (d : Decls) (k : HandshakeDecls) (env : HandshakeEnv)
    (st : Handshake) (conn : Connector) (now : Int) (notif sec : Bool) (t : Int) (b : Bool)
    (h : (initTcrConnection d k env st conn now notif sec t).1 = .ok b) :
    b = decide (notif = false ∧ tmpIsSecurityOn env notif = true ∧
      (env.hasPool = false ∨ env.isMultiUserMode = false)) := by
  unfold initTcrConnection at h
  dsimp only at h
  rcases hb : buildHandshake k env
      { st with
        m_hasServerQueue := .NON_REDUNDANT_SERVER
        m_queueSize := 0
        health := { st.health with m_creationTime := now, m_lastAccessed := now }
        connectionId := INITIAL_CONNECTION_ID
        m_isBeingUsed := false
        m_conn := some conn } notif sec with ⟨e | data, st1⟩
  · rw [hb] at h
    exact absurd h (by simp)
  · rw [hb] at h
    dsimp only at h
    by_cases hs : (sendData conn data t).1 = .CONN_NOERR
    · rw [if_pos hs] at h
      rcases hr : readHandshakeReply d k env
          { st1 with m_conn := some (sendData conn data t).2 } notif t with ⟨e | reply, st2⟩
      · rw [hr] at h
        exact absurd h (by simp)
      · rw [hr] at h
        dsimp only at h
        rcases hca : checkAcceptance d k st2 reply notif t with ⟨e | u, st3⟩
        · rw [hca] at h
          exact absurd h (by simp)
        · rw [hca] at h
          dsimp only at h
          by_cases hc : (!notif) = true ∧ tmpIsSecurityOn env notif = true ∧
              ((!env.hasPool) = true ∨ (!env.isMultiUserMode) = true)
          · rw [if_pos hc] at h
            simp only [Except.ok.injEq] at h
            simp only [Bool.not_eq_true'] at hc
            rw [← h]
            exact (decide_eq_true hc).symm
          · rw [if_neg hc] at h
            simp only [Except.ok.injEq] at h
            simp only [Bool.not_eq_true'] at hc
            rw [← h]
            exact (decide_eq_false hc).symm
    · rw [if_neg hs] at h
      split at h <;> exact absurd h (by simp)

/-- C21: whenever `initTcrConnection` returns (the handshake succeeded), it
returns true if and only if the channel is a forward channel, security is
enabled (an auth provider is configured or the endpoint is in multi-user
mode) and the connection is not in pool multi-user mode (a pool and an
endpoint in multi-user mode); on a notification channel it returns false.
With a pool, true is returned exactly on a forward channel with an auth
provider and an endpoint that is not in multi-user mode. -/
theorem initTcrConnection_return_value (d : Decls) (k : HandshakeDecls) (env : HandshakeEnv)
    (st : Handshake) (conn : Connector) (now : Int)
    (isClientNotification isSecondary : Bool) (connectTimeout : Int) (b : Bool)
    (h : (initTcrConnection d k env st conn now isClientNotification isSecondary
      connectTimeout).1 = .ok b) :
    (b = true ↔ (isClientNotification = false ∧
      (env.hasAuthInitialize = true ∨ env.isMultiUserMode = true) ∧
      ¬ (env.hasPool = true ∧ env.isMultiUserMode = true))) ∧
    (isClientNotification = true → b = false) ∧
    (env.hasPool = true →
      (b = true ↔ (isClientNotification = false ∧ env.hasAuthInitialize = true ∧
        env.isMultiUserMode = false))) := by
  have hb := initTcrConnection_result d k env st conn now isClientNotification isSecondary
    connectTimeout b h
  subst hb
  cases isClientNotification <;> cases hp : env.hasPool <;> cases hm : env.isMultiUserMode <;>
    cases ha : env.hasAuthInitialize <;> simp [tmpIsSecurityOn, hp, hm, ha]

set_option maxRecDepth 8000 in
/-- Witness for C21: a forward channel of a pool with an auth provider, not in
multi-user mode, and a reply with the acceptance code 59. -/
theorem initTcrConnection_return_value_witness :
    (initTcrConnection geodeDecls geodeHandshakeDecls
      { exampleEnv with hasAuthInitialize := true } exampleHandshake
      (exampleConn ((exampleReply 59).bytes false)) 100 false false 1000).1 = .ok true ∧
    (true = true ↔ (false = false ∧
      (({ exampleEnv with hasAuthInitialize := true } : HandshakeEnv).hasAuthInitialize = true ∨
        ({ exampleEnv with hasAuthInitialize := true } : HandshakeEnv).isMultiUserMode = true) ∧
      ¬ (({ exampleEnv with hasAuthInitialize := true } : HandshakeEnv).hasPool = true ∧
        ({ exampleEnv with hasAuthInitialize := true } : HandshakeEnv).isMultiUserMode = true))) :=
  ⟨by decide, (initTcrConnection_return_value geodeDecls geodeHandshakeDecls
    { exampleEnv with hasAuthInitialize := true } exampleHandshake
    (exampleConn ((exampleReply 59).bytes false)) 100 false false 1000 true (by decide)).1⟩

/-! ## Handshake: the socket after a failure -/

theorem readHandshakeData_error_resets (d : Decls) (m : Option Connector) (n : Int) (t : Int)
    (e : Thrown) (h : (readHandshakeData d m n t).1 = .error e) :
    (readHandshakeData d m n t).2 = none := by
  revert h
  unfold readHandshakeData
  dsimp only
  repeat' split
  all_goals first
    | (intro _; rfl)
    | (intro h; exact absurd h (by simp))

theorem readHandshakeArraySize_error_resets (d : Decls) (m : Option Connector) (t : Int)
    (e : Thrown) (h : (readHandshakeArraySize d m t).1 = .error e) :
    (readHandshakeArraySize d m t).2 = none := by
  unfold readHandshakeArraySize at h ⊢
  rcases h1 : readHandshakeData d m 1 t with ⟨e1 | hdr, c1⟩
  · exact (congrArg Prod.snd h1).symm.trans
      (readHandshakeData_error_resets d m 1 t e1 (by rw [h1]))
  · rw [h1] at h
    dsimp only at h ⊢
    by_cases hb2 : toInt8 (hdr.getD 0 0) = -2
    · rw [if_pos hb2] at h ⊢
      rcases h2 : readHandshakeData d c1 2 t with ⟨e2 | bs, c2⟩
      · exact (congrArg Prod.snd h2).symm.trans
          (readHandshakeData_error_resets d c1 2 t e2 (by rw [h2]))
      · rw [h2] at h
        exact absurd h (by simp)
    · rw [if_neg hb2] at h ⊢
      by_cases hb3 : toInt8 (hdr.getD 0 0) = -3
      · rw [if_pos hb3] at h ⊢
        rcases h2 : readHandshakeData d c1 4 t with ⟨e2 | bs, c2⟩
        · exact (congrArg Prod.snd h2).symm.trans
            (readHandshakeData_error_resets d c1 4 t e2 (by rw [h2]))
        · rw [h2] at h
          exact absurd h (by simp)
      · rw [if_neg hb3] at h
        exact absurd h (by simp)

theorem readHandShakeBytes_error_resets (d : Decls) (m : Option Connector) (n : Int) (t : Int)
    (e : Thrown) (h : (readHandShakeBytes d m n t).1 = .error e) :
    (readHandShakeBytes d m n t).2 = none := by
  revert h
  unfold readHandShakeBytes
  dsimp only
  repeat' split
  all_goals first
    | (intro _; rfl)
    | (intro h; exact absurd h (by simp))

theorem readHandshakeStringBytes_error_resets (d : Decls) (m : Option Connector) (n : Nat)
    (t : Int) (e : Thrown) (h : (readHandshakeStringBytes d m n t).1 = .error e)
    (hdef : e ≠ .undefined) :
    (readHandshakeStringBytes d m n t).2 = none := by
  revert h
  unfold readHandshakeStringBytes
  dsimp only
  repeat' split
  all_goals first
    | (intro _; rfl)
    | (intro h; simp only [Except.error.injEq] at h; exact absurd h.symm hdef)
    | (intro h; exact absurd h (by simp))

theorem readHandshakeString_error_resets (d : Decls) (k : HandshakeDecls)
    (m : Option Connector) (t : Int) (e : Thrown)
    (h : (readHandshakeString d k m t).1 = .error e) (hdef : e ≠ .undefined) :
    (readHandshakeString d k m t).2 = none := by
  unfold readHandshakeString at h ⊢
  cases m with
  | none => rfl
  | some c =>
    dsimp only at h ⊢
    by_cases h1 : (receiveData c 1 t).1 ≠ .CONN_NOERR
    · rw [if_pos h1]
      split <;> rfl
    · rw [if_neg h1] at h ⊢
      by_cases hn : toInt8 ((receiveData c 1 t).2.1.getD 0 0) = k.CacheableNullString
      · rw [if_pos hn] at h
        exact absurd h (by simp)
      · rw [if_neg hn] at h ⊢
        by_cases ha : toInt8 ((receiveData c 1 t).2.1.getD 0 0) = k.CacheableASCIIString
        · rw [if_pos ha] at h ⊢
          rcases h2 : readHandshakeData d (some (receiveData c 1 t).2.2) 2 t with ⟨e2 | bs, c2⟩
          · exact (congrArg Prod.snd h2).symm.trans
              (readHandshakeData_error_resets d _ 2 t e2 (by rw [h2]))
          · rw [h2] at h
            exact readHandshakeStringBytes_error_resets d c2 _ t e h hdef
        · rw [if_neg ha] at h ⊢
          by_cases hu : toInt8 ((receiveData c 1 t).2.1.getD 0 0) ∈ k.unsupportedStringTags
          · rw [if_pos hu]
          · rw [if_neg hu] at h ⊢
            exact readHandshakeStringBytes_error_resets d _ 0 t e h hdef

theorem readHandshakeStrings_error_resets (d : Decls) (k : HandshakeDecls) (t : Int)
    (e : Thrown) (hdef : e ≠ .undefined) (n : Nat) :
    ∀ m : Option Connector, (readHandshakeStrings d k t n m).1 = .error e →
      (readHandshakeStrings d k t n m).2 = none := by
  induction n with
  | zero => intro m h; exact absurd h (by simp [readHandshakeStrings])
  | succ n ih =>
    intro m h
    unfold readHandshakeStrings at h ⊢
    rcases h1 : readHandshakeString d k m t with ⟨e1 | s, c1⟩
    · rw [h1] at h
      simp only [Except.error.injEq] at h
      subst h
      exact (congrArg Prod.snd h1).symm.trans
        (readHandshakeString_error_resets d k m t e1 (by rw [h1]) hdef)
    · rw [h1] at h
      exact ih c1 h

theorem readInstantiatorLists_error_resets (d : Decls) (k : HandshakeDecls) (t : Int)
    (e : Thrown) (hdef : e ≠ .undefined) (n : Nat) :
    ∀ m : Option Connector, (readInstantiatorLists d k t n m).1 = .error e →
      (readInstantiatorLists d k t n m).2 = none := by
  induction n with
  | zero => intro m h; exact absurd h (by simp [readInstantiatorLists])
  | succ n ih =>
    intro m h
    unfold readInstantiatorLists at h ⊢
    rcases h1 : readHandShakeBytes d m 6 t with ⟨e1 | u, c1⟩
    · exact (congrArg Prod.snd h1).symm.trans
        (readHandShakeBytes_error_resets d m 6 t e1 (by rw [h1]))
    · rw [h1] at h
      dsimp only at h ⊢
      rcases h2 : readHandshakeArraySize d c1 t with ⟨e2 | aLen, c2⟩
      · exact (congrArg Prod.snd h2).symm.trans
          (readHandshakeArraySize_error_resets d c1 t e2 (by rw [h2]))
      · rw [h2] at h
        dsimp only at h ⊢
        rcases h3 : readHandshakeStrings d k t aLen.toNat c2 with ⟨e3 | u3, c3⟩
        · rw [h3] at h
          simp only [Except.error.injEq] at h
          subst h
          exact (congrArg Prod.snd h3).symm.trans
            (readHandshakeStrings_error_resets d k t e3 hdef aLen.toNat c2 (by rw [h3]))
        · rw [h3] at h
          exact ih c3 h

theorem readInstantiatorEntries_error_resets (d : Decls) (k : HandshakeDecls) (t : Int)
    (e : Thrown) (hdef : e ≠ .undefined) (n : Nat) :
    ∀ m : Option Connector, (readInstantiatorEntries d k t n m).1 = .error e →
      (readInstantiatorEntries d k t n m).2 = none := by
  induction n with
  | zero => intro m h; exact absurd h (by simp [readInstantiatorEntries])
  | succ n ih =>
    intro m h
    unfold readInstantiatorEntries at h ⊢
    rcases h1 : readHandShakeBytes d m 5 t with ⟨e1 | u, c1⟩
    · exact (congrArg Prod.snd h1).symm.trans
        (readHandShakeBytes_error_resets d m 5 t e1 (by rw [h1]))
    · rw [h1] at h
      dsimp only at h ⊢
      rcases h2 : readHandshakeString d k c1 t with ⟨e2 | s, c2⟩
      · rw [h2] at h
        simp only [Except.error.injEq] at h
        subst h
        exact (congrArg Prod.snd h2).symm.trans
          (readHandshakeString_error_resets d k c1 t e2 (by rw [h2]) hdef)
      · rw [h2] at h
        exact ih c2 h

theorem readHandshakeInstantiatorMsg_error_resets (d : Decls) (k : HandshakeDecls)
    (m : Option Connector) (t : Int) (e : Thrown)
    (h : (readHandshakeInstantiatorMsg d k m t).1 = .error e) (hdef : e ≠ .undefined) :
    (readHandshakeInstantiatorMsg d k m t).2 = none := by
  unfold readHandshakeInstantiatorMsg at h ⊢
  rcases h1 : readHandshakeArraySize d m t with ⟨e1 | n1, c1⟩
  · exact (congrArg Prod.snd h1).symm.trans
      (readHandshakeArraySize_error_resets d m t e1 (by rw [h1]))
  · rw [h1] at h
    dsimp only at h ⊢
    rcases h2 : readInstantiatorLists d k t n1.toNat c1 with ⟨e2 | u2, c2⟩
    · rw [h2] at h
      simp only [Except.error.injEq] at h
      subst h
      exact (congrArg Prod.snd h2).symm.trans
        (readInstantiatorLists_error_resets d k t e2 hdef n1.toNat c1 (by rw [h2]))
    · rw [h2] at h
      dsimp only at h ⊢
      rcases h3 : readHandshakeArraySize d c2 t with ⟨e3 | n3, c3⟩
      · exact (congrArg Prod.snd h3).symm.trans
          (readHandshakeArraySize_error_resets d c2 t e3 (by rw [h3]))
      · rw [h3] at h
        dsimp only at h ⊢
        rcases h4 : readInstantiatorEntries d k t n3.toNat c3 with ⟨e4 | u4, c4⟩
        · rw [h4] at h
          simp only [Except.error.injEq] at h
          subst h
          exact (congrArg Prod.snd h4).symm.trans
            (readInstantiatorEntries_error_resets d k t e4 hdef n3.toNat c3 (by rw [h4]))
        · rw [h4] at h
          dsimp only at h ⊢
          rcases h5 : readHandshakeArraySize d c4 t with ⟨e5 | n5, c5⟩
          · exact (congrArg Prod.snd h5).symm.trans
              (readHandshakeArraySize_error_resets d c4 t e5 (by rw [h5]))
          · rw [h5] at h
            dsimp only at h ⊢
            exact readInstantiatorLists_error_resets d k t e hdef n5.toNat c5 h

theorem readDistributedMember_error_resets (d : Decls) (env : HandshakeEnv) (st : Handshake)
    (t : Int) (e : Thrown) (h : (readDistributedMember d env st t).1 = .error e) :
    (readDistributedMember d env st t).2.m_conn = none := by
  unfold readDistributedMember at h ⊢
  rcases h1 : readHandshakeArraySize d st.m_conn t with ⟨e1 | len, c1⟩
  · exact (congrArg Prod.snd h1).symm.trans
      (readHandshakeArraySize_error_resets d st.m_conn t e1 (by rw [h1]))
  · rw [h1] at h
    dsimp only at h ⊢
    rcases h2 : readHandshakeData d c1 len t with ⟨e2 | msg, c2⟩
    · exact (congrArg Prod.snd h2).symm.trans
        (readHandshakeData_error_resets d c1 len t e2 (by rw [h2]))
    · rw [h2] at h
      dsimp only at h
      split at h <;> exact absurd h (by simp)

theorem readHandshakeReply_error_resets (d : Decls) (k : HandshakeDecls) (env : HandshakeEnv)
    (st : Handshake) (notif : Bool) (t : Int) (e : Thrown)
    (h : (readHandshakeReply d k env st notif t).1 = .error e) :
    (readHandshakeReply d k env st notif t).2.m_conn = none := by
  unfold readHandshakeReply at h ⊢
  rcases h1 : readHandshakeData d st.m_conn 1 t with ⟨e1 | acc, c1⟩
  · exact (congrArg Prod.snd h1).symm.trans
      (readHandshakeData_error_resets d st.m_conn 1 t e1 (by rw [h1]))
  · rw [h1] at h
    dsimp only at h ⊢
    by_cases hssl : toInt8 (acc.getD 0 0) = k.REPLY_SSL_ENABLED ∧ (!env.sslEnabled) = true
    · rw [if_pos hssl]
    · rw [if_neg hssl] at h ⊢
      rcases h2 : readHandshakeData d c1 1 t with ⟨e2 | qs, c2⟩
      · exact (congrArg Prod.snd h2).symm.trans
          (readHandshakeData_error_resets d c1 1 t e2 (by rw [h2]))
      · rw [h2] at h
        dsimp only at h ⊢
        rcases h3 : readHandshakeData d c2 4 t with ⟨e3 | q4, c3⟩
        · exact (congrArg Prod.snd h3).symm.trans
            (readHandshakeData_error_resets d c2 4 t e3 (by rw [h3]))
        · rw [h3] at h
          dsimp only at h ⊢
          generalize hst3 : ({ st with
              m_hasServerQueue := serverQueueStatusOf (qs.getD 0 0)
              m_conn := c3
              m_queueSize := if (DataInput.readInt32 q4).1 > 0 then (DataInput.readInt32 q4).1
                else 0
              endpointQueue := some (serverQueueStatusOf (qs.getD 0 0),
                if (DataInput.readInt32 q4).1 > 0 then (DataInput.readInt32 q4).1 else 0)
              poolPrimaryQueueSize :=
                if (serverQueueStatusOf (qs.getD 0 0) = .PRIMARY_SERVER ∨
                    serverQueueStatusOf (qs.getD 0 0) = .NON_REDUNDANT_SERVER) ∧ notif = true
                then some (DataInput.readInt32 q4).1 else st.poolPrimaryQueueSize } : Handshake)
            = st3 at h ⊢
          rcases h4 : (if (!notif) = true then readDistributedMember d env st3 t
              else (.ok (), st3)) with ⟨e4 | u4, st4⟩
          · dsimp only
            cases notif
            · simp only [Bool.not_false, if_true] at h4
              exact (congrArg (fun r => r.2.m_conn) h4).symm.trans
                (readDistributedMember_error_resets d env st3 t e4 (by rw [h4]))
            · simp at h4
          · rw [h4] at h
            dsimp only at h ⊢
            rcases h5 : readHandshakeData d st4.m_conn 2 t with ⟨e5 | lenBytes, c5⟩
            · exact (congrArg Prod.snd h5).symm.trans
                (readHandshakeData_error_resets d st4.m_conn 2 t e5 (by rw [h5]))
            · rw [h5] at h
              dsimp only at h ⊢
              rcases h6 : readHandshakeData d c5 ((DataInput.readInt16 lenBytes).1 % 65536) t
                with ⟨e6 | msg, c6⟩
              · exact (congrArg Prod.snd h6).symm.trans
                  (readHandshakeData_error_resets d c5 _ t e6 (by rw [h6]))
              · rw [h6] at h
                dsimp only at h ⊢
                cases notif
                · simp only [Bool.not_false, if_true] at h ⊢
                  rcases h7 : readHandshakeData d c6 1 t with ⟨e7 | dl, c7⟩
                  · exact (congrArg Prod.snd h7).symm.trans
                      (readHandshakeData_error_resets d c6 1 t e7 (by rw [h7]))
                  · rw [h7] at h
                    exact absurd h (by simp)
                · simp at h

theorem checkAcceptance_error_resets (d : Decls) (k : HandshakeDecls) (st : Handshake)
    (reply : HandshakeReply) (notif : Bool) (t : Int) (e : Thrown)
    (h : (checkAcceptance d k st reply notif t).1 = .error e) (hdef : e ≠ .undefined) :
    (checkAcceptance d k st reply notif t).2.m_conn = none := by
  by_cases hok : toInt8 reply.acceptanceCode = k.REPLY_OK ∨
      toInt8 reply.acceptanceCode = k.SUCCESSFUL_SERVER_TO_CLIENT
  · rw [checkAcceptance_ok d k st reply notif t hok] at h ⊢
    cases notif
    · exact absurd h (by simp)
    · simp only [if_true] at h ⊢
      exact readHandshakeInstantiatorMsg_error_resets d k st.m_conn t e h hdef
  · rw [checkAcceptance_failed d k st reply notif t hok]

/-- Every exception that leaves `initTcrConnection` after the build phase has
completed finds `m_conn` reset. -/
theorem initTcrConnection_error_resets (d : Decls) (k : HandshakeDecls) (env : HandshakeEnv)
    (st : Handshake) (conn : Connector) (now : Int) (notif sec : Bool) (t : Int) (e : Thrown)
    (creds : List Byte) (hcred : credentialsOk env notif creds = true)
    (h : (initTcrConnection d k env st conn now notif sec t).1 = .error e)
    (hdef : e ≠ .undefined) :
    (initTcrConnection d k env st conn now notif sec t).2.m_conn = none := by
  obtain ⟨msg, hb⟩ := buildHandshake_ok k env
    { st with
      m_hasServerQueue := .NON_REDUNDANT_SERVER
      m_queueSize := 0
      health := { st.health with m_creationTime := now, m_lastAccessed := now }
      connectionId := INITIAL_CONNECTION_ID
      m_isBeingUsed := false
      m_conn := some conn } notif sec creds hcred
  unfold initTcrConnection at h ⊢
  dsimp only at h ⊢
  rw [hb] at h ⊢
  dsimp only at h ⊢
  by_cases hs : (sendData conn msg t).1 = .CONN_NOERR
  · rw [if_pos hs] at h ⊢
    generalize hst1 : ({ (if (!notif) = true then
        ({ st with
            m_hasServerQueue := .NON_REDUNDANT_SERVER
            m_queueSize := 0
            health := { st.health with m_creationTime := now, m_lastAccessed := now }
            connectionId := INITIAL_CONNECTION_ID
            m_isBeingUsed := false
            m_conn := some conn
            m_port := env.localPort
            ports := insertPort st.ports env.localPort } : Handshake)
        else
        ({ st with
            m_hasServerQueue := .NON_REDUNDANT_SERVER
            m_queueSize := 0
            health := { st.health with m_creationTime := now, m_lastAccessed := now }
            connectionId := INITIAL_CONNECTION_ID
            m_isBeingUsed := false
            m_conn := some conn } : Handshake)) with
        m_conn := some (sendData conn msg t).2 } : Handshake) = st1 at h ⊢
    rcases hr : readHandshakeReply d k env st1 notif t with ⟨e1 | reply, st2⟩
    · exact (congrArg (fun r => r.2.m_conn) hr).symm.trans
        (readHandshakeReply_error_resets d k env st1 notif t e1 (by rw [hr]))
    · rw [hr] at h
      dsimp only at h ⊢
      rcases hca : checkAcceptance d k st2 reply notif t with ⟨e2 | u, st3⟩
      · rw [hca] at h
        simp only [Except.error.injEq] at h
        subst h
        exact (congrArg (fun r => r.2.m_conn) hca).symm.trans
          (checkAcceptance_error_resets d k st2 reply notif t e2 (by rw [hca]) hdef)
      · rw [hca] at h
        dsimp only at h
        split at h <;> exact absurd h (by simp)
  · rw [if_neg hs]
    split <;> rfl

set_option maxRecDepth 8000 in
/-- C22 at a failing input: a notification channel whose auth provider throws
`AuthenticationFailedException` from `getCredentials`.  The exception leaves
`initTcrConnection` with `m_conn` still holding the connector that
`createConnection` made, and nothing has been sent; the same call with a
provider that returns credentials and a send that fails finds `m_conn`
reset. -/
theorem initTcrConnection_credential_failure_keeps_socket :
    (initTcrConnection geodeDecls geodeHandshakeDecls
      { exampleEnv with hasAuthInitialize := true,
                        credentials := .authenticationFailed "denied" }
      exampleHandshake (exampleConn []) 100 true false 1000).1 =
      .error (.AuthenticationFailedException "denied" []) ∧
    (initTcrConnection geodeDecls geodeHandshakeDecls
      { exampleEnv with hasAuthInitialize := true,
                        credentials := .authenticationFailed "denied" }
      exampleHandshake (exampleConn []) 100 true false 1000).2.m_conn =
      some (exampleConn []) ∧
    (initTcrConnection geodeDecls geodeHandshakeDecls
      { exampleEnv with hasAuthInitialize := true, credentials := .properties [7] }
      exampleHandshake { exampleConn [] with sendFault := some .other } 100 true false
      1000).1 = .error (.GeodeIOException "TcrConnection::TcrConnection: Handshake failure") ∧
    (initTcrConnection geodeDecls geodeHandshakeDecls
      { exampleEnv with hasAuthInitialize := true, credentials := .properties [7] }
      exampleHandshake { exampleConn [] with sendFault := some .other } 100 true false
      1000).2.m_conn = none := by
  decide

/-- C27: `getOverrides` returns 1 when the conflation setting is exactly "true",
2 when it is exactly "false" and 0 for every other string; its result is
always 0, 1 or 2. -/
theorem getOverrides_spec (conflate : String) :
    (conflate = "true" → getOverrides conflate = 1) ∧
    (conflate = "false" → getOverrides conflate = 2) ∧
    (conflate ≠ "true" → conflate ≠ "false" → getOverrides conflate = 0) ∧
    (getOverrides conflate = 0 ∨ getOverrides conflate = 1 ∨ getOverrides conflate = 2) := by
  unfold getOverrides
  refine ⟨fun h => ?_, fun h => ?_, fun h1 h2 => ?_, ?_⟩
  · rw [if_pos h]
  · subst h
    decide
  · rw [if_neg h1, if_neg h2]
  · by_cases h1 : conflate = "true"
    · rw [if_pos h1]; exact Or.inr (Or.inl rfl)
    · rw [if_neg h1]
      by_cases h2 : conflate = "false"
      · rw [if_pos h2]; exact Or.inr (Or.inr rfl)
      · rw [if_neg h2]; exact Or.inl rfl

/-- Witness for C27: the setting "TRUE" is neither "true" nor "false". -/
theorem getOverrides_spec_witness :
    getOverrides "true" = 1 ∧ getOverrides "false" = 2 ∧ getOverrides "TRUE" = 0 :=
  ⟨(getOverrides_spec "true").1 rfl, (getOverrides_spec "false").2.1 rfl,
    (getOverrides_spec "TRUE").2.2.1 (by decide) (by decide)⟩

/-- What `readHandshakeString` does once the type-id byte `tag` has been read. -/
theorem readHandshakeString_tag (d : Decls) (k : HandshakeDecls) (c : Connector) (t : Int)
    (tag : Byte) (rest : List Byte) (hin : c.input = tag :: rest) :
    readHandshakeString d k (some c) t =
      (if toInt8 tag = k.CacheableNullString then
        (.ok none, some { c with input := rest, reads := c.reads ++ [(1, toMilliseconds t)] })
       else if toInt8 tag = k.CacheableASCIIString then
        match readHandshakeData d
          (some { c with input := rest, reads := c.reads ++ [(1, toMilliseconds t)] }) 2 t with
        | (.error e, c2) => (.error e, c2)
        | (.ok lenBytes, c2) =>
          readHandshakeStringBytes d c2 ((DataInput.readInt16 lenBytes).1 % 4294967296).toNat t
       else if toInt8 tag ∈ k.unsupportedStringTags then
        (.error (.GeodeIOException
          "TcrConnection::TcrConnection: Handshake failure: Unexpected string type ID"), none)
       else readHandshakeStringBytes d
        (some { c with input := rest, reads := c.reads ++ [(1, toMilliseconds t)] }) 0 t) := by
  unfold readHandshakeString
  dsimp only
  rw [receiveData_ok c 1 t [tag] rest (by simpa using hin) rfl]
  simp only [ne_eq, not_true_eq_false, if_false, List.getD_cons_zero]

theorem readHandshakeStringBytes_ok (d : Decls) (c : Connector) (n : Nat) (t : Int)
    (body ys : List Byte) (hin : c.input = body ++ ys) (hlen : body.length = n)
    (hpos : 0 < n) (hmax : n ≠ 4294967295) :
    readHandshakeStringBytes d (some c) n t =
      (.ok (some body),
        some { c with input := ys, reads := c.reads ++ [(n, toMilliseconds t)] }) := by
  unfold readHandshakeStringBytes
  have h0 : ¬ n = 0 := by omega
  rw [if_neg h0, if_neg hmax]
  dsimp only
  rw [receiveData_ok c n t body ys hin hlen]
  simp

theorem readInt16_small (hi lo : Byte) (xs : List Byte) (h : hi.val < 128) :
    (DataInput.readInt16 (hi :: lo :: xs)).1 = ((hi.val * 256 + lo.val : Nat) : Int) := by
  have hlo := lo.isLt
  have hlt : hi.val * 256 + lo.val < 32768 := by omega
  simp [DataInput.readInt16, hlt]

/-- Counterexample to C28 as stated: an ASCII string with the 2-byte length 0
makes `readHandshakeString` return no value (`nullptr`), not the string made
of those 0 bytes. -/
theorem readHandshakeString_empty_ascii_is_null :
    (readHandshakeString geodeDecls geodeHandshakeDecls
      (some (exampleConn [87, 0, 0, 65])) 1000).1 = .ok none ∧
    (readHandshakeString geodeDecls geodeHandshakeDecls
      (some (exampleConn [87, 0, 0, 65])) 1000).1 ≠ .ok (some []) := by
  decide

/-- C28 (amended): `readHandshakeString` reads a 1-byte type tag and then: for
`CacheableNullString` it returns no value and reads nothing more; for
`CacheableASCIIString` it reads a 2-byte length n (at most 32767) and, when n
is not 0, exactly n bytes and returns the string made of those n bytes, while
for n = 0 it reads nothing more and returns no value; for every other tag
listed in the `switch` it resets `m_conn` and throws `GeodeIOException`,
whatever bytes follow. -/
theorem readHandshakeString_spec (d : Decls) (k : HandshakeDecls) (c : Connector)
    (connectTimeout : Int) (tag : Byte) (rest : List Byte) (hin : c.input = tag :: rest)
    (hna : k.CacheableNullString ≠ k.CacheableASCIIString)
    (hnu : k.CacheableNullString ∉ k.unsupportedStringTags)
    (hau : k.CacheableASCIIString ∉ k.unsupportedStringTags) :
    (toInt8 tag = k.CacheableNullString →
      ∃ c1 : Connector,
        readHandshakeString d k (some c) connectTimeout = (.ok none, some c1) ∧
        c1.input = rest ∧ c1.reads = c.reads ++ [(1, toMilliseconds connectTimeout)]) ∧
    (toInt8 tag = k.CacheableASCIIString →
      ∀ (hi lo : Byte) (body ys : List Byte), rest = hi :: lo :: (body ++ ys) →
        body.length = hi.val * 256 + lo.val → hi.val < 128 →
        ∃ c1 : Connector,
          readHandshakeString d k (some c) connectTimeout =
            (.ok (if body = [] then none else some body), some c1) ∧
          c1.input = ys ∧
          c1.reads = c.reads ++ [(1, toMilliseconds connectTimeout),
            (2, toMilliseconds connectTimeout)] ++
            (if body = [] then [] else [(body.length, toMilliseconds connectTimeout)])) ∧
    (toInt8 tag ∈ k.unsupportedStringTags →
      readHandshakeString d k (some c) connectTimeout =
        (.error (.GeodeIOException
          "TcrConnection::TcrConnection: Handshake failure: Unexpected string type ID"),
          none)) := by
  have htag := readHandshakeString_tag d k c connectTimeout tag rest hin
  refine ⟨fun hn => ?_, fun ha hi lo body ys hrest hlen hhi => ?_, fun hu => ?_⟩
  · rw [htag, if_pos hn]
    exact ⟨_, rfl, rfl, rfl⟩
  · have hn : ¬ (toInt8 tag = k.CacheableNullString) := by
      rw [ha]; exact fun h => hna h.symm
    rw [htag, if_neg hn, if_pos ha]
    have h2 := readHandshakeData_take d
      { c with input := rest, reads := c.reads ++ [(1, toMilliseconds connectTimeout)] } 2
      connectTimeout (by simp [hrest])
    simp only [Nat.cast_ofNat, hrest] at h2
    rw [hrest, h2]
    have h16 : (DataInput.readInt16 (List.take 2 (hi :: lo :: (body ++ ys)) ++ [0])).1 =
        ((hi.val * 256 + lo.val : Nat) : Int) := by
      simpa using readInt16_small hi lo [0] hhi
    have hlo := lo.isLt
    have hlen32 : ((((hi.val * 256 + lo.val : Nat) : Int)) % 4294967296).toNat =
        body.length := by
      rw [hlen]; omega
    simp only [h16, hlen32]
    by_cases hb : body = []
    · subst hb
      simp only [List.length_nil, if_true, List.append_nil]
      refine ⟨afterRead
        { c with input := hi :: lo :: ys,
                 reads := c.reads ++ [(1, toMilliseconds connectTimeout)] } 2 connectTimeout,
        ?_, ?_, ?_⟩
      · simp [readHandshakeStringBytes]
      · simp [afterRead]
      · simp [afterRead]
    · have hpos : 0 < body.length := List.length_pos.mpr hb
      simp only [if_neg hb]
      rw [readHandshakeStringBytes_ok d _ body.length connectTimeout body ys
        (by simp [afterRead]) rfl hpos (by omega)]
      refine ⟨_, rfl, rfl, ?_⟩
      simp [afterRead]
  · have hn : ¬ (toInt8 tag = k.CacheableNullString) := fun h => hnu (h ▸ hu)
    have ha : ¬ (toInt8 tag = k.CacheableASCIIString) := fun h => hau (h ▸ hu)
    rw [htag, if_neg hn, if_neg ha, if_pos hu]

set_option maxRecDepth 8000 in
/-- Witness for the amended C28: the tag 87, the length bytes 0, 2 and the two
bytes 72, 105; the byte 65 stays unread. -/
theorem readHandshakeString_spec_witness :
    ∃ c1 : Connector,
      readHandshakeString geodeDecls geodeHandshakeDecls
        (some (exampleConn [87, 0, 2, 72, 105, 65])) 1000 =
        (.ok (if ([72, 105] : List Byte) = [] then none else some [72, 105]), some c1) ∧
      c1.input = [65] ∧
      c1.reads = (exampleConn [87, 0, 2, 72, 105, 65]).reads ++
        [(1, toMilliseconds 1000), (2, toMilliseconds 1000)] ++
        (if ([72, 105] : List Byte) = [] then []
         else [(([72, 105] : List Byte).length, toMilliseconds 1000)]) :=
  (readHandshakeString_spec geodeDecls geodeHandshakeDecls
    (exampleConn [87, 0, 2, 72, 105, 65]) 1000 87 [0, 2, 72, 105, 65] rfl (by decide)
    (by decide) (by decide)).2.1 (by decide) 0 2 [72, 105] [65] rfl (by decide) (by decide)

theorem buildHandshake_bytes (k : HandshakeDecls) (env : HandshakeEnv) (st : Handshake)
    (notif sec : Bool) (msg : List Byte) (st1 : Handshake)
    (h : buildHandshake k env st notif sec = (.ok msg, st1)) :
    ∃ creds : List Byte,
      msg = handshakePreamble k env st.ports notif sec ++
        [toByte (if notif = true ∧ env.isMultiUserMode = true then
            k.SECURITY_MULTIUSER_NOTIFICATIONCHANNEL
          else if env.hasAuthInitialize = true ∨ env.isMultiUserMode = true then
            k.SECURITY_CREDENTIALS_NORMAL
          else k.SECURITY_CREDENTIALS_NONE)] ++ creds ∧
      (notif = false → creds = []) ∧
      (env.isMultiUserMode = true → creds = []) ∧
      (env.hasAuthInitialize = false → creds = []) ∧
      (notif = true → env.isMultiUserMode = false → env.hasAuthInitialize = true →
        env.credentials = .properties creds) ∧
      st1 = (if notif then st
        else { st with m_port := env.localPort, ports := insertPort st.ports env.localPort }) := by
  unfold buildHandshake at h
  cases notif <;> cases hm : env.isMultiUserMode <;> cases ha : env.hasAuthInitialize <;>
    simp only [tmpIsSecurityOn, doIneedToSendCreds, hm, ha, Bool.and_self, Bool.and_false,
      Bool.false_and, Bool.true_and, Bool.and_true, Bool.or_false, Bool.or_true, Bool.or_self,
      Bool.not_false, Bool.not_true, if_true, if_false, Bool.false_eq_true] at h
  all_goals first
    | (simp only [Prod.mk.injEq, Except.ok.injEq] at h
       obtain ⟨h1, h2⟩ := h
       refine ⟨[], ?_, ?_⟩
       · rw [← h1]; simp [handshakePreamble, hm, ha]
       · simp [hm, ha, ← h2])
    | (cases hc : env.credentials <;> rw [hc] at h <;>
         simp only [Prod.mk.injEq, Except.ok.injEq, reduceCtorEq, false_and] at h
       rename_i data
       obtain ⟨h1, h2⟩ := h
       refine ⟨data, ?_, ?_⟩
       · rw [← h1]; simp [handshakePreamble, hm, ha]
       · simp [hm, ha, ← h2])

theorem sentIs_none (s : List (List Byte × Int)) : sentIs s none := by
  intro c h; exact absurd h (by simp)

theorem receiveData_sent (c : Connector) (n : Nat) (t : Int) :
    (receiveData c n t).2.2.sent = c.sent := by
  by_cases hlen : n ≤ c.input.length
  · rw [receiveData_ok c n t (c.input.take n) (c.input.drop n)
      (List.take_append_drop n _).symm (List.length_take_of_le hlen)]
  · rw [receiveData_short c n t (by omega)]

theorem readHandshakeData_sent (d : Decls) (m : Option Connector) (n : Int) (t : Int)
    (s : List (List Byte × Int)) (h : sentIs s m) :
    sentIs s (readHandshakeData d m n t).2 := by
  unfold readHandshakeData
  dsimp only
  generalize (if n < 0 then (0 : Int) else n) = n1
  by_cases hn : n1 = 0
  · rw [if_pos hn]; exact h
  · rw [if_neg hn]
    cases m with
    | none => exact sentIs_none s
    | some c =>
      dsimp only
      by_cases he : (receiveData c n1.toNat t).1 ≠ .CONN_NOERR
      · rw [if_pos he]; exact sentIs_none s
      · rw [if_neg he]
        intro c1 hc1
        simp only [Option.some.injEq] at hc1
        rw [← hc1, receiveData_sent]
        exact h c rfl

theorem readHandshakeArraySize_sent (d : Decls) (m : Option Connector) (t : Int)
    (s : List (List Byte × Int)) (h : sentIs s m) :
    sentIs s (readHandshakeArraySize d m t).2 := by
  unfold readHandshakeArraySize
  have h1 := readHandshakeData_sent d m 1 t s h
  rcases hq1 : readHandshakeData d m 1 t with ⟨e1 | hdr, c1⟩
  · rw [hq1] at h1; exact h1
  · rw [hq1] at h1
    dsimp only at h1 ⊢
    split
    · have h2 := readHandshakeData_sent d c1 2 t s h1
      rcases hq2 : readHandshakeData d c1 2 t with ⟨e2 | bs, c2⟩ <;>
        (rw [hq2] at h2; exact h2)
    · split
      · have h2 := readHandshakeData_sent d c1 4 t s h1
        rcases hq2 : readHandshakeData d c1 4 t with ⟨e2 | bs, c2⟩ <;>
          (rw [hq2] at h2; exact h2)
      · exact h1

theorem readHandShakeBytes_sent (d : Decls) (m : Option Connector) (n : Int) (t : Int)
    (s : List (List Byte × Int)) (h : sentIs s m) :
    sentIs s (readHandShakeBytes d m n t).2 := by
  unfold readHandShakeBytes
  cases m with
  | none => exact sentIs_none s
  | some c =>
    dsimp only
    split
    · exact sentIs_none s
    · intro c1 hc1
      simp only [Option.some.injEq] at hc1
      rw [← hc1, receiveData_sent]
      exact h c rfl

theorem readHandshakeStringBytes_sent (d : Decls) (m : Option Connector) (n : Nat) (t : Int)
    (s : List (List Byte × Int)) (h : sentIs s m) :
    sentIs s (readHandshakeStringBytes d m n t).2 := by
  unfold readHandshakeStringBytes
  split
  · exact h
  · split
    · exact h
    · cases m with
      | none => exact sentIs_none s
      | some c =>
        dsimp only
        split
        · split <;> exact sentIs_none s
        · intro c1 hc1
          simp only [Option.some.injEq] at hc1
          rw [← hc1, receiveData_sent]
          exact h c rfl

theorem readHandshakeString_sent (d : Decls) (k : HandshakeDecls) (m : Option Connector)
    (t : Int) (s : List (List Byte × Int)) (h : sentIs s m) :
    sentIs s (readHandshakeString d k m t).2 := by
  unfold readHandshakeString
  cases m with
  | none => exact sentIs_none s
  | some c =>
    dsimp only
    have hc1 : sentIs s (some (receiveData c 1 t).2.2) := by
      intro c1 hc1
      simp only [Option.some.injEq] at hc1
      rw [← hc1, receiveData_sent]
      exact h c rfl
    split
    · split <;> exact sentIs_none s
    · split
      · exact hc1
      · split
        · have h2 := readHandshakeData_sent d _ 2 t s hc1
          rcases hq : readHandshakeData d (some (receiveData c 1 t).2.2) 2 t with ⟨e2 | bs, c2⟩
          · rw [hq] at h2; exact h2
          · rw [hq] at h2
            exact readHandshakeStringBytes_sent d c2 _ t s h2
        · split
          · exact sentIs_none s
          · exact readHandshakeStringBytes_sent d _ 0 t s hc1

theorem readHandshakeStrings_sent (d : Decls) (k : HandshakeDecls) (t : Int)
    (s : List (List Byte × Int)) (n : Nat) :
    ∀ m : Option Connector, sentIs s m → sentIs s (readHandshakeStrings d k t n m).2 := by
  induction n with
  | zero => intro m h; exact h
  | succ n ih =>
    intro m h
    unfold readHandshakeStrings
    have h1 := readHandshakeString_sent d k m t s h
    rcases hq1 : readHandshakeString d k m t with ⟨e1 | v, c1⟩
    · rw [hq1] at h1; exact h1
    · rw [hq1] at h1
      exact ih c1 h1

theorem readInstantiatorLists_sent (d : Decls) (k : HandshakeDecls) (t : Int)
    (s : List (List Byte × Int)) (n : Nat) :
    ∀ m : Option Connector, sentIs s m → sentIs s (readInstantiatorLists d k t n m).2 := by
  induction n with
  | zero => intro m h; exact h
  | succ n ih =>
    intro m h
    unfold readInstantiatorLists
    have h1 := readHandShakeBytes_sent d m 6 t s h
    rcases hq2 : readHandShakeBytes d m 6 t with ⟨e1 | u, c1⟩
    · rw [hq2] at h1; exact h1
    · rw [hq2] at h1
      dsimp only at h1 ⊢
      have h2 := readHandshakeArraySize_sent d c1 t s h1
      rcases hq3 : readHandshakeArraySize d c1 t with ⟨e2 | aLen, c2⟩
      · rw [hq3] at h2; exact h2
      · rw [hq3] at h2
        dsimp only at h2 ⊢
        have h3 := readHandshakeStrings_sent d k t s aLen.toNat c2 h2
        rcases hq4 : readHandshakeStrings d k t aLen.toNat c2 with ⟨e3 | u3, c3⟩
        · rw [hq4] at h3; exact h3
        · rw [hq4] at h3
          exact ih c3 h3

theorem readInstantiatorEntries_sent (d : Decls) (k : HandshakeDecls) (t : Int)
    (s : List (List Byte × Int)) (n : Nat) :
    ∀ m : Option Connector, sentIs s m → sentIs s (readInstantiatorEntries d k t n m).2 := by
  induction n with
  | zero => intro m h; exact h
  | succ n ih =>
    intro m h
    unfold readInstantiatorEntries
    have h1 := readHandShakeBytes_sent d m 5 t s h
    rcases hq5 : readHandShakeBytes d m 5 t with ⟨e1 | u, c1⟩
    · rw [hq5] at h1; exact h1
    · rw [hq5] at h1
      dsimp only at h1 ⊢
      have h2 := readHandshakeString_sent d k c1 t s h1
      rcases hq6 : readHandshakeString d k c1 t with ⟨e2 | v, c2⟩
      · rw [hq6] at h2; exact h2
      · rw [hq6] at h2
        exact ih c2 h2

theorem readHandshakeInstantiatorMsg_sent (d : Decls) (k : HandshakeDecls)
    (m : Option Connector) (t : Int) (s : List (List Byte × Int)) (h : sentIs s m) :
    sentIs s (readHandshakeInstantiatorMsg d k m t).2 := by
  unfold readHandshakeInstantiatorMsg
  have h1 := readHandshakeArraySize_sent d m t s h
  rcases hq7 : readHandshakeArraySize d m t with ⟨e1 | n1, c1⟩
  · rw [hq7] at h1; exact h1
  · rw [hq7] at h1
    dsimp only at h1 ⊢
    have h2 := readInstantiatorLists_sent d k t s n1.toNat c1 h1
    rcases hq8 : readInstantiatorLists d k t n1.toNat c1 with ⟨e2 | u2, c2⟩
    · rw [hq8] at h2; exact h2
    · rw [hq8] at h2
      dsimp only at h2 ⊢
      have h3 := readHandshakeArraySize_sent d c2 t s h2
      rcases hq9 : readHandshakeArraySize d c2 t with ⟨e3 | n3, c3⟩
      · rw [hq9] at h3; exact h3
      · rw [hq9] at h3
        dsimp only at h3 ⊢
        have h4 := readInstantiatorEntries_sent d k t s n3.toNat c3 h3
        rcases hq10 : readInstantiatorEntries d k t n3.toNat c3 with ⟨e4 | u4, c4⟩
        · rw [hq10] at h4; exact h4
        · rw [hq10] at h4
          dsimp only at h4 ⊢
          have h5 := readHandshakeArraySize_sent d c4 t s h4
          rcases hq11 : readHandshakeArraySize d c4 t with ⟨e5 | n5, c5⟩
          · rw [hq11] at h5; exact h5
          · rw [hq11] at h5
            exact readInstantiatorLists_sent d k t s n5.toNat c5 h5

theorem readDistributedMember_sent (d : Decls) (env : HandshakeEnv) (st : Handshake)
    (t : Int) (s : List (List Byte × Int)) (h : sentIs s st.m_conn) :
    sentIs s (readDistributedMember d env st t).2.m_conn ∧
    (readDistributedMember d env st t).2.ports = st.ports ∧
    (readDistributedMember d env st t).2.m_port = st.m_port := by
  unfold readDistributedMember
  have h1 := readHandshakeArraySize_sent d st.m_conn t s h
  rcases hq1 : readHandshakeArraySize d st.m_conn t with ⟨e1 | len, c1⟩
  · rw [hq1] at h1; exact ⟨h1, rfl, rfl⟩
  · rw [hq1] at h1
    dsimp only at h1 ⊢
    have h2 := readHandshakeData_sent d c1 len t s h1
    rcases hq2 : readHandshakeData d c1 len t with ⟨e2 | msg, c2⟩
    · rw [hq2] at h2; exact ⟨h2, rfl, rfl⟩
    · rw [hq2] at h2
      dsimp only at h2 ⊢
      split <;> exact ⟨h2, rfl, rfl⟩

theorem readHandshakeReply_sent (d : Decls) (k : HandshakeDecls) (env : HandshakeEnv)
    (st : Handshake) (notif : Bool) (t : Int) (s : List (List Byte × Int))
    (h : sentIs s st.m_conn) :
    sentIs s (readHandshakeReply d k env st notif t).2.m_conn ∧
    (readHandshakeReply d k env st notif t).2.ports = st.ports ∧
    (readHandshakeReply d k env st notif t).2.m_port = st.m_port := by
  unfold readHandshakeReply
  have h1 := readHandshakeData_sent d st.m_conn 1 t s h
  rcases hq1 : readHandshakeData d st.m_conn 1 t with ⟨e1 | acc, c1⟩
  · rw [hq1] at h1; exact ⟨h1, rfl, rfl⟩
  · rw [hq1] at h1
    dsimp only at h1 ⊢
    by_cases hssl : toInt8 (acc.getD 0 0) = k.REPLY_SSL_ENABLED ∧ (!env.sslEnabled) = true
    · rw [if_pos hssl]; exact ⟨sentIs_none s, rfl, rfl⟩
    · rw [if_neg hssl]
      have h2 := readHandshakeData_sent d c1 1 t s h1
      rcases hq2 : readHandshakeData d c1 1 t with ⟨e2 | qs, c2⟩
      · rw [hq2] at h2; exact ⟨h2, rfl, rfl⟩
      · rw [hq2] at h2
        dsimp only at h2 ⊢
        have h3 := readHandshakeData_sent d c2 4 t s h2
        rcases hq3 : readHandshakeData d c2 4 t with ⟨e3 | q4, c3⟩
        · rw [hq3] at h3; exact ⟨h3, rfl, rfl⟩
        · rw [hq3] at h3
          dsimp only at h3 ⊢
          generalize hst3 : ({ st with
              m_hasServerQueue := serverQueueStatusOf (qs.getD 0 0)
              m_conn := c3
              m_queueSize := if (DataInput.readInt32 q4).1 > 0 then (DataInput.readInt32 q4).1
                else 0
              endpointQueue := some (serverQueueStatusOf (qs.getD 0 0),
                if (DataInput.readInt32 q4).1 > 0 then (DataInput.readInt32 q4).1 else 0)
              poolPrimaryQueueSize :=
                if (serverQueueStatusOf (qs.getD 0 0) = .PRIMARY_SERVER ∨
                    serverQueueStatusOf (qs.getD 0 0) = .NON_REDUNDANT_SERVER) ∧ notif = true
                then some (DataInput.readInt32 q4).1 else st.poolPrimaryQueueSize } : Handshake)
            = st3
          have hs3 : sentIs s st3.m_conn ∧ st3.ports = st.ports ∧ st3.m_port = st.m_port := by
            rw [← hst3]; exact ⟨h3, rfl, rfl⟩
          have h4 : sentIs s (if (!notif) = true then readDistributedMember d env st3 t
              else (.ok (), st3)).2.m_conn ∧
              (if (!notif) = true then readDistributedMember d env st3 t
                else (.ok (), st3)).2.ports = st.ports ∧
              (if (!notif) = true then readDistributedMember d env st3 t
                else (.ok (), st3)).2.m_port = st.m_port := by
            split
            · have := readDistributedMember_sent d env st3 t s hs3.1
              exact ⟨this.1, this.2.1.trans hs3.2.1, this.2.2.trans hs3.2.2⟩
            · exact hs3
          rcases hq4 : (if (!notif) = true then readDistributedMember d env st3 t
              else (.ok (), st3)) with ⟨e4 | u4, st4⟩
          · rw [hq4] at h4; exact h4
          · rw [hq4] at h4
            dsimp only at h4 ⊢
            have h5 := readHandshakeData_sent d st4.m_conn 2 t s h4.1
            rcases hq5 : readHandshakeData d st4.m_conn 2 t with ⟨e5 | lenBytes, c5⟩
            · rw [hq5] at h5; exact ⟨h5, h4.2.1, h4.2.2⟩
            · rw [hq5] at h5
              dsimp only at h5 ⊢
              have h6 := readHandshakeData_sent d c5 ((DataInput.readInt16 lenBytes).1 % 65536)
                t s h5
              rcases hq6 : readHandshakeData d c5 ((DataInput.readInt16 lenBytes).1 % 65536) t
                with ⟨e6 | msg, c6⟩
              · rw [hq6] at h6; exact ⟨h6, h4.2.1, h4.2.2⟩
              · rw [hq6] at h6
                dsimp only at h6 ⊢
                split
                · have h7 := readHandshakeData_sent d c6 1 t s h6
                  rcases hq7 : readHandshakeData d c6 1 t with ⟨e7 | dl, c7⟩
                  · rw [hq7] at h7; exact ⟨h7, h4.2.1, h4.2.2⟩
                  · rw [hq7] at h7; exact ⟨h7, h4.2.1, h4.2.2⟩
                · exact ⟨h6, h4.2.1, h4.2.2⟩

theorem checkAcceptance_sent (d : Decls) (k : HandshakeDecls) (st : Handshake)
    (reply : HandshakeReply) (notif : Bool) (t : Int) (s : List (List Byte × Int))
    (h : sentIs s st.m_conn) :
    sentIs s (checkAcceptance d k st reply notif t).2.m_conn := by
  by_cases hok : toInt8 reply.acceptanceCode = k.REPLY_OK ∨
      toInt8 reply.acceptanceCode = k.SUCCESSFUL_SERVER_TO_CLIENT
  · rw [checkAcceptance_ok d k st reply notif t hok]
    split
    · exact readHandshakeInstantiatorMsg_sent d k st.m_conn t s h
    · exact h
  · rw [checkAcceptance_failed d k st reply notif t hok]
    exact sentIs_none s

/-- The send log and the shared port set after `initTcrConnection`, when the
build phase has produced the message `msg`: a connector still held by
`m_conn` has been sent `msg`, once, with the connect timeout. -/
theorem initTcrConnection_sent (d : Decls) (k : HandshakeDecls) (env : HandshakeEnv)
    (st : Handshake) (conn : Connector) (now : Int) (notif sec : Bool) (t : Int)
    (msg : List Byte) (st1 : Handshake)
    (hb : buildHandshake k env
      { st with
        m_hasServerQueue := .NON_REDUNDANT_SERVER
        m_queueSize := 0
        health := { st.health with m_creationTime := now, m_lastAccessed := now }
        connectionId := INITIAL_CONNECTION_ID
        m_isBeingUsed := false
        m_conn := some conn } notif sec = (.ok msg, st1)) :
    sentIs (conn.sent ++ [(msg, toMilliseconds t)])
      (initTcrConnection d k env st conn now notif sec t).2.m_conn ∧
    (initTcrConnection d k env st conn now notif sec t).2.ports = st1.ports ∧
    (initTcrConnection d k env st conn now notif sec t).2.m_port = st1.m_port := by
  have hsd : (sendData conn msg t).2.sent = conn.sent ++ [(msg, toMilliseconds t)] := by
    cases hf : conn.sendFault with
    | none => rw [sendData_ok conn msg t hf]
    | some f => cases f <;> simp [sendData, Connector.send, hf]
  unfold initTcrConnection
  dsimp only
  rw [hb]
  dsimp only
  by_cases hs : (sendData conn msg t).1 = .CONN_NOERR
  · rw [if_pos hs]
    have h1 := readHandshakeReply_sent d k env { st1 with m_conn := some (sendData conn msg t).2 }
      notif t (conn.sent ++ [(msg, toMilliseconds t)])
      (by intro c hc; simp only [Option.some.injEq] at hc; rw [← hc]; exact hsd)
    rcases hr : readHandshakeReply d k env { st1 with m_conn := some (sendData conn msg t).2 }
      notif t with ⟨e | reply, st2⟩
    · rw [hr] at h1; exact h1
    · rw [hr] at h1
      dsimp only at h1 ⊢
      have h2 := checkAcceptance_sent d k st2 reply notif t _ h1.1
      have hfr := checkAcceptance_frame d k st2 reply notif t
      rcases hca : checkAcceptance d k st2 reply notif t with ⟨e | u, st3⟩
      · rw [hca] at h2 hfr
        dsimp only at hfr ⊢
        refine ⟨h2, ?_, ?_⟩
        · rw [hfr]; exact h1.2.1
        · rw [hfr]; exact h1.2.2
      · rw [hca] at h2 hfr
        dsimp only at hfr ⊢
        split
        · refine ⟨h2, ?_, ?_⟩
          · rw [hfr]; exact h1.2.1
          · rw [hfr]; exact h1.2.2
        · refine ⟨h2, ?_, ?_⟩
          · rw [hfr]; exact h1.2.1
          · rw [hfr]; exact h1.2.2
  · rw [if_neg hs]
    split <;> exact ⟨sentIs_none _, rfl, rfl⟩

theorem writeInt_length (v : Int) : (DataOutput.writeInt v).length = 4 := rfl

theorem flatten_writeInt_length (ports : List Int) :
    ((ports.map (fun port => DataOutput.writeInt port)).flatten).length = 4 * ports.length := by
  induction ports with
  | nil => rfl
  | cons p tl ih =>
    simp only [List.map_cons, List.flatten_cons, List.length_append, writeInt_length, ih,
      List.length_cons]
    omega

theorem mem_insertPort (ports : List Nat) (port : Nat) : port ∈ insertPort ports port := by
  unfold insertPort
  split
  · assumption
  · simp

/-- C25: the handshake message `initTcrConnection` sends is, in this order: one
role byte (`CLIENT_TO_SERVER` on a forward channel, `PRIMARY_SERVER_TO_CLIENT`
on a notification channel that is not secondary, `SECONDARY_SERVER_TO_CLIENT`
on a secondary one), the version encoding, the `REPLY_OK` byte, then on a
notification channel the 4-byte count of the shared port set and that many
4-byte ports, or on a forward channel the single 4-byte value
0x7fffffff - 10000 = 2147473647 (and the local port is added to the shared
port set), then the two type-tag bytes, the membership-id bytes, the 4-byte
constant 1, the overrides byte and the security-mode byte (credentials may
follow). -/
theorem initTcrConnection_handshake_message (d : Decls) (k : HandshakeDecls)
    (env : HandshakeEnv) (st : Handshake) (conn : Connector) (now : Int)
    (isClientNotification isSecondary : Bool) (connectTimeout : Int)
    (creds : List Byte) (c : Connector)
    (hcred : credentialsOk env isClientNotification creds = true)
    (hc : (initTcrConnection d k env st conn now isClientNotification isSecondary
      connectTimeout).2.m_conn = some c) :
    (∃ (securityMode : Byte) (credentials : List Byte),
      c.sent = conn.sent ++
        [([toByte (if isClientNotification then
              (if isSecondary then k.SECONDARY_SERVER_TO_CLIENT
               else k.PRIMARY_SERVER_TO_CLIENT)
            else k.CLIENT_TO_SERVER)] ++
          k.versionData ++ [toByte k.REPLY_OK] ++
          (if isClientNotification then
            DataOutput.writeInt (st.ports.length : Int) ++
              (st.ports.map (fun port => DataOutput.writeInt (port : Int))).flatten
           else DataOutput.writeInt 2147473647) ++
          [toByte k.FixedIDByte, toByte k.ClientProxyMembershipId] ++
          k.writeBytes (if env.hasPool then env.poolDsMemberId else env.durableDsMemberId) ++
          DataOutput.writeInt 1 ++ [getOverrides env.conflateEvents] ++
          [securityMode] ++ credentials,
          toMilliseconds connectTimeout)]) ∧
    ((st.ports.map (fun port => DataOutput.writeInt (port : Int))).flatten).length =
      4 * st.ports.length ∧
    DataOutput.writeInt 2147473647 = [127, 255, 216, 239] ∧
    DataOutput.writeInt 1 = [0, 0, 0, 1] ∧
    (initTcrConnection d k env st conn now isClientNotification isSecondary
      connectTimeout).2.ports =
      (if isClientNotification then st.ports else insertPort st.ports env.localPort) ∧
    (isClientNotification = false →
      env.localPort ∈ (initTcrConnection d k env st conn now isClientNotification isSecondary
        connectTimeout).2.ports) := by
  obtain ⟨msg, hb⟩ := buildHandshake_ok k env
    { st with
      m_hasServerQueue := .NON_REDUNDANT_SERVER
      m_queueSize := 0
      health := { st.health with m_creationTime := now, m_lastAccessed := now }
      connectionId := INITIAL_CONNECTION_ID
      m_isBeingUsed := false
      m_conn := some conn } isClientNotification isSecondary creds hcred
  obtain ⟨credentials, hmsg, -⟩ := buildHandshake_bytes k env _ isClientNotification
    isSecondary msg _ hb
  obtain ⟨hsent, hports, -⟩ := initTcrConnection_sent d k env st conn now isClientNotification
    isSecondary connectTimeout msg _ hb
  have hp : (initTcrConnection d k env st conn now isClientNotification isSecondary
      connectTimeout).2.ports =
      (if isClientNotification then st.ports else insertPort st.ports env.localPort) := by
    rw [hports]
    cases isClientNotification <;> rfl
  refine ⟨⟨toByte (if isClientNotification = true ∧ env.isMultiUserMode = true then
      k.SECURITY_MULTIUSER_NOTIFICATIONCHANNEL
    else if env.hasAuthInitialize = true ∨ env.isMultiUserMode = true then
      k.SECURITY_CREDENTIALS_NORMAL
    else k.SECURITY_CREDENTIALS_NONE), credentials, ?_⟩, ?_, by decide, by decide, hp, ?_⟩
  · rw [hsent c hc, hmsg]
    rfl
  · rw [flatten_writeInt_length]
    congr 1
    generalize st.ports = l
    induction l with
    | nil => rfl
    | cons a tl ih => simpa using ih
  · intro hn
    rw [hp, hn]
    exact mem_insertPort _ _

set_option maxRecDepth 16000 in
/-- Witness for C25: a forward channel of a pool; the message sent is the role
100, the version byte 45, the marker 59, the four bytes of 2147473647, the
tags 1 and 38, the membership id, the four bytes of 1, the overrides byte 0
and the security-mode byte 0. -/
theorem initTcrConnection_handshake_message_witness :
    ∃ (securityMode : Byte) (credentials : List Byte),
      [(([100, 45, 59, 127, 255, 216, 239, 1, 38, 3, 1, 2, 3, 0, 0, 0, 1, 0, 0] : List Byte),
        (1 : Int))] =
      (exampleConn ((exampleReply 59).bytes false)).sent ++
        [([toByte geodeHandshakeDecls.CLIENT_TO_SERVER] ++
          geodeHandshakeDecls.versionData ++ [toByte geodeHandshakeDecls.REPLY_OK] ++
          DataOutput.writeInt 2147473647 ++
          [toByte geodeHandshakeDecls.FixedIDByte,
            toByte geodeHandshakeDecls.ClientProxyMembershipId] ++
          geodeHandshakeDecls.writeBytes exampleEnv.poolDsMemberId ++
          DataOutput.writeInt 1 ++ [getOverrides exampleEnv.conflateEvents] ++
          [securityMode] ++ credentials,
          toMilliseconds 1000)] :=
  (initTcrConnection_handshake_message geodeDecls geodeHandshakeDecls exampleEnv
    exampleHandshake (exampleConn ((exampleReply 59).bytes false)) 100 false false 1000 []
    ⟨[], .eof, none, [(1, 1), (1, 1), (4, 1), (1, 1), (2, 1), (2, 1), (11, 1), (1, 1)],
      [([100, 45, 59, 127, 255, 216, 239, 1, 38, 3, 1, 2, 3, 0, 0, 0, 1, 0, 0], 1)]⟩
    (by decide) (by decide)).1

set_option maxRecDepth 16000 in
/-- Counterexample to C26 as stated: on a forward channel of a pool in
multi-user mode with no auth provider configured, the security-mode byte (the
last byte of the message sent) is `SECURITY_CREDENTIALS_NORMAL` (1), not
`SECURITY_CREDENTIALS_NONE` (0). -/
theorem initTcrConnection_multiuser_forward_sends_normal :
    ({ exampleEnv with isMultiUserMode := true } : HandshakeEnv).hasAuthInitialize = false ∧
    (initTcrConnection geodeDecls geodeHandshakeDecls { exampleEnv with isMultiUserMode := true }
      exampleHandshake (exampleConn ((exampleReply 59).bytes false)) 100 false false
      1000).2.m_conn =
      some ⟨[], .eof, none, [(1, 1), (1, 1), (4, 1), (1, 1), (2, 1), (2, 1), (11, 1), (1, 1)],
        [(handshakePreamble geodeHandshakeDecls { exampleEnv with isMultiUserMode := true }
            [] false false ++ [toByte geodeHandshakeDecls.SECURITY_CREDENTIALS_NORMAL], 1)]⟩ ∧
    toByte geodeHandshakeDecls.SECURITY_CREDENTIALS_NORMAL = 1 ∧
    toByte geodeHandshakeDecls.SECURITY_CREDENTIALS_NONE = 0 := by
  decide

/-- C26 (amended): the security-mode byte of the handshake message, written
right after the overrides byte, is `SECURITY_MULTIUSER_NOTIFICATIONCHANNEL` on
a notification channel under multi-user mode, and then no credentials
follow; otherwise it is `SECURITY_CREDENTIALS_NORMAL` when an auth provider is
configured or the endpoint is in multi-user mode; otherwise it is
`SECURITY_CREDENTIALS_NONE`.  Serialized credentials follow the byte only on a
notification channel (with an auth provider, outside multi-user mode), never
on a forward channel. -/
theorem initTcrConnection_security_mode (d : Decls) (k : HandshakeDecls)
    (env : HandshakeEnv) (st : Handshake) (conn : Connector) (now : Int)
    (isClientNotification isSecondary : Bool) (connectTimeout : Int)
    (creds : List Byte) (c : Connector)
    (hcred : credentialsOk env isClientNotification creds = true)
    (hc : (initTcrConnection d k env st conn now isClientNotification isSecondary
      connectTimeout).2.m_conn = some c) :
    ∃ credentials : List Byte,
      c.sent = conn.sent ++
        [(handshakePreamble k env st.ports isClientNotification isSecondary ++
          [toByte (if isClientNotification = true ∧ env.isMultiUserMode = true then
              k.SECURITY_MULTIUSER_NOTIFICATIONCHANNEL
            else if env.hasAuthInitialize = true ∨ env.isMultiUserMode = true then
              k.SECURITY_CREDENTIALS_NORMAL
            else k.SECURITY_CREDENTIALS_NONE)] ++ credentials,
          toMilliseconds connectTimeout)] ∧
      (isClientNotification = false → credentials = []) ∧
      (env.isMultiUserMode = true → credentials = []) ∧
      (env.hasAuthInitialize = false → credentials = []) ∧
      (isClientNotification = true → env.isMultiUserMode = false →
        env.hasAuthInitialize = true → env.credentials = .properties credentials) := by
  obtain ⟨msg, hb⟩ := buildHandshake_ok k env
    { st with
      m_hasServerQueue := .NON_REDUNDANT_SERVER
      m_queueSize := 0
      health := { st.health with m_creationTime := now, m_lastAccessed := now }
      connectionId := INITIAL_CONNECTION_ID
      m_isBeingUsed := false
      m_conn := some conn } isClientNotification isSecondary creds hcred
  obtain ⟨credentials, hmsg, h1, h2, h3, h4, -⟩ := buildHandshake_bytes k env _
    isClientNotification isSecondary msg _ hb
  obtain ⟨hsent, -, -⟩ := initTcrConnection_sent d k env st conn now isClientNotification
    isSecondary connectTimeout msg _ hb
  refine ⟨credentials, ?_, h1, h2, h3, h4⟩
  rw [hsent c hc, hmsg]

set_option maxRecDepth 16000 in
/-- Witness for the amended C26: a secondary notification channel with an auth
provider whose credentials serialize as 7, 7 and the shared port set
4000, 4001. -/
theorem initTcrConnection_security_mode_witness :
    ∃ credentials : List Byte,
      (⟨[], .eof, none, [(1, 1), (1, 1), (4, 1), (2, 1), (11, 1), (1, 1), (1, 1), (1, 1)],
        [([102, 45, 59, 0, 0, 0, 2, 0, 0, 15, 160, 0, 0, 15, 161, 1, 38, 3, 1, 2, 3,
          0, 0, 0, 1, 0, 1, 7, 7], 1)]⟩ : Connector).sent =
      (exampleConn ((exampleReply 59).bytes true ++ [0, 0, 0])).sent ++
        [(handshakePreamble geodeHandshakeDecls
            { exampleEnv with hasAuthInitialize := true, credentials := .properties [7, 7] }
            ({ exampleHandshake with ports := [4000, 4001] } : Handshake).ports true true ++
          [toByte (if true = true ∧
              ({ exampleEnv with hasAuthInitialize := true,
                                 credentials := .properties [7, 7] } :
                HandshakeEnv).isMultiUserMode = true then
              geodeHandshakeDecls.SECURITY_MULTIUSER_NOTIFICATIONCHANNEL
            else if ({ exampleEnv with hasAuthInitialize := true,
                                       credentials := .properties [7, 7] } :
                HandshakeEnv).hasAuthInitialize = true ∨
                ({ exampleEnv with hasAuthInitialize := true,
                                   credentials := .properties [7, 7] } :
                HandshakeEnv).isMultiUserMode = true then
              geodeHandshakeDecls.SECURITY_CREDENTIALS_NORMAL
            else geodeHandshakeDecls.SECURITY_CREDENTIALS_NONE)] ++ credentials,
          toMilliseconds 1000)] ∧
      (true = false → credentials = []) ∧
      (({ exampleEnv with hasAuthInitialize := true, credentials := .properties [7, 7] } :
        HandshakeEnv).isMultiUserMode = true → credentials = []) ∧
      (({ exampleEnv with hasAuthInitialize := true, credentials := .properties [7, 7] } :
        HandshakeEnv).hasAuthInitialize = false → credentials = []) ∧
      (true = true →
        ({ exampleEnv with hasAuthInitialize := true, credentials := .properties [7, 7] } :
          HandshakeEnv).isMultiUserMode = false →
        ({ exampleEnv with hasAuthInitialize := true, credentials := .properties [7, 7] } :
          HandshakeEnv).hasAuthInitialize = true →
        ({ exampleEnv with hasAuthInitialize := true, credentials := .properties [7, 7] } :
          HandshakeEnv).credentials = .properties credentials) :=
  initTcrConnection_security_mode geodeDecls geodeHandshakeDecls
    { exampleEnv with hasAuthInitialize := true, credentials := .properties [7, 7] }
    { exampleHandshake with ports := [4000, 4001] }
    (exampleConn ((exampleReply 59).bytes true ++ [0, 0, 0])) 100 true true 1000 [7, 7]
    ⟨[], .eof, none, [(1, 1), (1, 1), (4, 1), (2, 1), (11, 1), (1, 1), (1, 1), (1, 1)],
      [([102, 45, 59, 0, 0, 0, 2, 0, 0, 15, 160, 0, 0, 15, 161, 1, 38, 3, 1, 2, 3,
        0, 0, 0, 1, 0, 1, 7, 7], 1)]⟩
    (by decide) (by decide)

/-- C30: from a well-formed reply the parse phase of `initTcrConnection`
consumes, before the `switch` on the acceptance code, exactly the acceptance
byte, the queue-status byte, the 4 queue-size bytes, on a forward channel
only the length-prefixed member-identity array, then the 2-byte length n and
the n payload bytes, and on a forward channel only the delta-enabled byte:
the connector then holds exactly the bytes `rest` that follow the reply.  The
`switch` reads on: the instantiator block is read from `rest` on a
notification channel whose acceptance code is `REPLY_OK` or
`SUCCESSFUL_SERVER_TO_CLIENT`; on a forward channel with such a code nothing
more is read, and with any other code the socket is reset and the outcome
does not depend on `rest`. -/
theorem initTcrConnection_reply_consumption (d : Decls) (k : HandshakeDecls)
    (env : HandshakeEnv) (st : Handshake) (conn : Connector) (now : Int)
    (isClientNotification isSecondary : Bool) (connectTimeout : Int)
    (creds : List Byte) (w : ReplyWire) (rest : List Byte)
    (hcred : credentialsOk env isClientNotification creds = true)
    (hsend : conn.sendFault = none)
    (hwf : w.wellFormed isClientNotification = true)
    (hin : conn.input = w.bytes isClientNotification ++ rest)
    (hssl : ¬ (toInt8 w.acceptanceCode = k.REPLY_SSL_ENABLED ∧ env.sslEnabled = false)) :
    w.bytes isClientNotification =
      (if isClientNotification then
        [w.acceptanceCode] ++ [w.serverQueueStatus] ++ w.queueSize ++ w.msgLen ++ w.message
       else
        [w.acceptanceCode] ++ [w.serverQueueStatus] ++ w.queueSize ++
          (w.memberHeader ++ w.member) ++ w.msgLen ++ w.message ++ [w.delta]) ∧
    w.queueSize.length = 4 ∧ w.msgLen.length = 2 ∧
    (DataInput.readInt16 w.msgLen).1 % 65536 = (w.message.length : Int) ∧
    (isClientNotification = false →
      arrayHeaderEncodes w.memberHeader w.member.length = true) ∧
    ∃ c2 : Connector, c2.input = rest ∧
      ((toInt8 w.acceptanceCode = k.REPLY_OK ∨
          toInt8 w.acceptanceCode = k.SUCCESSFUL_SERVER_TO_CLIENT) →
        (isClientNotification = false →
          (initTcrConnection d k env st conn now isClientNotification isSecondary
            connectTimeout).2.m_conn = some c2) ∧
        (isClientNotification = true →
          (initTcrConnection d k env st conn now isClientNotification isSecondary
            connectTimeout).1 =
            (readHandshakeInstantiatorMsg d k (some c2) connectTimeout).1.map
              (fun _ => false) ∧
          (initTcrConnection d k env st conn now isClientNotification isSecondary
            connectTimeout).2.m_conn =
            (readHandshakeInstantiatorMsg d k (some c2) connectTimeout).2)) ∧
      (¬ (toInt8 w.acceptanceCode = k.REPLY_OK ∨
          toInt8 w.acceptanceCode = k.SUCCESSFUL_SERVER_TO_CLIENT) →
        (initTcrConnection d k env st conn now isClientNotification isSecondary
          connectTimeout).2.m_conn = none ∧
        ∀ rest2 : List Byte,
          (initTcrConnection d k env st
            { conn with input := w.bytes isClientNotification ++ rest2 } now
            isClientNotification isSecondary connectTimeout).1 =
          (initTcrConnection d k env st conn now isClientNotification isSecondary
            connectTimeout).1) := by
  have hwf0 := hwf
  simp only [ReplyWire.wellFormed, Bool.and_eq_true, decide_eq_true_eq, Bool.or_eq_true] at hwf0
  obtain ⟨⟨⟨hq, hl⟩, hm⟩, hmem⟩ := hwf0
  obtain ⟨st1, c2, hc2, hrun⟩ := initTcrConnection_wire d k env st conn now
    isClientNotification isSecondary connectTimeout creds w rest hcred hsend hwf hin hssl
  refine ⟨?_, hq, hl, hm, ?_, c2, hc2, ?_, ?_⟩
  · cases isClientNotification <;> simp [ReplyWire.bytes]
  · intro hn
    rcases hmem with h | h
    · rw [hn] at h; exact absurd h (by decide)
    · exact h
  · intro hok
    constructor
    · intro hn
      subst hn
      rw [hrun, checkAcceptance_ok d k _ _ _ _ hok]
      simp only [Bool.false_eq_true, if_false]
      split <;> rfl
    · intro hn
      subst hn
      rw [hrun, checkAcceptance_ok d k _ _ _ _ hok]
      simp only [if_true]
      have hmc : (parsedState env st1 w true c2).m_conn = some c2 := rfl
      rw [hmc]
      rcases readHandshakeInstantiatorMsg d k (some c2) connectTimeout with ⟨e | u, c3⟩
      · exact ⟨rfl, rfl⟩
      · simp [Except.map]
  · intro hok
    have hok2 : ¬ (toInt8 (⟨w.acceptanceCode, w.serverQueueStatus, (w.message.length : Int),
        w.message ++ [0]⟩ : HandshakeReply).acceptanceCode = k.REPLY_OK ∨
        toInt8 (⟨w.acceptanceCode, w.serverQueueStatus, (w.message.length : Int),
        w.message ++ [0]⟩ : HandshakeReply).acceptanceCode =
          k.SUCCESSFUL_SERVER_TO_CLIENT) := hok
    constructor
    · rw [hrun, checkAcceptance_failed d k _ _ _ _ hok2]
    · intro rest2
      obtain ⟨st1b, c2b, -, hrunb⟩ := initTcrConnection_wire d k env st
        { conn with input := w.bytes isClientNotification ++ rest2 } now
        isClientNotification isSecondary connectTimeout creds w rest2 hcred hsend hwf rfl hssl
      rw [hrun, hrunb, checkAcceptance_failed d k _ _ _ _ hok2,
        checkAcceptance_failed d k _ _ _ _ hok2]

set_option maxRecDepth 16000 in
/-- Witness for C30: a forward channel whose reply has the acceptance code 59;
the byte 77 that follows the reply stays unread. -/
theorem initTcrConnection_reply_consumption_witness :
    ∃ c2 : Connector, c2.input = [77] ∧
      (initTcrConnection geodeDecls geodeHandshakeDecls exampleEnv exampleHandshake
        (exampleConn ((exampleReply 59).bytes false ++ [77])) 100 false false 1000).2.m_conn =
        some c2 := by
  obtain ⟨c2, h1, h2, -⟩ := (initTcrConnection_reply_consumption geodeDecls
    geodeHandshakeDecls exampleEnv exampleHandshake
    (exampleConn ((exampleReply 59).bytes false ++ [77])) 100 false false 1000 []
    (exampleReply 59) [77] (by decide) (by decide) (by decide) rfl (by decide)).2.2.2.2.2
  exact ⟨c2, h1, (h2 (by decide)).1 rfl⟩

set_option maxRecDepth 16000 in
/-- Counterexample to C31 as stated: on a notification channel whose reply
announces the queue status 2 (primary) and the queue size -2, the endpoint
receives the clamped size 0 while the pool receives -2, which is negative and
is not max(-2, 0). -/
theorem initTcrConnection_pool_gets_raw_queue_size :
    (initTcrConnection geodeDecls geodeHandshakeDecls exampleEnv exampleHandshake
      (exampleConn ((exampleReply 59).bytes true ++ [0, 0, 0])) 100 true false 1000).1 =
      .ok false ∧
    (initTcrConnection geodeDecls geodeHandshakeDecls exampleEnv exampleHandshake
      (exampleConn ((exampleReply 59).bytes true ++ [0, 0, 0])) 100 true false
      1000).2.endpointQueue = some (.PRIMARY_SERVER, 0) ∧
    (initTcrConnection geodeDecls geodeHandshakeDecls exampleEnv exampleHandshake
      (exampleConn ((exampleReply 59).bytes true ++ [0, 0, 0])) 100 true false
      1000).2.poolPrimaryQueueSize = some (-2) ∧
    (some (-2) : Option Int) ≠ some (max (-2) 0) := by
  decide

/-- C31 (amended): once the queue status byte and the 4-byte queue size q of
the reply have been read, the endpoint has received the mapped queue status
together with the clamped size max(q, 0); the pool's primary-queue-size
tracking is updated exactly when the channel is a notification channel and
the status is `PRIMARY_SERVER` or `NON_REDUNDANT_SERVER`, and the size it is
given is q as read, not clamped, so it is negative when q is. -/
theorem initTcrConnection_queue_propagation (d : Decls) (k : HandshakeDecls)
    (env : HandshakeEnv) (st : Handshake) (conn : Connector) (now : Int)
    (isClientNotification isSecondary : Bool) (connectTimeout : Int)
    (creds : List Byte) (acceptanceCode b : Byte) (q4 rest : List Byte)
    (hcred : credentialsOk env isClientNotification creds = true)
    (hsend : conn.sendFault = none)
    (hin : conn.input = acceptanceCode :: b :: (q4 ++ rest)) (hq : q4.length = 4)
    (hssl : ¬ (toInt8 acceptanceCode = k.REPLY_SSL_ENABLED ∧ env.sslEnabled = false)) :
    (initTcrConnection d k env st conn now isClientNotification isSecondary
      connectTimeout).2.endpointQueue =
      some (serverQueueStatusOf b, max (DataInput.readInt32 q4).1 0) ∧
    (initTcrConnection d k env st conn now isClientNotification isSecondary
      connectTimeout).2.poolPrimaryQueueSize =
      (if isClientNotification = true ∧ (serverQueueStatusOf b = .PRIMARY_SERVER ∨
          serverQueueStatusOf b = .NON_REDUNDANT_SERVER)
       then some (DataInput.readInt32 q4).1 else st.poolPrimaryQueueSize) ∧
    (st.poolPrimaryQueueSize = none →
      ((initTcrConnection d k env st conn now isClientNotification isSecondary
        connectTimeout).2.poolPrimaryQueueSize.isSome = true ↔
        (isClientNotification = true ∧ (serverQueueStatusOf b = .PRIMARY_SERVER ∨
          serverQueueStatusOf b = .NON_REDUNDANT_SERVER)))) := by
  obtain ⟨-, -, h3, h4⟩ := initTcrConnection_queue d k env st conn now isClientNotification
    isSecondary connectTimeout creds acceptanceCode b q4 rest hcred hsend hin hq hssl
  have hmax : clampQueueSize (DataInput.readInt32 q4).1 = max (DataInput.readInt32 q4).1 0 := by
    unfold clampQueueSize
    split <;> omega
  have h4b : (initTcrConnection d k env st conn now isClientNotification isSecondary
      connectTimeout).2.poolPrimaryQueueSize =
      (if isClientNotification = true ∧ (serverQueueStatusOf b = .PRIMARY_SERVER ∨
          serverQueueStatusOf b = .NON_REDUNDANT_SERVER)
       then some (DataInput.readInt32 q4).1 else st.poolPrimaryQueueSize) := by
    rw [h4]
    by_cases hc : isClientNotification = true ∧ (serverQueueStatusOf b = .PRIMARY_SERVER ∨
        serverQueueStatusOf b = .NON_REDUNDANT_SERVER)
    · rw [if_pos hc, if_pos ⟨hc.2, hc.1⟩]
    · rw [if_neg hc, if_neg (fun h => hc ⟨h.2, h.1⟩)]
  refine ⟨by rw [h3, hmax], h4b, fun hnone => ?_⟩
  rw [h4b]
  by_cases hc : isClientNotification = true ∧ (serverQueueStatusOf b = .PRIMARY_SERVER ∨
      serverQueueStatusOf b = .NON_REDUNDANT_SERVER)
  · rw [if_pos hc]; simp [hc]
  · rw [if_neg hc, hnone]; simp [hc]

set_option maxRecDepth 16000 in
/-- Witness for the amended C31: a notification channel, queue status 2 and
the queue size bytes of -2. -/
theorem initTcrConnection_queue_propagation_witness :
    (initTcrConnection geodeDecls geodeHandshakeDecls exampleEnv exampleHandshake
      (exampleConn [59, 2, 255, 255, 255, 254, 0, 0]) 100 true false
      1000).2.endpointQueue =
      some (serverQueueStatusOf 2, max (DataInput.readInt32 [255, 255, 255, 254]).1 0) ∧
    (initTcrConnection geodeDecls geodeHandshakeDecls exampleEnv exampleHandshake
      (exampleConn [59, 2, 255, 255, 255, 254, 0, 0]) 100 true false
      1000).2.poolPrimaryQueueSize =
      (if true = true ∧ (serverQueueStatusOf 2 = .PRIMARY_SERVER ∨
          serverQueueStatusOf 2 = .NON_REDUNDANT_SERVER)
       then some (DataInput.readInt32 [255, 255, 255, 254]).1
       else exampleHandshake.poolPrimaryQueueSize) :=
  ⟨(initTcrConnection_queue_propagation geodeDecls geodeHandshakeDecls exampleEnv
      exampleHandshake (exampleConn [59, 2, 255, 255, 255, 254, 0, 0]) 100 true false 1000 []
      59 2 [255, 255, 255, 254] [0, 0] (by decide) (by decide) (by decide) (by decide)
      (by decide)).1,
    (initTcrConnection_queue_propagation geodeDecls geodeHandshakeDecls exampleEnv
      exampleHandshake (exampleConn [59, 2, 255, 255, 255, 254, 0, 0]) 100 true false 1000 []
      59 2 [255, 255, 255, 254] [0, 0] (by decide) (by decide) (by decide) (by decide)
      (by decide)).2.1⟩

/-- The first read of `readMessage` is the header read, made with the local
`headerTimeout`. -/
theorem readMessage_header_read (d : Decls) (c : Connector) (recvLen : Int)
    (opErr : ConnErrType) (timeout : Int) (retries notif : Bool) (request : Int) :
    ∃ tail : List (Nat × Int),
      (readMessage d c recvLen opErr timeout retries notif request).m_conn.reads =
        c.reads ++
          (HEADER_LENGTH, toMilliseconds (readMessageHeaderTimeout d timeout retries)) :: tail := by
  have h1 := receiveData_reads c HEADER_LENGTH (readMessageHeaderTimeout d timeout retries)
  unfold readMessageHeaderTimeout at h1 ⊢
  unfold readMessage
  dsimp only
  generalize receiveData c HEADER_LENGTH
    (if retries = true ∧ timeout = d.DEFAULT_READ_TIMEOUT then
      d.DEFAULT_READ_TIMEOUT * d.DEFAULT_TIMEOUT_RETRIES else timeout) = r at h1 ⊢
  obtain ⟨error, hdr, conn1⟩ := r
  dsimp only at h1 ⊢
  by_cases he : error ≠ .CONN_NOERR
  · rw [if_pos he]
    refine ⟨[], ?_⟩
    rw [List.append_cons, List.append_nil, ← h1]
    split <;> split <;> rfl
  · rw [if_neg he]
    by_cases hneg : (DataInput.readInt32 (DataInput.readInt32 hdr).2).1 < 0
    · rw [if_pos hneg]
      exact ⟨[], by rw [List.append_cons, List.append_nil, ← h1]⟩
    · rw [if_neg hneg]
      by_cases hsp : ¬ ((DataInput.readInt32 (DataInput.readInt32 hdr).2).1 > 0) ∧
          request = d.GET_CLIENT_PR_METADATA
      · rw [if_pos hsp]
        exact ⟨[], by rw [List.append_cons, List.append_nil, ← h1]⟩
      · rw [if_neg hsp]
        have h2 := receiveData_reads conn1
          (DataInput.readInt32 (DataInput.readInt32 hdr).2).1.toNat
          (if notif = true then timeout * d.DEFAULT_TIMEOUT_RETRIES else timeout)
        generalize receiveData conn1
          (DataInput.readInt32 (DataInput.readInt32 hdr).2).1.toNat
          (if notif = true then timeout * d.DEFAULT_TIMEOUT_RETRIES else timeout) = r2 at h2 ⊢
        obtain ⟨error2, body, conn2⟩ := r2
        dsimp only at h2 ⊢
        refine ⟨[((DataInput.readInt32 (DataInput.readInt32 hdr).2).1.toNat,
          toMilliseconds (if notif = true then timeout * d.DEFAULT_TIMEOUT_RETRIES
            else timeout))], ?_⟩
        have h3 : conn2.reads = c.reads ++
            (HEADER_LENGTH, toMilliseconds
              (if retries = true ∧ timeout = d.DEFAULT_READ_TIMEOUT then
                d.DEFAULT_READ_TIMEOUT * d.DEFAULT_TIMEOUT_RETRIES else timeout)) ::
            [((DataInput.readInt32 (DataInput.readInt32 hdr).2).1.toNat,
              toMilliseconds (if notif = true then timeout * d.DEFAULT_TIMEOUT_RETRIES
                else timeout))] := by
          rw [h2, h1]; simp
        rw [← h3]
        split
        · split
          · rfl
          · split <;> rfl
        · rfl

/-- C32: the header-read timeout is the caller's receive timeout multiplied by
`DEFAULT_TIMEOUT_RETRIES` when header retry is requested and the receive
timeout equals `DEFAULT_READ_TIMEOUT`, and the receive timeout unchanged
otherwise.  `calculateHeaderTimeout` (chunked path) and the local
`headerTimeout` of `readMessage` (simple path), which is the timeout of its
header read, agree for every receive timeout and retry flag; `receive` reads
the header with the receive timeout unchanged. -/
theorem calculateHeaderTimeout_spec (d : Decls) (c : Connector) (recvLen : Int)
    (opErr : ConnErrType) (receiveTimeout : Int) (retry notif : Bool) (request : Int) :
    calculateHeaderTimeout d receiveTimeout retry =
      (if retry = true ∧ receiveTimeout = d.DEFAULT_READ_TIMEOUT then
        receiveTimeout * d.DEFAULT_TIMEOUT_RETRIES
       else receiveTimeout) ∧
    readMessageHeaderTimeout d receiveTimeout retry =
      calculateHeaderTimeout d receiveTimeout retry ∧
    (∃ tail : List (Nat × Int),
      (readMessage d c recvLen opErr receiveTimeout retry notif request).m_conn.reads =
        c.reads ++
          (HEADER_LENGTH, toMilliseconds (calculateHeaderTimeout d receiveTimeout retry)) ::
            tail) ∧
    (∃ tail : List (Nat × Int),
      (receive d c recvLen opErr receiveTimeout).m_conn.reads =
        c.reads ++ (HEADER_LENGTH, toMilliseconds receiveTimeout) :: tail) ∧
    calculateHeaderTimeout d receiveTimeout false = receiveTimeout := by
  have heq : readMessageHeaderTimeout d receiveTimeout retry =
      calculateHeaderTimeout d receiveTimeout retry := by
    unfold readMessageHeaderTimeout calculateHeaderTimeout
    by_cases h : retry = true ∧ receiveTimeout = d.DEFAULT_READ_TIMEOUT
    · rw [if_pos h, if_pos h, h.2]
    · rw [if_neg h, if_neg h]
  refine ⟨rfl, heq, ?_, ?_, ?_⟩
  · rw [← heq]
    exact readMessage_header_read d c recvLen opErr receiveTimeout retry notif request
  · obtain ⟨tail, h⟩ := readMessage_header_read d c recvLen opErr receiveTimeout false true
      d.defaultRequest
    refine ⟨tail, ?_⟩
    unfold receive
    rw [h]
    simp [readMessageHeaderTimeout]
  · simp [calculateHeaderTimeout]

theorem andTimeout_noerr (d : Decls) (h0 : d.errValue .CONN_NOERR = 0) :
    d.andTimeout .CONN_NOERR = false := by
  simp [Decls.andTimeout, h0]

theorem readHandshakeString_tag_failure (d : Decls) (k : HandshakeDecls) (c : Connector)
    (t : Int) (h0 : d.errValue .CONN_NOERR = 0) (hin : c.input = []) :
    readHandshakeString d k (some c) t =
      (.error (.GeodeIOException
        "TcrConnection::TcrConnection: Handshake failure reading string type ID"), none) := by
  unfold readHandshakeString
  dsimp only
  rw [receiveData_short c 1 t (by simp [hin])]
  simp [recvError_ne_noerr, andTimeout_noerr d h0]

theorem readHandshakeData_timeout (d : Decls) (m : Option Connector) (n : Int) (t : Int)
    (msg : String) (h : (readHandshakeData d m n t).1 = .error (.TimeoutException msg)) :
    msg = "TcrConnection::TcrConnection: Timeout in handshake" := by
  revert h
  unfold readHandshakeData handshakeReadFailure
  dsimp only
  repeat' split
  all_goals first
    | (intro h; simp only [Except.error.injEq, Thrown.TimeoutException.injEq] at h; exact h.symm)
    | (intro h; exact absurd h (by simp))

theorem readHandshakeStringBytes_timeout (d : Decls) (m : Option Connector) (n : Nat) (t : Int)
    (msg : String)
    (h : (readHandshakeStringBytes d m n t).1 = .error (.TimeoutException msg)) :
    msg = "TcrConnection::TcrConnection: Timeout in handshake reading string bytes" := by
  revert h
  unfold readHandshakeStringBytes
  dsimp only
  repeat' split
  all_goals first
    | (intro h; simp only [Except.error.injEq, Thrown.TimeoutException.injEq] at h; exact h.symm)
    | (intro h; exact absurd h (by simp))

/-- C33: when the read of the 1-byte type tag fails, `readHandshakeString`
resets `m_conn` and throws `GeodeIOException`, whatever fault the transport
reported (a timeout included), because the test `error & CONN_TIMEOUT` is made
on the local `error`, which still holds `CONN_NOERR`.  A `TimeoutException`
leaves `readHandshakeString` only after the tag has been read and was
`CacheableASCIIString`: from the read of the 2-byte length or from the read of
the string bytes. -/
theorem readHandshakeString_tag_read_failure (d : Decls) (k : HandshakeDecls) (c : Connector)
    (connectTimeout : Int) (hnoerr : d.errValue .CONN_NOERR = 0) :
    (c.input = [] →
      readHandshakeString d k (some c) connectTimeout =
        (.error (.GeodeIOException
          "TcrConnection::TcrConnection: Handshake failure reading string type ID"),
          none)) ∧
    (∀ msg : String,
      (readHandshakeString d k (some c) connectTimeout).1 = .error (.TimeoutException msg) →
      ∃ (tag : Byte) (rest : List Byte), c.input = tag :: rest ∧
        toInt8 tag = k.CacheableASCIIString ∧
        (msg = "TcrConnection::TcrConnection: Timeout in handshake" ∨
         msg = "TcrConnection::TcrConnection: Timeout in handshake reading string bytes")) := by
  refine ⟨readHandshakeString_tag_failure d k c connectTimeout hnoerr, fun msg h => ?_⟩
  cases hc : c.input with
  | nil =>
    rw [readHandshakeString_tag_failure d k c connectTimeout hnoerr hc] at h
    exact absurd h (by simp)
  | cons tag rest =>
    refine ⟨tag, rest, rfl, ?_⟩
    rw [readHandshakeString_tag d k c connectTimeout tag rest hc] at h
    by_cases hn : toInt8 tag = k.CacheableNullString
    · rw [if_pos hn] at h
      exact absurd h (by simp)
    · rw [if_neg hn] at h
      by_cases ha : toInt8 tag = k.CacheableASCIIString
      · refine ⟨ha, ?_⟩
        rw [if_pos ha] at h
        rcases hq : readHandshakeData d
          (some { c with input := rest,
                         reads := c.reads ++ [(1, toMilliseconds connectTimeout)] }) 2
          connectTimeout with ⟨e | lenBytes, c2⟩
        · rw [hq] at h
          have h1 : (Except.error e : Except Thrown (Option (List Byte))) =
              .error (.TimeoutException msg) := h
          left
          exact readHandshakeData_timeout d _ 2 connectTimeout msg
            (by rw [hq]; simpa using h1)
        · rw [hq] at h
          have h1 : (readHandshakeStringBytes d c2
              ((DataInput.readInt16 lenBytes).1 % 4294967296).toNat connectTimeout).1 =
              .error (.TimeoutException msg) := h
          right
          exact readHandshakeStringBytes_timeout d c2 _ connectTimeout msg h1
      · rw [if_neg ha] at h
        by_cases hu : toInt8 tag ∈ k.unsupportedStringTags
        · rw [if_pos hu] at h
          exact absurd h (by simp)
        · rw [if_neg hu] at h
          exact absurd h (by simp [readHandshakeStringBytes])

/-- Witness for C33: the peer sends nothing and the read of the type tag times
out. -/
theorem readHandshakeString_tag_read_failure_witness :
    readHandshakeString geodeDecls geodeHandshakeDecls
      (some ⟨[], .operation_aborted, none, [], []⟩) 1000 =
      (.error (.GeodeIOException
        "TcrConnection::TcrConnection: Handshake failure reading string type ID"), none) :=
  (readHandshakeString_tag_read_failure geodeDecls geodeHandshakeDecls
    ⟨[], .operation_aborted, none, [], []⟩ 1000 (by decide)).1 rfl

/-- C34: a type-tag byte that is none of the tags listed in the `switch` of
`readHandshakeString` is not rejected: the call returns no value, reads no
further byte and leaves the socket in place.  An ASCII string whose 2-byte
length is 0 also comes back as no value, after the tag and the two length
bytes, 3 bytes in all, have been consumed. -/
theorem readHandshakeString_unlisted_tag (d : Decls) (k : HandshakeDecls) (c : Connector)
    (connectTimeout : Int) (tag : Byte) (rest : List Byte) (hin : c.input = tag :: rest) :
    (toInt8 tag ≠ k.CacheableNullString → toInt8 tag ≠ k.CacheableASCIIString →
      toInt8 tag ∉ k.unsupportedStringTags →
      ∃ c1 : Connector,
        readHandshakeString d k (some c) connectTimeout = (.ok none, some c1) ∧
        c1.input = rest ∧
        c1.reads = c.reads ++ [(1, toMilliseconds connectTimeout)]) ∧
    (toInt8 tag ≠ k.CacheableNullString → toInt8 tag = k.CacheableASCIIString →
      ∀ ys : List Byte, rest = 0 :: 0 :: ys →
      ∃ c1 : Connector,
        readHandshakeString d k (some c) connectTimeout = (.ok none, some c1) ∧
        c1.input = ys ∧
        c1.reads = c.reads ++ [(1, toMilliseconds connectTimeout),
          (2, toMilliseconds connectTimeout)]) := by
  have htag := readHandshakeString_tag d k c connectTimeout tag rest hin
  refine ⟨fun hn ha hu => ?_, fun hn ha ys hrest => ?_⟩
  · rw [htag, if_neg hn, if_neg ha, if_neg hu]
    exact ⟨_, rfl, rfl, rfl⟩
  · rw [htag, if_neg hn, if_pos ha]
    have h2 := readHandshakeData_take d
      { c with input := rest, reads := c.reads ++ [(1, toMilliseconds connectTimeout)] } 2
      connectTimeout (by simp [hrest])
    simp only [Nat.cast_ofNat, hrest] at h2
    rw [hrest, h2]
    refine ⟨afterRead
      { c with input := 0 :: 0 :: ys,
               reads := c.reads ++ [(1, toMilliseconds connectTimeout)] } 2 connectTimeout,
      ?_, ?_, ?_⟩
    · simp [readHandshakeStringBytes, DataInput.readInt16]
    · simp [afterRead]
    · simp [afterRead]

set_option maxRecDepth 8000 in
/-- Witness for C34: the tag byte 200 is none of the tags of the example
declarations; the bytes 9, 9 stay unread. -/
theorem readHandshakeString_unlisted_tag_witness :
    ∃ c1 : Connector,
      readHandshakeString geodeDecls geodeHandshakeDecls
        (some (exampleConn [200, 9, 9])) 1000 = (.ok none, some c1) ∧
      c1.input = [9, 9] ∧
      c1.reads = (exampleConn [200, 9, 9]).reads ++ [(1, toMilliseconds 1000)] :=
  (readHandshakeString_unlisted_tag geodeDecls geodeHandshakeDecls (exampleConn [200, 9, 9])
    1000 200 [9, 9] rfl).1 (by decide) (by decide) (by decide)

end TcrConnection
